import Mathlib

/-!
# Media codec facade (`src/media_codec.c`)

A shallow embedding of the public `hb_mm_mc_*` operations.  Every operation
validates its pointer arguments, resolves the codec task of the caller's
context through the registry (`MCAPPGetTaskLocked`), performs one task level
operation, and drops the reference it was handed (`MCTaskDecRef`).

The registry, the task and the default tables are collaborators that live
outside `media_codec.c`.  They are taken as a parameter (`Env`): each one is a
function on an abstract world `σ`.  A facade operation is a function from the
world before the call to an `Outcome`: the value it returns (with the contents
it left behind the caller's out-pointers), the world after the call, and the
list of collaborator calls it made, in order.

Conventions of the embedding:
* a pointer argument is an `Option`, `none` being `NULL`;
* the enumerators of the two public headers are a parameter (`Header`);
* a collaborator is handed the caller's context by value, so the only writes to
  the context are the facade's own;
* the `VLOG` statements are left out: they change neither results nor calls.
-/

namespace MediaCodec

/-! ## Scalar types and enumerations -/

abbrev hb_s32 := Int
abbrev hb_u32 := Nat
abbrev hb_bool := Int
abbrev FALSE : hb_bool := 0
abbrev TRUE : hb_bool := 1

/-- A `void *` or function pointer: `none` is `NULL`, `some a` an address. -/
abbrev hb_ptr := Option Nat

/-- Contents of a caller-owned struct (parameter block, buffer descriptor,
status record).  The facade passes these through without looking inside. -/
abbrev Blob := List Int

/-- Values of `media_codec_id_t`. -/
abbrev media_codec_id_t := Int

/-- The enumerators of `hb_media_error.h` and `hb_media_codec.h` that
`media_codec.c` names.  Both headers are outside the sources, so the values
are a parameter of every operation. -/
structure Header where
  HB_MEDIA_ERR_UNKNOWN : hb_s32
  HB_MEDIA_ERR_CODEC_NOT_FOUND : hb_s32
  HB_MEDIA_ERR_OPERATION_NOT_ALLOWED : hb_s32
  HB_MEDIA_ERR_INSUFFICIENT_RES : hb_s32
  HB_MEDIA_ERR_INVALID_PARAMS : hb_s32
  HB_MEDIA_ERR_INVALID_INSTANCE : hb_s32
  HB_MEDIA_ERR_WAIT_TIMEOUT : hb_s32
  MEDIA_CODEC_ID_NONE : media_codec_id_t
  MEDIA_CODEC_ID_H264 : media_codec_id_t
  MEDIA_CODEC_ID_H265 : media_codec_id_t
  MEDIA_CODEC_ID_MJPEG : media_codec_id_t
  MEDIA_CODEC_ID_JPEG : media_codec_id_t
  MEDIA_CODEC_ID_AAC : media_codec_id_t
  MEDIA_CODEC_ID_FLAC : media_codec_id_t
  MEDIA_CODEC_ID_PCM_MULAW : media_codec_id_t
  MEDIA_CODEC_ID_PCM_ALAW : media_codec_id_t
  MEDIA_CODEC_ID_ADPCM_G726 : media_codec_id_t
  MEDIA_CODEC_ID_ADPCM : media_codec_id_t
  MEDIA_CODEC_ID_TOTAL : media_codec_id_t

/-- Every error enumerator the facade itself produces differs from the success
code `0`. -/
def Header.ErrorsNonZero (H : Header) : Prop :=
  H.HB_MEDIA_ERR_UNKNOWN ≠ 0 ∧ H.HB_MEDIA_ERR_CODEC_NOT_FOUND ≠ 0 ∧
  H.HB_MEDIA_ERR_OPERATION_NOT_ALLOWED ≠ 0 ∧ H.HB_MEDIA_ERR_INSUFFICIENT_RES ≠ 0 ∧
  H.HB_MEDIA_ERR_INVALID_PARAMS ≠ 0 ∧ H.HB_MEDIA_ERR_INVALID_INSTANCE ≠ 0

/-- The error enumerators produced by the lookup mapper are pairwise distinct. -/
def Header.ErrorsDistinct (H : Header) : Prop :=
  H.HB_MEDIA_ERR_INVALID_PARAMS ≠ H.HB_MEDIA_ERR_OPERATION_NOT_ALLOWED ∧
  H.HB_MEDIA_ERR_INVALID_PARAMS ≠ H.HB_MEDIA_ERR_INVALID_INSTANCE ∧
  H.HB_MEDIA_ERR_INVALID_PARAMS ≠ H.HB_MEDIA_ERR_UNKNOWN ∧
  H.HB_MEDIA_ERR_OPERATION_NOT_ALLOWED ≠ H.HB_MEDIA_ERR_INVALID_INSTANCE ∧
  H.HB_MEDIA_ERR_OPERATION_NOT_ALLOWED ≠ H.HB_MEDIA_ERR_UNKNOWN ∧
  H.HB_MEDIA_ERR_INVALID_INSTANCE ≠ H.HB_MEDIA_ERR_UNKNOWN

instance (H : Header) : Decidable H.ErrorsNonZero := by
  unfold Header.ErrorsNonZero
  infer_instance

instance (H : Header) : Decidable H.ErrorsDistinct := by
  unfold Header.ErrorsDistinct
  infer_instance

/-- Outcome of a registry lookup (`MCTaskQueryError`).  `unrecognised` stands
for any value of the C enum other than the five the facade names. -/
inductive MCTaskQueryError where
  | MC_TASK_EXIST
  | MC_TASK_NOT_EXIST
  | MC_TASK_WRONG_APP_TYPE
  | MC_TASK_WRONG_INST_IDX
  | MC_TASK_INVALID_PARAMS
  | unrecognised (raw : Int)
deriving DecidableEq

/-- Classification of a codec id (`MCAppType`).  The facade names the video
and the JPEG class only; `other` is every remaining class. -/
inductive MCAppType where
  | MC_APP_VIDEO
  | MC_APP_JPEG
  | other (raw : Int)
deriving DecidableEq

/-- Lifecycle state reported by `hb_mm_mc_get_state`.  The sources name two
enumerators; `other` is every remaining one. -/
inductive media_codec_state_t where
  | MEDIA_CODEC_STATE_NONE
  | MEDIA_CODEC_STATE_UNINITIALIZED
  | other (raw : Int)
deriving DecidableEq

/-- Tag selecting a parameter kind in `MCTaskGetConfig` / `MCTaskSetConfig`. -/
inductive EncConfig where
  | ENC_CONFIG_LONGTERM_REF
  | ENC_CONFIG_INTRA_REFRESH
  | ENC_CONFIG_RATE_CONTROL
  | ENC_CONFIG_TRANS_BITRATE
  | ENC_CONFIG_DEBLK_FILTER
  | ENC_CONFIG_SAO
  | ENC_CONFIG_ENTROPY
  | ENC_CONFIG_VUI_TIMING
  | ENC_CONFIG_VUI
  | ENC_CONFIG_SLICE
  | ENC_CONFIG_INSERT_USERDATA
  | ENC_CONFIG_REQUEST_IDR
  | ENC_CONFIG_REQUEST_IDR_HEADER
  | ENC_CONFIG_ENABLE_IDR
  | ENC_CONFIG_SKIP_PIC
  | ENC_CONFIG_3DNR
  | ENC_CONFIG_SMART_BG
  | ENC_CONFIG_MONOCHROMA
  | ENC_CONFIG_PRED_UNIT
  | ENC_CONFIG_TRANSFORM
  | ENC_CONFIG_ROI
  | ENC_CONFIG_ROI_AVG_QP
  | ENC_CONFIG_ROI_EX
  | ENC_CONFIG_MODE_DECISION
  | ENC_CONFIG_ENCODE_MODE
  | ENC_CONFIG_ENABLE_EXP_HEADER
  | ENC_CONFIG_MJPEG
  | ENC_CONFIG_JPEG
  | ENC_CONFIG_CAMERA
deriving DecidableEq

/-! ## Caller-side data -/

/-- The fields of `media_codec_context_t` the facade reads or writes. -/
structure media_codec_context_t where
  codec_id : media_codec_id_t
  encoder : hb_bool
  instance_index : hb_s32
  video_enc_params : Blob
  video_dec_params : Blob
  audio_enc_params : Blob
  audio_dec_params : Blob
deriving DecidableEq

/-- The four function pointers of `media_codec_callback_t`. -/
structure media_codec_callback_t where
  on_input_buffer_available : hb_ptr
  on_output_buffer_available : hb_ptr
  on_media_codec_message : hb_ptr
  on_vlc_buffer_message : hb_ptr
deriving DecidableEq

/-- A non-NULL `MCTaskContext *`, identified by its address.  A task pointer
variable of the facade is an `Option MCTaskContext`, `none` being `NULL`. -/
abbrev MCTaskContext := Nat

/-- The `const void *` handed to `MCTaskSetConfig`. -/
inductive ConfigArg where
  | null
  | block (params : Blob)
  | word (value : Int)
  | user_data (size : hb_u32) (virt_addr : hb_ptr)
  | cam_info (cam_pipline : hb_s32) (cam_channel : hb_s32)
deriving DecidableEq

/-- The default tables (`mc_video_get_default_*_params`) the getters fall back
to, each with the scalar arguments it is called with. -/
inductive DefaultProvider where
  | mc_video_get_default_longtermRef_params
  | mc_video_get_default_intraRefresh_params (codec_id : media_codec_id_t)
  | mc_video_get_default_rate_control_params
  | mc_video_get_default_transrate_params
  | mc_video_get_default_deblkFilter_params (codec_id : media_codec_id_t)
  | mc_video_get_default_sao_params
  | mc_video_get_default_entropy_params
  | mc_video_get_default_VUITiming_params (codec_id : media_codec_id_t) (frameRate : hb_u32)
  | mc_video_get_default_VUI_params (codec_id : media_codec_id_t) (frameRate : hb_u32)
  | mc_video_get_default_slice_params (codec_id : media_codec_id_t)
  | mc_video_get_default_3dnr_params
  | mc_video_get_default_smartBG_params
  | mc_video_get_default_monochroma_params
  | mc_video_get_default_predUnit_params (codec_id : media_codec_id_t)
  | mc_video_get_default_transform_params (codec_id : media_codec_id_t)
  | mc_video_get_default_roi_params
  | mc_video_get_default_roi_avgQP_params
  | mc_video_get_default_roi_params_ex (roi_idx : hb_u32)
  | mc_video_get_default_modeDecision_params
  | mc_video_get_default_encodeMode_params
  | mc_video_get_default_explicitHeader_params
  | mc_video_get_default_mjpeg_params
  | mc_video_get_default_jpeg_params
deriving DecidableEq

/-! ## Collaborator calls -/

/-- The entry points of the facade that the demo of `main.cpp` calls. -/
inductive ApiCall where
  | init
  | configure
  | start
  | dequeue_input_buffer
  | queue_input_buffer
  | dequeue_output_buffer
  | queue_output_buffer
  | flush
  | stop
  | release
deriving DecidableEq

/-- One call across the boundary of `media_codec.c`, with the arguments the
facade passes.  The records of the two calls that hand out a task pointer
(`MCAPPGetTaskLocked`, `MCTaskCreate`) also carry what they handed out.  The
last constructor records the other side of the boundary: the demo entering one
of the facade's operations. -/
inductive Call where
  | MCAppInitLocked (codec_id : media_codec_id_t)
  | MCAPPGetTaskLocked (context : media_codec_context_t) (queryErr : MCTaskQueryError)
      (task : Option MCTaskContext)
  | MCTaskCreate (task : Option MCTaskContext)
  | MCTaskInitLocked (task : Option MCTaskContext) (codec_id : media_codec_id_t)
      (encoder : hb_bool) (context : media_codec_context_t)
  | MCAppAddTaskLocked (task : Option MCTaskContext)
  | MCTaskDecRef (task : MCTaskContext)
  | MCTaskRegisterListernerLocked (task : Option MCTaskContext)
      (callback : media_codec_callback_t) (userdata : hb_ptr) (context : media_codec_context_t)
  | MCTaskRegisterVLCBufListernerLocked (task : Option MCTaskContext)
      (callback : media_codec_callback_t) (userdata : hb_ptr) (context : media_codec_context_t)
  | MCTaskConfigureLocked (task : Option MCTaskContext) (context : media_codec_context_t)
  | MCTaskStartLocked (task : Option MCTaskContext) (info : Option Blob)
  | MCTaskStopLocked (task : Option MCTaskContext)
  | MCTaskPauseLocked (task : Option MCTaskContext)
  | MCTaskFlushLocked (task : Option MCTaskContext)
  | MCTaskRelease (task : Option MCTaskContext)
  | MCAppDeleteTaskLocked (task : Option MCTaskContext)
  | MCTaskGetStateLocked (task : Option MCTaskContext) (state : media_codec_state_t)
  | MCTaskGetStatusLocked (task : Option MCTaskContext) (context : media_codec_context_t)
      (status : Blob)
  | MCTaskSetStatusLocked (task : Option MCTaskContext) (context : media_codec_context_t)
      (status : Blob)
  | MCTaskQueueInputBufferLocked (task : Option MCTaskContext) (buffer : Blob) (timeout : hb_s32)
  | MCTaskDequeueInputBufferLocked (task : Option MCTaskContext) (buffer : Blob) (timeout : hb_s32)
  | MCTaskQueueOutputBufferLocked (task : Option MCTaskContext) (buffer : Blob) (timeout : hb_s32)
  | MCTaskDequeueOutputBufferLocked (task : Option MCTaskContext) (buffer : Blob)
      (info : Option Blob) (timeout : hb_s32)
  | MCTaskGetConfig (task : Option MCTaskContext) (context : media_codec_context_t)
      (tag : EncConfig) (params : Blob)
  | MCTaskSetConfig (task : Option MCTaskContext) (context : media_codec_context_t)
      (tag : EncConfig) (params : ConfigArg)
  | MCTaskGetUserData (task : Option MCTaskContext) (params : Blob) (timeout : hb_s32)
  | MCTaskReleaseUserData (task : Option MCTaskContext) (params : Blob)
  | MCTaskOpenFdLocked (task : Option MCTaskContext) (codec_id : media_codec_id_t) (fd : hb_s32)
  | MCTaskCloseFdLocked (task : Option MCTaskContext) (codec_id : media_codec_id_t) (fd : hb_s32)
  | default_params (provider : DefaultProvider) (params : Blob)
  | MCAPPRegisterAudioEncoder (handle : Option hb_s32) (encoder : Option Blob)
  | MCAPPUnregisterAudioEncoder (handle : hb_s32)
  | MCAPPRegisterAudioDecoder (handle : Option hb_s32) (decoder : Option Blob)
  | MCAPPUnregisterAudioDecoder (handle : hb_s32)
  | api (entry : ApiCall)
deriving DecidableEq

/-- The collaborators of `media_codec.c` over a world `σ`.  A function that
writes through a pointer returns the new contents next to its result code.
`MCTaskGetAppType` and `mc_video_get_enc_frame_rate` only read their argument;
`instIdx` is the field `task->instIdx`, and `set_roi_idx` the store
`params->roi_idx = roi_idx` into a `mc_video_roi_params_ex_t`. -/
structure Env (σ : Type) where
  MCAppInitLocked : media_codec_id_t → σ → hb_s32 × σ
  MCAPPGetTaskLocked : media_codec_context_t → σ →
    (MCTaskQueryError × Option MCTaskContext) × σ
  MCTaskCreate : σ → Option MCTaskContext × σ
  MCTaskInitLocked : Option MCTaskContext → media_codec_id_t → hb_bool →
    media_codec_context_t → σ → hb_s32 × σ
  MCAppAddTaskLocked : Option MCTaskContext → σ → hb_s32 × σ
  MCTaskDecRef : MCTaskContext → σ → σ
  instIdx : MCTaskContext → σ → hb_s32
  MCTaskRegisterListernerLocked : Option MCTaskContext → media_codec_callback_t → hb_ptr →
    media_codec_context_t → σ → hb_s32 × σ
  MCTaskRegisterVLCBufListernerLocked : Option MCTaskContext → media_codec_callback_t →
    hb_ptr → media_codec_context_t → σ → hb_s32 × σ
  MCTaskConfigureLocked : Option MCTaskContext → media_codec_context_t → σ → hb_s32 × σ
  MCTaskStartLocked : Option MCTaskContext → Option Blob → σ → hb_s32 × σ
  MCTaskStopLocked : Option MCTaskContext → σ → hb_s32 × σ
  MCTaskPauseLocked : Option MCTaskContext → σ → hb_s32 × σ
  MCTaskFlushLocked : Option MCTaskContext → σ → hb_s32 × σ
  MCTaskRelease : Option MCTaskContext → σ → hb_s32 × σ
  MCAppDeleteTaskLocked : Option MCTaskContext → σ → hb_s32 × σ
  MCTaskGetStateLocked : Option MCTaskContext → media_codec_state_t → σ →
    (hb_s32 × media_codec_state_t) × σ
  MCTaskGetStatusLocked : Option MCTaskContext → media_codec_context_t → Blob → σ →
    (hb_s32 × Blob) × σ
  MCTaskSetStatusLocked : Option MCTaskContext → media_codec_context_t → Blob → σ →
    (hb_s32 × Blob) × σ
  MCTaskQueueInputBufferLocked : Option MCTaskContext → Blob → hb_s32 → σ →
    (hb_s32 × Blob) × σ
  MCTaskDequeueInputBufferLocked : Option MCTaskContext → Blob → hb_s32 → σ →
    (hb_s32 × Blob) × σ
  MCTaskQueueOutputBufferLocked : Option MCTaskContext → Blob → hb_s32 → σ →
    (hb_s32 × Blob) × σ
  MCTaskDequeueOutputBufferLocked : Option MCTaskContext → Blob → Option Blob → hb_s32 → σ →
    (hb_s32 × Blob × Option Blob) × σ
  MCTaskGetConfig : Option MCTaskContext → media_codec_context_t → EncConfig → Blob → σ →
    (hb_s32 × Blob) × σ
  MCTaskSetConfig : Option MCTaskContext → media_codec_context_t → EncConfig → ConfigArg →
    σ → hb_s32 × σ
  MCTaskGetUserData : Option MCTaskContext → Blob → hb_s32 → σ → (hb_s32 × Blob) × σ
  MCTaskReleaseUserData : Option MCTaskContext → Blob → σ → hb_s32 × σ
  MCTaskOpenFdLocked : Option MCTaskContext → media_codec_id_t → hb_s32 → σ →
    (hb_s32 × hb_s32) × σ
  MCTaskCloseFdLocked : Option MCTaskContext → media_codec_id_t → hb_s32 → σ → hb_s32 × σ
  MCTaskGetAppType : media_codec_id_t → MCAppType
  mc_video_get_enc_frame_rate : media_codec_context_t → hb_u32
  default_params : DefaultProvider → Blob → hb_s32 × Blob
  set_roi_idx : hb_u32 → Blob → Blob

/-! ## The facade monad -/

/-- What a facade operation leaves behind. -/
structure Outcome (σ α : Type) where
  val : α
  world : σ
  calls : List Call

/-- A facade computation: from the world before to the outcome. -/
def Facade (σ α : Type) : Type := σ → Outcome σ α

namespace Facade

variable {σ α β : Type}

/-- Run a computation from a world. -/
def run (m : Facade σ α) (w : σ) : Outcome σ α := m w

/-- Return a value without calling anything. -/
def ret (a : α) : Facade σ α := fun w => ⟨a, w, []⟩

/-- Sequence two computations; the call lists are concatenated. -/
def andThen (m : Facade σ α) (f : α → Facade σ β) : Facade σ β := fun w =>
  let r := m w
  let r2 := f r.val r.world
  ⟨r2.val, r2.world, r.calls ++ r2.calls⟩

/-- Perform one collaborator call: log it and apply its effect. -/
def call (c : α → Call) (f : σ → α × σ) : Facade σ α := fun w =>
  let r := f w
  ⟨r.1, r.2, [c r.1]⟩

/-- Read the world without calling anything (a field access such as
`task->instIdx`). -/
def read (f : σ → α) : Facade σ α := fun w => ⟨f w, w, []⟩

/-- Keep the result code of an operation and forget what it left behind the
caller's out-pointers. -/
def code (m : Facade σ (hb_s32 × α)) : Facade σ hb_s32 := fun w =>
  ⟨(m w).val.1, (m w).world, (m w).calls⟩

end Facade

instance {σ : Type} : Monad (Facade σ) where
  pure := Facade.ret
  bind := Facade.andThen

variable {σ : Type}

/-! ## The collaborators as logged calls -/

section Collaborators

variable (env : Env σ)

def MCAppInitLocked (codec_id : media_codec_id_t) : Facade σ hb_s32 :=
  Facade.call (fun _ => Call.MCAppInitLocked codec_id) (env.MCAppInitLocked codec_id)

def MCAPPGetTaskLocked (context : media_codec_context_t) :
    Facade σ (MCTaskQueryError × Option MCTaskContext) :=
  Facade.call (fun r => Call.MCAPPGetTaskLocked context r.1 r.2) (env.MCAPPGetTaskLocked context)

def MCTaskCreate : Facade σ (Option MCTaskContext) :=
  Facade.call (fun r => Call.MCTaskCreate r) env.MCTaskCreate

def MCTaskInitLocked (task : Option MCTaskContext) (codec_id : media_codec_id_t)
    (encoder : hb_bool) (context : media_codec_context_t) : Facade σ hb_s32 :=
  Facade.call (fun _ => Call.MCTaskInitLocked task codec_id encoder context)
    (env.MCTaskInitLocked task codec_id encoder context)

def MCAppAddTaskLocked (task : Option MCTaskContext) : Facade σ hb_s32 :=
  Facade.call (fun _ => Call.MCAppAddTaskLocked task) (env.MCAppAddTaskLocked task)

def MCTaskDecRef (task : MCTaskContext) : Facade σ Unit :=
  Facade.call (fun _ => Call.MCTaskDecRef task) (fun w => ((), env.MCTaskDecRef task w))

def MCTaskRegisterListernerLocked (task : Option MCTaskContext)
    (callback : media_codec_callback_t) (userdata : hb_ptr) (context : media_codec_context_t) :
    Facade σ hb_s32 :=
  Facade.call (fun _ => Call.MCTaskRegisterListernerLocked task callback userdata context)
    (env.MCTaskRegisterListernerLocked task callback userdata context)

def MCTaskRegisterVLCBufListernerLocked (task : Option MCTaskContext)
    (callback : media_codec_callback_t) (userdata : hb_ptr) (context : media_codec_context_t) :
    Facade σ hb_s32 :=
  Facade.call (fun _ => Call.MCTaskRegisterVLCBufListernerLocked task callback userdata context)
    (env.MCTaskRegisterVLCBufListernerLocked task callback userdata context)

def MCTaskConfigureLocked (task : Option MCTaskContext) (context : media_codec_context_t) :
    Facade σ hb_s32 :=
  Facade.call (fun _ => Call.MCTaskConfigureLocked task context)
    (env.MCTaskConfigureLocked task context)

def MCTaskStartLocked (task : Option MCTaskContext) (info : Option Blob) : Facade σ hb_s32 :=
  Facade.call (fun _ => Call.MCTaskStartLocked task info) (env.MCTaskStartLocked task info)

def MCTaskStopLocked (task : Option MCTaskContext) : Facade σ hb_s32 :=
  Facade.call (fun _ => Call.MCTaskStopLocked task) (env.MCTaskStopLocked task)

def MCTaskPauseLocked (task : Option MCTaskContext) : Facade σ hb_s32 :=
  Facade.call (fun _ => Call.MCTaskPauseLocked task) (env.MCTaskPauseLocked task)

def MCTaskFlushLocked (task : Option MCTaskContext) : Facade σ hb_s32 :=
  Facade.call (fun _ => Call.MCTaskFlushLocked task) (env.MCTaskFlushLocked task)

def MCTaskRelease (task : Option MCTaskContext) : Facade σ hb_s32 :=
  Facade.call (fun _ => Call.MCTaskRelease task) (env.MCTaskRelease task)

def MCAppDeleteTaskLocked (task : Option MCTaskContext) : Facade σ hb_s32 :=
  Facade.call (fun _ => Call.MCAppDeleteTaskLocked task) (env.MCAppDeleteTaskLocked task)

def MCTaskGetStateLocked (task : Option MCTaskContext) (state : media_codec_state_t) :
    Facade σ (hb_s32 × media_codec_state_t) :=
  Facade.call (fun _ => Call.MCTaskGetStateLocked task state)
    (env.MCTaskGetStateLocked task state)

def MCTaskGetStatusLocked (task : Option MCTaskContext) (context : media_codec_context_t)
    (status : Blob) : Facade σ (hb_s32 × Blob) :=
  Facade.call (fun _ => Call.MCTaskGetStatusLocked task context status)
    (env.MCTaskGetStatusLocked task context status)

def MCTaskSetStatusLocked (task : Option MCTaskContext) (context : media_codec_context_t)
    (status : Blob) : Facade σ (hb_s32 × Blob) :=
  Facade.call (fun _ => Call.MCTaskSetStatusLocked task context status)
    (env.MCTaskSetStatusLocked task context status)

def MCTaskQueueInputBufferLocked (task : Option MCTaskContext) (buffer : Blob)
    (timeout : hb_s32) : Facade σ (hb_s32 × Blob) :=
  Facade.call (fun _ => Call.MCTaskQueueInputBufferLocked task buffer timeout)
    (env.MCTaskQueueInputBufferLocked task buffer timeout)

def MCTaskDequeueInputBufferLocked (task : Option MCTaskContext) (buffer : Blob)
    (timeout : hb_s32) : Facade σ (hb_s32 × Blob) :=
  Facade.call (fun _ => Call.MCTaskDequeueInputBufferLocked task buffer timeout)
    (env.MCTaskDequeueInputBufferLocked task buffer timeout)

def MCTaskQueueOutputBufferLocked (task : Option MCTaskContext) (buffer : Blob)
    (timeout : hb_s32) : Facade σ (hb_s32 × Blob) :=
  Facade.call (fun _ => Call.MCTaskQueueOutputBufferLocked task buffer timeout)
    (env.MCTaskQueueOutputBufferLocked task buffer timeout)

def MCTaskDequeueOutputBufferLocked (task : Option MCTaskContext) (buffer : Blob)
    (info : Option Blob) (timeout : hb_s32) : Facade σ (hb_s32 × Blob × Option Blob) :=
  Facade.call (fun _ => Call.MCTaskDequeueOutputBufferLocked task buffer info timeout)
    (env.MCTaskDequeueOutputBufferLocked task buffer info timeout)

def MCTaskGetConfig (task : Option MCTaskContext) (context : media_codec_context_t)
    (tag : EncConfig) (params : Blob) : Facade σ (hb_s32 × Blob) :=
  Facade.call (fun _ => Call.MCTaskGetConfig task context tag params)
    (env.MCTaskGetConfig task context tag params)

def MCTaskSetConfig (task : Option MCTaskContext) (context : media_codec_context_t)
    (tag : EncConfig) (params : ConfigArg) : Facade σ hb_s32 :=
  Facade.call (fun _ => Call.MCTaskSetConfig task context tag params)
    (env.MCTaskSetConfig task context tag params)

def MCTaskGetUserData (task : Option MCTaskContext) (params : Blob) (timeout : hb_s32) :
    Facade σ (hb_s32 × Blob) :=
  Facade.call (fun _ => Call.MCTaskGetUserData task params timeout)
    (env.MCTaskGetUserData task params timeout)

def MCTaskReleaseUserData (task : Option MCTaskContext) (params : Blob) : Facade σ hb_s32 :=
  Facade.call (fun _ => Call.MCTaskReleaseUserData task params)
    (env.MCTaskReleaseUserData task params)

def MCTaskOpenFdLocked (task : Option MCTaskContext) (codec_id : media_codec_id_t)
    (fd : hb_s32) : Facade σ (hb_s32 × hb_s32) :=
  Facade.call (fun _ => Call.MCTaskOpenFdLocked task codec_id fd)
    (env.MCTaskOpenFdLocked task codec_id fd)

def MCTaskCloseFdLocked (task : Option MCTaskContext) (codec_id : media_codec_id_t)
    (fd : hb_s32) : Facade σ hb_s32 :=
  Facade.call (fun _ => Call.MCTaskCloseFdLocked task codec_id fd)
    (env.MCTaskCloseFdLocked task codec_id fd)

/-- A call of one of the default tables on the caller's block.  The tables are
pure data: the world is left as it is. -/
def default_params (provider : DefaultProvider) (params : Blob) : Facade σ (hb_s32 × Blob) :=
  Facade.call (fun _ => Call.default_params provider params)
    (fun w => (env.default_params provider params, w))

/-- The tail of every operation: `if (task != NULL) { MCTaskDecRef(task); }`. -/
def decRefIfHeld : Option MCTaskContext → Facade σ Unit
  | some t => MCTaskDecRef env t
  | none => pure ()

end Collaborators

/-! ## The facade operations, in the order of `media_codec.c` -/

section Operations

open MCTaskQueryError MCAppType media_codec_state_t EncConfig DefaultProvider

variable (H : Header) (env : Env σ)

def get_err_of_query_result (queryErr : MCTaskQueryError) : hb_s32 :=
  if queryErr = MC_TASK_INVALID_PARAMS then H.HB_MEDIA_ERR_INVALID_PARAMS
  else if queryErr = MC_TASK_NOT_EXIST ∨ queryErr = MC_TASK_WRONG_APP_TYPE then
    H.HB_MEDIA_ERR_OPERATION_NOT_ALLOWED
  else if queryErr = MC_TASK_WRONG_INST_IDX then H.HB_MEDIA_ERR_INVALID_INSTANCE
  else if queryErr = MC_TASK_EXIST then 0
  else H.HB_MEDIA_ERR_UNKNOWN

/-- The second component is the caller's context after the call. -/
def hb_mm_mc_initialize (context : Option media_codec_context_t) :
    Facade σ (hb_s32 × Option media_codec_context_t) :=
  match context with
  | none => pure (H.HB_MEDIA_ERR_INVALID_PARAMS, none)
  | some ctx => do
    let ret ← MCAppInitLocked env ctx.codec_id
    if ret = 0 then do
      let (queryErr, task) ← MCAPPGetTaskLocked env ctx
      let (ret, task, ctx) ←
        if queryErr = MC_TASK_NOT_EXIST then do
          let task ← MCTaskCreate env
          match task with
          | some t => do
            let ret ← MCTaskInitLocked env (some t) ctx.codec_id ctx.encoder ctx
            if ret = 0 then do
              let ret ← MCAppAddTaskLocked env (some t)
              if ret = 0 then do
                let instIdx ← Facade.read (env.instIdx t)
                pure (ret, some t, { ctx with instance_index := instIdx })
              else pure (ret, some t, ctx)
            else pure (ret, some t, ctx)
          | none => pure (H.HB_MEDIA_ERR_INSUFFICIENT_RES, none, ctx)
        else if queryErr = MC_TASK_INVALID_PARAMS ∨ queryErr = MC_TASK_WRONG_APP_TYPE then
          pure (H.HB_MEDIA_ERR_INVALID_PARAMS, task, ctx)
        else if queryErr = MC_TASK_WRONG_INST_IDX then
          pure (H.HB_MEDIA_ERR_INVALID_INSTANCE, task, ctx)
        else if queryErr = MC_TASK_EXIST then do
          let ret ← MCTaskInitLocked env task ctx.codec_id ctx.instance_index ctx
          pure (ret, task, ctx)
        else pure (H.HB_MEDIA_ERR_UNKNOWN, task, ctx)
      decRefIfHeld env task
      pure (ret, some ctx)
    else pure (ret, some ctx)

def hb_mm_mc_set_callback (context : Option media_codec_context_t)
    (callback : Option media_codec_callback_t) (userdata : hb_ptr) : Facade σ hb_s32 :=
  match context with
  | none => pure H.HB_MEDIA_ERR_INVALID_PARAMS
  | some ctx =>
    match callback, userdata with
    | none, _ => pure H.HB_MEDIA_ERR_INVALID_PARAMS
    | some _, none => pure H.HB_MEDIA_ERR_INVALID_PARAMS
    | some cb, some ud =>
      if cb.on_input_buffer_available = none ∨ cb.on_output_buffer_available = none ∨
          cb.on_media_codec_message = none then
        pure H.HB_MEDIA_ERR_INVALID_PARAMS
      else do
        let (queryErr, task) ← MCAPPGetTaskLocked env ctx
        let ret ←
          if queryErr = MC_TASK_EXIST then
            MCTaskRegisterListernerLocked env task cb (some ud) ctx
          else pure (get_err_of_query_result H queryErr)
        decRefIfHeld env task
        pure ret

def hb_mm_mc_set_vlc_buffer_listener (context : Option media_codec_context_t)
    (callback : Option media_codec_callback_t) (userdata : hb_ptr) : Facade σ hb_s32 :=
  match context with
  | none => pure H.HB_MEDIA_ERR_INVALID_PARAMS
  | some ctx =>
    match callback, userdata with
    | none, _ => pure H.HB_MEDIA_ERR_INVALID_PARAMS
    | some _, none => pure H.HB_MEDIA_ERR_INVALID_PARAMS
    | some cb, some ud =>
      if cb.on_vlc_buffer_message = none then pure H.HB_MEDIA_ERR_INVALID_PARAMS
      else do
        let (queryErr, task) ← MCAPPGetTaskLocked env ctx
        let ret ←
          if queryErr = MC_TASK_EXIST then
            MCTaskRegisterVLCBufListernerLocked env task cb (some ud) ctx
          else pure (get_err_of_query_result H queryErr)
        decRefIfHeld env task
        pure ret

def hb_mm_mc_configure (context : Option media_codec_context_t) : Facade σ hb_s32 :=
  match context with
  | none => pure H.HB_MEDIA_ERR_INVALID_PARAMS
  | some ctx => do
    let (queryErr, task) ← MCAPPGetTaskLocked env ctx
    let ret ←
      if queryErr = MC_TASK_EXIST then MCTaskConfigureLocked env task ctx
      else pure (get_err_of_query_result H queryErr)
    decRefIfHeld env task
    pure ret

def hb_mm_mc_start (context : Option media_codec_context_t) (info : Option Blob) :
    Facade σ hb_s32 :=
  match context with
  | none => pure H.HB_MEDIA_ERR_INVALID_PARAMS
  | some ctx => do
    let (queryErr, task) ← MCAPPGetTaskLocked env ctx
    let ret ←
      if queryErr = MC_TASK_EXIST then MCTaskStartLocked env task info
      else pure (get_err_of_query_result H queryErr)
    decRefIfHeld env task
    pure ret

def hb_mm_mc_stop (context : Option media_codec_context_t) : Facade σ hb_s32 :=
  match context with
  | none => pure H.HB_MEDIA_ERR_INVALID_PARAMS
  | some ctx => do
    let (queryErr, task) ← MCAPPGetTaskLocked env ctx
    let ret ←
      if queryErr = MC_TASK_EXIST then MCTaskStopLocked env task
      else pure (get_err_of_query_result H queryErr)
    decRefIfHeld env task
    pure ret

def hb_mm_mc_pause (context : Option media_codec_context_t) : Facade σ hb_s32 :=
  match context with
  | none => pure H.HB_MEDIA_ERR_INVALID_PARAMS
  | some ctx => do
    let (queryErr, task) ← MCAPPGetTaskLocked env ctx
    let ret ←
      if queryErr = MC_TASK_EXIST then MCTaskPauseLocked env task
      else pure (get_err_of_query_result H queryErr)
    decRefIfHeld env task
    pure ret

def hb_mm_mc_flush (context : Option media_codec_context_t) : Facade σ hb_s32 :=
  match context with
  | none => pure H.HB_MEDIA_ERR_INVALID_PARAMS
  | some ctx => do
    let (queryErr, task) ← MCAPPGetTaskLocked env ctx
    let ret ←
      if queryErr = MC_TASK_EXIST then MCTaskFlushLocked env task
      else pure (get_err_of_query_result H queryErr)
    decRefIfHeld env task
    pure ret

def hb_mm_mc_release (context : Option media_codec_context_t) : Facade σ hb_s32 :=
  match context with
  | none => pure H.HB_MEDIA_ERR_INVALID_PARAMS
  | some ctx => do
    let (queryErr, task) ← MCAPPGetTaskLocked env ctx
    let ret ←
      if queryErr = MC_TASK_EXIST then do
        let ret ← MCTaskRelease env task
        if ret = 0 then MCAppDeleteTaskLocked env task
        else pure ret
      else pure (get_err_of_query_result H queryErr)
    decRefIfHeld env task
    pure ret

/-- The second component is what `*state` holds after the call. -/
def hb_mm_mc_get_state (context : Option media_codec_context_t)
    (state : Option media_codec_state_t) : Facade σ (hb_s32 × Option media_codec_state_t) :=
  match context, state with
  | none, _ => pure (H.HB_MEDIA_ERR_INVALID_PARAMS, state)
  | some _, none => pure (H.HB_MEDIA_ERR_INVALID_PARAMS, none)
  | some ctx, some st => do
    let (queryErr, task) ← MCAPPGetTaskLocked env ctx
    let (ret, st) ←
      if queryErr = MC_TASK_EXIST then MCTaskGetStateLocked env task st
      else if queryErr ≠ MC_TASK_INVALID_PARAMS ∧ queryErr ≠ MC_TASK_WRONG_INST_IDX then
        pure (0, MEDIA_CODEC_STATE_UNINITIALIZED)
      else pure (get_err_of_query_result H queryErr, st)
    decRefIfHeld env task
    pure (ret, some st)

def hb_mm_mc_get_status (context : Option media_codec_context_t) (status : Option Blob) :
    Facade σ (hb_s32 × Option Blob) :=
  match context, status with
  | none, _ => pure (H.HB_MEDIA_ERR_INVALID_PARAMS, status)
  | some _, none => pure (H.HB_MEDIA_ERR_INVALID_PARAMS, none)
  | some ctx, some st => do
    let (queryErr, task) ← MCAPPGetTaskLocked env ctx
    let (ret, st) ←
      if queryErr = MC_TASK_EXIST then MCTaskGetStatusLocked env task ctx st
      else pure (get_err_of_query_result H queryErr, st)
    decRefIfHeld env task
    pure (ret, some st)

def hb_mm_mc_queue_input_buffer (context : Option media_codec_context_t)
    (buffer : Option Blob) (timeout : hb_s32) : Facade σ (hb_s32 × Option Blob) :=
  match context, buffer with
  | none, _ => pure (H.HB_MEDIA_ERR_INVALID_PARAMS, buffer)
  | some _, none => pure (H.HB_MEDIA_ERR_INVALID_PARAMS, none)
  | some ctx, some buf => do
    let (queryErr, task) ← MCAPPGetTaskLocked env ctx
    let (ret, buf) ←
      if queryErr = MC_TASK_EXIST then MCTaskQueueInputBufferLocked env task buf timeout
      else pure (get_err_of_query_result H queryErr, buf)
    decRefIfHeld env task
    pure (ret, some buf)

def hb_mm_mc_dequeue_input_buffer (context : Option media_codec_context_t)
    (buffer : Option Blob) (timeout : hb_s32) : Facade σ (hb_s32 × Option Blob) :=
  match context, buffer with
  | none, _ => pure (H.HB_MEDIA_ERR_INVALID_PARAMS, buffer)
  | some _, none => pure (H.HB_MEDIA_ERR_INVALID_PARAMS, none)
  | some ctx, some buf => do
    let (queryErr, task) ← MCAPPGetTaskLocked env ctx
    let (ret, buf) ←
      if queryErr = MC_TASK_EXIST then MCTaskDequeueInputBufferLocked env task buf timeout
      else pure (get_err_of_query_result H queryErr, buf)
    decRefIfHeld env task
    pure (ret, some buf)

def hb_mm_mc_queue_output_buffer (context : Option media_codec_context_t)
    (buffer : Option Blob) (timeout : hb_s32) : Facade σ (hb_s32 × Option Blob) :=
  match context, buffer with
  | none, _ => pure (H.HB_MEDIA_ERR_INVALID_PARAMS, buffer)
  | some _, none => pure (H.HB_MEDIA_ERR_INVALID_PARAMS, none)
  | some ctx, some buf => do
    let (queryErr, task) ← MCAPPGetTaskLocked env ctx
    let (ret, buf) ←
      if queryErr = MC_TASK_EXIST then MCTaskQueueOutputBufferLocked env task buf timeout
      else pure (get_err_of_query_result H queryErr, buf)
    decRefIfHeld env task
    pure (ret, some buf)

/-- The second and third components are the buffer and the info record after
the call. -/
def hb_mm_mc_dequeue_output_buffer (context : Option media_codec_context_t)
    (buffer : Option Blob) (info : Option Blob) (timeout : hb_s32) :
    Facade σ (hb_s32 × Option Blob × Option Blob) :=
  match context, buffer with
  | none, _ => pure (H.HB_MEDIA_ERR_INVALID_PARAMS, buffer, info)
  | some _, none => pure (H.HB_MEDIA_ERR_INVALID_PARAMS, none, info)
  | some ctx, some buf => do
    let (queryErr, task) ← MCAPPGetTaskLocked env ctx
    let (ret, buf, info) ←
      if queryErr = MC_TASK_EXIST then
        MCTaskDequeueOutputBufferLocked env task buf info timeout
      else pure (get_err_of_query_result H queryErr, buf, info)
    decRefIfHeld env task
    pure (ret, some buf, info)

def hb_mm_mc_get_user_data (context : Option media_codec_context_t) (params : Option Blob)
    (timeout : hb_s32) : Facade σ (hb_s32 × Option Blob) :=
  match context, params with
  | none, _ => pure (H.HB_MEDIA_ERR_INVALID_PARAMS, params)
  | some _, none => pure (H.HB_MEDIA_ERR_INVALID_PARAMS, none)
  | some ctx, some p => do
    let (queryErr, task) ← MCAPPGetTaskLocked env ctx
    let (ret, p) ←
      if queryErr = MC_TASK_EXIST then MCTaskGetUserData env task p timeout
      else pure (get_err_of_query_result H queryErr, p)
    decRefIfHeld env task
    pure (ret, some p)

def hb_mm_mc_release_user_data (context : Option media_codec_context_t)
    (params : Option Blob) : Facade σ hb_s32 :=
  match context, params with
  | none, _ => pure H.HB_MEDIA_ERR_INVALID_PARAMS
  | some _, none => pure H.HB_MEDIA_ERR_INVALID_PARAMS
  | some ctx, some p => do
    let (queryErr, task) ← MCAPPGetTaskLocked env ctx
    let ret ←
      if queryErr = MC_TASK_EXIST then MCTaskReleaseUserData env task p
      else pure (get_err_of_query_result H queryErr)
    decRefIfHeld env task
    pure ret

/-- The second component is what `*fd` holds after the call. -/
def hb_mm_mc_get_fd (context : Option media_codec_context_t) (fd : Option hb_s32) :
    Facade σ (hb_s32 × Option hb_s32) :=
  match context, fd with
  | none, _ => pure (H.HB_MEDIA_ERR_INVALID_PARAMS, fd)
  | some _, none => pure (H.HB_MEDIA_ERR_INVALID_PARAMS, none)
  | some ctx, some v => do
    let (queryErr, task) ← MCAPPGetTaskLocked env ctx
    let (ret, v) ←
      if queryErr = MC_TASK_EXIST then MCTaskOpenFdLocked env task ctx.codec_id v
      else pure (get_err_of_query_result H queryErr, v)
    decRefIfHeld env task
    pure (ret, some v)

def hb_mm_mc_close_fd (context : Option media_codec_context_t) (fd : hb_s32) :
    Facade σ hb_s32 :=
  match context with
  | none => pure H.HB_MEDIA_ERR_INVALID_PARAMS
  | some ctx => do
    let (queryErr, task) ← MCAPPGetTaskLocked env ctx
    let ret ←
      if queryErr = MC_TASK_EXIST then MCTaskCloseFdLocked env task ctx.codec_id fd
      else pure (get_err_of_query_result H queryErr)
    decRefIfHeld env task
    pure ret

def hb_mm_mc_set_status (context : Option media_codec_context_t) (status : Option Blob) :
    Facade σ (hb_s32 × Option Blob) :=
  match context, status with
  | none, _ => pure (H.HB_MEDIA_ERR_INVALID_PARAMS, status)
  | some _, none => pure (H.HB_MEDIA_ERR_INVALID_PARAMS, none)
  | some ctx, some st => do
    let (queryErr, task) ← MCAPPGetTaskLocked env ctx
    let (ret, st) ←
      if queryErr = MC_TASK_EXIST then MCTaskSetStatusLocked env task ctx st
      else pure (get_err_of_query_result H queryErr, st)
    decRefIfHeld env task
    pure (ret, some st)

/-! ### Parameter blocks: one getter and one setter per kind -/

def hb_mm_mc_get_longterm_ref_mode (context : Option media_codec_context_t)
    (params : Option Blob) : Facade σ (hb_s32 × Option Blob) :=
  match context, params with
  | none, _ => pure (H.HB_MEDIA_ERR_INVALID_PARAMS, params)
  | some _, none => pure (H.HB_MEDIA_ERR_INVALID_PARAMS, none)
  | some ctx, some p => do
    let (queryErr, task) ← MCAPPGetTaskLocked env ctx
    let (ret, p) ←
      if queryErr = MC_TASK_EXIST then MCTaskGetConfig env task ctx ENC_CONFIG_LONGTERM_REF p
      else if queryErr ≠ MC_TASK_INVALID_PARAMS ∧ queryErr ≠ MC_TASK_WRONG_INST_IDX then
        if env.MCTaskGetAppType ctx.codec_id = MC_APP_VIDEO ∧ ctx.encoder ≠ FALSE then do
          let (_, p) ← default_params env mc_video_get_default_longtermRef_params p
          pure (0, p)
        else pure (H.HB_MEDIA_ERR_OPERATION_NOT_ALLOWED, p)
      else pure (get_err_of_query_result H queryErr, p)
    decRefIfHeld env task
    pure (ret, some p)

def hb_mm_mc_set_longterm_ref_mode (context : Option media_codec_context_t)
    (params : Option Blob) : Facade σ hb_s32 :=
  match context, params with
  | none, _ => pure H.HB_MEDIA_ERR_INVALID_PARAMS
  | some _, none => pure H.HB_MEDIA_ERR_INVALID_PARAMS
  | some ctx, some p => do
    let (queryErr, task) ← MCAPPGetTaskLocked env ctx
    let ret ←
      if queryErr = MC_TASK_EXIST then MCTaskSetConfig env task ctx ENC_CONFIG_LONGTERM_REF (ConfigArg.block p)
      else pure (get_err_of_query_result H queryErr)
    decRefIfHeld env task
    pure ret

def hb_mm_mc_get_intra_refresh_config (context : Option media_codec_context_t)
    (params : Option Blob) : Facade σ (hb_s32 × Option Blob) :=
  match context, params with
  | none, _ => pure (H.HB_MEDIA_ERR_INVALID_PARAMS, params)
  | some _, none => pure (H.HB_MEDIA_ERR_INVALID_PARAMS, none)
  | some ctx, some p => do
    let (queryErr, task) ← MCAPPGetTaskLocked env ctx
    let (ret, p) ←
      if queryErr = MC_TASK_EXIST then MCTaskGetConfig env task ctx ENC_CONFIG_INTRA_REFRESH p
      else if queryErr ≠ MC_TASK_INVALID_PARAMS ∧ queryErr ≠ MC_TASK_WRONG_INST_IDX then
        if env.MCTaskGetAppType ctx.codec_id = MC_APP_VIDEO ∧ ctx.encoder ≠ FALSE then do
          let (_, p) ← default_params env (mc_video_get_default_intraRefresh_params ctx.codec_id) p
          pure (0, p)
        else pure (H.HB_MEDIA_ERR_OPERATION_NOT_ALLOWED, p)
      else pure (get_err_of_query_result H queryErr, p)
    decRefIfHeld env task
    pure (ret, some p)

def hb_mm_mc_set_intra_refresh_config (context : Option media_codec_context_t)
    (params : Option Blob) : Facade σ hb_s32 :=
  match context, params with
  | none, _ => pure H.HB_MEDIA_ERR_INVALID_PARAMS
  | some _, none => pure H.HB_MEDIA_ERR_INVALID_PARAMS
  | some ctx, some p => do
    let (queryErr, task) ← MCAPPGetTaskLocked env ctx
    let ret ←
      if queryErr = MC_TASK_EXIST then MCTaskSetConfig env task ctx ENC_CONFIG_INTRA_REFRESH (ConfigArg.block p)
      else pure (get_err_of_query_result H queryErr)
    decRefIfHeld env task
    pure ret

def hb_mm_mc_get_rate_control_config (context : Option media_codec_context_t)
    (params : Option Blob) : Facade σ (hb_s32 × Option Blob) :=
  match context, params with
  | none, _ => pure (H.HB_MEDIA_ERR_INVALID_PARAMS, params)
  | some _, none => pure (H.HB_MEDIA_ERR_INVALID_PARAMS, none)
  | some ctx, some p => do
    let (queryErr, task) ← MCAPPGetTaskLocked env ctx
    let (ret, p) ←
      if queryErr = MC_TASK_EXIST then MCTaskGetConfig env task ctx ENC_CONFIG_RATE_CONTROL p
      else if queryErr ≠ MC_TASK_INVALID_PARAMS ∧ queryErr ≠ MC_TASK_WRONG_INST_IDX then
        if ctx.encoder ≠ FALSE ∧
            (env.MCTaskGetAppType ctx.codec_id = MC_APP_VIDEO ∨
              env.MCTaskGetAppType ctx.codec_id = MC_APP_JPEG) then
          default_params env mc_video_get_default_rate_control_params p
        else pure (H.HB_MEDIA_ERR_OPERATION_NOT_ALLOWED, p)
      else pure (get_err_of_query_result H queryErr, p)
    decRefIfHeld env task
    pure (ret, some p)

def hb_mm_mc_set_rate_control_config (context : Option media_codec_context_t)
    (params : Option Blob) : Facade σ hb_s32 :=
  match context, params with
  | none, _ => pure H.HB_MEDIA_ERR_INVALID_PARAMS
  | some _, none => pure H.HB_MEDIA_ERR_INVALID_PARAMS
  | some ctx, some p => do
    let (queryErr, task) ← MCAPPGetTaskLocked env ctx
    let ret ←
      if queryErr = MC_TASK_EXIST then MCTaskSetConfig env task ctx ENC_CONFIG_RATE_CONTROL (ConfigArg.block p)
      else pure (get_err_of_query_result H queryErr)
    decRefIfHeld env task
    pure ret

def hb_mm_mc_get_max_bit_rate_config (context : Option media_codec_context_t)
    (params : Option Blob) : Facade σ (hb_s32 × Option Blob) :=
  match context, params with
  | none, _ => pure (H.HB_MEDIA_ERR_INVALID_PARAMS, params)
  | some _, none => pure (H.HB_MEDIA_ERR_INVALID_PARAMS, none)
  | some ctx, some p => do
    let (queryErr, task) ← MCAPPGetTaskLocked env ctx
    let (ret, p) ←
      if queryErr = MC_TASK_EXIST then MCTaskGetConfig env task ctx ENC_CONFIG_TRANS_BITRATE p
      else if queryErr ≠ MC_TASK_INVALID_PARAMS ∧ queryErr ≠ MC_TASK_WRONG_INST_IDX then
        if env.MCTaskGetAppType ctx.codec_id = MC_APP_VIDEO ∧ ctx.encoder ≠ FALSE then do
          let (_, p) ← default_params env mc_video_get_default_transrate_params p
          pure (0, p)
        else pure (H.HB_MEDIA_ERR_OPERATION_NOT_ALLOWED, p)
      else pure (get_err_of_query_result H queryErr, p)
    decRefIfHeld env task
    pure (ret, some p)

def hb_mm_mc_set_max_bit_rate_config (context : Option media_codec_context_t) (params : hb_u32) :
    Facade σ hb_s32 :=
  match context with
  | none => pure H.HB_MEDIA_ERR_INVALID_PARAMS
  | some ctx => do
    let (queryErr, task) ← MCAPPGetTaskLocked env ctx
    let ret ←
      if queryErr = MC_TASK_EXIST then MCTaskSetConfig env task ctx ENC_CONFIG_TRANS_BITRATE (ConfigArg.word params)
      else pure (get_err_of_query_result H queryErr)
    decRefIfHeld env task
    pure ret

def hb_mm_mc_get_deblk_filter_config (context : Option media_codec_context_t)
    (params : Option Blob) : Facade σ (hb_s32 × Option Blob) :=
  match context, params with
  | none, _ => pure (H.HB_MEDIA_ERR_INVALID_PARAMS, params)
  | some _, none => pure (H.HB_MEDIA_ERR_INVALID_PARAMS, none)
  | some ctx, some p => do
    let (queryErr, task) ← MCAPPGetTaskLocked env ctx
    let (ret, p) ←
      if queryErr = MC_TASK_EXIST then MCTaskGetConfig env task ctx ENC_CONFIG_DEBLK_FILTER p
      else if queryErr ≠ MC_TASK_INVALID_PARAMS ∧ queryErr ≠ MC_TASK_WRONG_INST_IDX then
        if env.MCTaskGetAppType ctx.codec_id = MC_APP_VIDEO ∧ ctx.encoder ≠ FALSE then do
          let (_, p) ← default_params env (mc_video_get_default_deblkFilter_params ctx.codec_id) p
          pure (0, p)
        else pure (H.HB_MEDIA_ERR_OPERATION_NOT_ALLOWED, p)
      else pure (get_err_of_query_result H queryErr, p)
    decRefIfHeld env task
    pure (ret, some p)

def hb_mm_mc_set_deblk_filter_config (context : Option media_codec_context_t)
    (params : Option Blob) : Facade σ hb_s32 :=
  match context, params with
  | none, _ => pure H.HB_MEDIA_ERR_INVALID_PARAMS
  | some _, none => pure H.HB_MEDIA_ERR_INVALID_PARAMS
  | some ctx, some p => do
    let (queryErr, task) ← MCAPPGetTaskLocked env ctx
    let ret ←
      if queryErr = MC_TASK_EXIST then MCTaskSetConfig env task ctx ENC_CONFIG_DEBLK_FILTER (ConfigArg.block p)
      else pure (get_err_of_query_result H queryErr)
    decRefIfHeld env task
    pure ret

def hb_mm_mc_get_sao_config (context : Option media_codec_context_t)
    (params : Option Blob) : Facade σ (hb_s32 × Option Blob) :=
  match context, params with
  | none, _ => pure (H.HB_MEDIA_ERR_INVALID_PARAMS, params)
  | some _, none => pure (H.HB_MEDIA_ERR_INVALID_PARAMS, none)
  | some ctx, some p => do
    let (queryErr, task) ← MCAPPGetTaskLocked env ctx
    let (ret, p) ←
      if queryErr = MC_TASK_EXIST then MCTaskGetConfig env task ctx ENC_CONFIG_SAO p
      else if queryErr ≠ MC_TASK_INVALID_PARAMS ∧ queryErr ≠ MC_TASK_WRONG_INST_IDX then
        if ctx.codec_id = H.MEDIA_CODEC_ID_H265 ∧ ctx.encoder ≠ FALSE then do
          let (_, p) ← default_params env mc_video_get_default_sao_params p
          pure (0, p)
        else pure (H.HB_MEDIA_ERR_OPERATION_NOT_ALLOWED, p)
      else pure (get_err_of_query_result H queryErr, p)
    decRefIfHeld env task
    pure (ret, some p)

def hb_mm_mc_set_sao_config (context : Option media_codec_context_t)
    (params : Option Blob) : Facade σ hb_s32 :=
  match context, params with
  | none, _ => pure H.HB_MEDIA_ERR_INVALID_PARAMS
  | some _, none => pure H.HB_MEDIA_ERR_INVALID_PARAMS
  | some ctx, some p => do
    let (queryErr, task) ← MCAPPGetTaskLocked env ctx
    let ret ←
      if queryErr = MC_TASK_EXIST then MCTaskSetConfig env task ctx ENC_CONFIG_SAO (ConfigArg.block p)
      else pure (get_err_of_query_result H queryErr)
    decRefIfHeld env task
    pure ret

def hb_mm_mc_get_entropy_config (context : Option media_codec_context_t)
    (params : Option Blob) : Facade σ (hb_s32 × Option Blob) :=
  match context, params with
  | none, _ => pure (H.HB_MEDIA_ERR_INVALID_PARAMS, params)
  | some _, none => pure (H.HB_MEDIA_ERR_INVALID_PARAMS, none)
  | some ctx, some p => do
    let (queryErr, task) ← MCAPPGetTaskLocked env ctx
    let (ret, p) ←
      if queryErr = MC_TASK_EXIST then MCTaskGetConfig env task ctx ENC_CONFIG_ENTROPY p
      else if queryErr ≠ MC_TASK_INVALID_PARAMS ∧ queryErr ≠ MC_TASK_WRONG_INST_IDX then
        if ctx.codec_id = H.MEDIA_CODEC_ID_H264 ∧ ctx.encoder ≠ FALSE then do
          let (_, p) ← default_params env mc_video_get_default_entropy_params p
          pure (0, p)
        else pure (H.HB_MEDIA_ERR_OPERATION_NOT_ALLOWED, p)
      else pure (get_err_of_query_result H queryErr, p)
    decRefIfHeld env task
    pure (ret, some p)

def hb_mm_mc_set_entropy_config (context : Option media_codec_context_t)
    (params : Option Blob) : Facade σ hb_s32 :=
  match context, params with
  | none, _ => pure H.HB_MEDIA_ERR_INVALID_PARAMS
  | some _, none => pure H.HB_MEDIA_ERR_INVALID_PARAMS
  | some ctx, some p => do
    let (queryErr, task) ← MCAPPGetTaskLocked env ctx
    let ret ←
      if queryErr = MC_TASK_EXIST then MCTaskSetConfig env task ctx ENC_CONFIG_ENTROPY (ConfigArg.block p)
      else pure (get_err_of_query_result H queryErr)
    decRefIfHeld env task
    pure ret

def hb_mm_mc_get_vui_timing_config (context : Option media_codec_context_t)
    (params : Option Blob) : Facade σ (hb_s32 × Option Blob) :=
  match context, params with
  | none, _ => pure (H.HB_MEDIA_ERR_INVALID_PARAMS, params)
  | some _, none => pure (H.HB_MEDIA_ERR_INVALID_PARAMS, none)
  | some ctx, some p => do
    let (queryErr, task) ← MCAPPGetTaskLocked env ctx
    let (ret, p) ←
      if queryErr = MC_TASK_EXIST then MCTaskGetConfig env task ctx ENC_CONFIG_VUI_TIMING p
      else if queryErr ≠ MC_TASK_INVALID_PARAMS ∧ queryErr ≠ MC_TASK_WRONG_INST_IDX then
        if env.MCTaskGetAppType ctx.codec_id = MC_APP_VIDEO ∧ ctx.encoder ≠ FALSE then
          let frameRate := env.mc_video_get_enc_frame_rate ctx
          if frameRate ≠ 0 then do
            let (_, p) ← default_params env (mc_video_get_default_VUITiming_params ctx.codec_id frameRate) p
            pure (0, p)
          else pure (H.HB_MEDIA_ERR_OPERATION_NOT_ALLOWED, p)
        else pure (H.HB_MEDIA_ERR_OPERATION_NOT_ALLOWED, p)
      else pure (get_err_of_query_result H queryErr, p)
    decRefIfHeld env task
    pure (ret, some p)

def hb_mm_mc_set_vui_timing_config (context : Option media_codec_context_t)
    (params : Option Blob) : Facade σ hb_s32 :=
  match context, params with
  | none, _ => pure H.HB_MEDIA_ERR_INVALID_PARAMS
  | some _, none => pure H.HB_MEDIA_ERR_INVALID_PARAMS
  | some ctx, some p => do
    let (queryErr, task) ← MCAPPGetTaskLocked env ctx
    let ret ←
      if queryErr = MC_TASK_EXIST then MCTaskSetConfig env task ctx ENC_CONFIG_VUI_TIMING (ConfigArg.block p)
      else pure (get_err_of_query_result H queryErr)
    decRefIfHeld env task
    pure ret

def hb_mm_mc_get_vui_config (context : Option media_codec_context_t)
    (params : Option Blob) : Facade σ (hb_s32 × Option Blob) :=
  match context, params with
  | none, _ => pure (H.HB_MEDIA_ERR_INVALID_PARAMS, params)
  | some _, none => pure (H.HB_MEDIA_ERR_INVALID_PARAMS, none)
  | some ctx, some p => do
    let (queryErr, task) ← MCAPPGetTaskLocked env ctx
    let (ret, p) ←
      if queryErr = MC_TASK_EXIST then MCTaskGetConfig env task ctx ENC_CONFIG_VUI p
      else if queryErr ≠ MC_TASK_INVALID_PARAMS ∧ queryErr ≠ MC_TASK_WRONG_INST_IDX then
        if env.MCTaskGetAppType ctx.codec_id = MC_APP_VIDEO ∧ ctx.encoder ≠ FALSE then
          let frameRate := env.mc_video_get_enc_frame_rate ctx
          if frameRate ≠ 0 then do
            let (_, p) ← default_params env (mc_video_get_default_VUI_params ctx.codec_id frameRate) p
            pure (0, p)
          else pure (H.HB_MEDIA_ERR_OPERATION_NOT_ALLOWED, p)
        else pure (H.HB_MEDIA_ERR_OPERATION_NOT_ALLOWED, p)
      else pure (get_err_of_query_result H queryErr, p)
    decRefIfHeld env task
    pure (ret, some p)

def hb_mm_mc_set_vui_config (context : Option media_codec_context_t)
    (params : Option Blob) : Facade σ hb_s32 :=
  match context, params with
  | none, _ => pure H.HB_MEDIA_ERR_INVALID_PARAMS
  | some _, none => pure H.HB_MEDIA_ERR_INVALID_PARAMS
  | some ctx, some p => do
    let (queryErr, task) ← MCAPPGetTaskLocked env ctx
    let ret ←
      if queryErr = MC_TASK_EXIST then MCTaskSetConfig env task ctx ENC_CONFIG_VUI (ConfigArg.block p)
      else pure (get_err_of_query_result H queryErr)
    decRefIfHeld env task
    pure ret

def hb_mm_mc_get_slice_config (context : Option media_codec_context_t)
    (params : Option Blob) : Facade σ (hb_s32 × Option Blob) :=
  match context, params with
  | none, _ => pure (H.HB_MEDIA_ERR_INVALID_PARAMS, params)
  | some _, none => pure (H.HB_MEDIA_ERR_INVALID_PARAMS, none)
  | some ctx, some p => do
    let (queryErr, task) ← MCAPPGetTaskLocked env ctx
    let (ret, p) ←
      if queryErr = MC_TASK_EXIST then MCTaskGetConfig env task ctx ENC_CONFIG_SLICE p
      else if queryErr ≠ MC_TASK_INVALID_PARAMS ∧ queryErr ≠ MC_TASK_WRONG_INST_IDX then
        if ctx.encoder ≠ FALSE ∧
            (env.MCTaskGetAppType ctx.codec_id = MC_APP_VIDEO ∨
              env.MCTaskGetAppType ctx.codec_id = MC_APP_JPEG) then do
          let (_, p) ← default_params env (mc_video_get_default_slice_params ctx.codec_id) p
          pure (0, p)
        else pure (H.HB_MEDIA_ERR_OPERATION_NOT_ALLOWED, p)
      else pure (get_err_of_query_result H queryErr, p)
    decRefIfHeld env task
    pure (ret, some p)

def hb_mm_mc_set_slice_config (context : Option media_codec_context_t)
    (params : Option Blob) : Facade σ hb_s32 :=
  match context, params with
  | none, _ => pure H.HB_MEDIA_ERR_INVALID_PARAMS
  | some _, none => pure H.HB_MEDIA_ERR_INVALID_PARAMS
  | some ctx, some p => do
    let (queryErr, task) ← MCAPPGetTaskLocked env ctx
    let ret ←
      if queryErr = MC_TASK_EXIST then MCTaskSetConfig env task ctx ENC_CONFIG_SLICE (ConfigArg.block p)
      else pure (get_err_of_query_result H queryErr)
    decRefIfHeld env task
    pure ret

def hb_mm_mc_insert_user_data (context : Option media_codec_context_t) (data : hb_ptr)
    (length : hb_u32) :
    Facade σ hb_s32 :=
  match context with
  | none => pure H.HB_MEDIA_ERR_INVALID_PARAMS
  | some ctx => do
    let (queryErr, task) ← MCAPPGetTaskLocked env ctx
    let ret ←
      if queryErr = MC_TASK_EXIST then MCTaskSetConfig env task ctx ENC_CONFIG_INSERT_USERDATA (ConfigArg.user_data length data)
      else pure (get_err_of_query_result H queryErr)
    decRefIfHeld env task
    pure ret

def hb_mm_mc_request_idr_frame (context : Option media_codec_context_t) :
    Facade σ hb_s32 :=
  match context with
  | none => pure H.HB_MEDIA_ERR_INVALID_PARAMS
  | some ctx => do
    let (queryErr, task) ← MCAPPGetTaskLocked env ctx
    let ret ←
      if queryErr = MC_TASK_EXIST then MCTaskSetConfig env task ctx ENC_CONFIG_REQUEST_IDR ConfigArg.null
      else pure (get_err_of_query_result H queryErr)
    decRefIfHeld env task
    pure ret

def hb_mm_mc_request_idr_header (context : Option media_codec_context_t)
    (force_header : hb_u32) :
    Facade σ hb_s32 :=
  match context with
  | none => pure H.HB_MEDIA_ERR_INVALID_PARAMS
  | some ctx => do
    let (queryErr, task) ← MCAPPGetTaskLocked env ctx
    let ret ←
      if queryErr = MC_TASK_EXIST then MCTaskSetConfig env task ctx ENC_CONFIG_REQUEST_IDR_HEADER (ConfigArg.word force_header)
      else pure (get_err_of_query_result H queryErr)
    decRefIfHeld env task
    pure ret

def hb_mm_mc_enable_idr_frame (context : Option media_codec_context_t) (enable : hb_bool) :
    Facade σ hb_s32 :=
  match context with
  | none => pure H.HB_MEDIA_ERR_INVALID_PARAMS
  | some ctx => do
    let (queryErr, task) ← MCAPPGetTaskLocked env ctx
    let ret ←
      if queryErr = MC_TASK_EXIST then MCTaskSetConfig env task ctx ENC_CONFIG_ENABLE_IDR (ConfigArg.word enable)
      else pure (get_err_of_query_result H queryErr)
    decRefIfHeld env task
    pure ret

def hb_mm_mc_skip_pic (context : Option media_codec_context_t) (src_idx : hb_s32) :
    Facade σ hb_s32 :=
  match context with
  | none => pure H.HB_MEDIA_ERR_INVALID_PARAMS
  | some ctx => do
    let (queryErr, task) ← MCAPPGetTaskLocked env ctx
    let ret ←
      if queryErr = MC_TASK_EXIST then MCTaskSetConfig env task ctx ENC_CONFIG_SKIP_PIC (ConfigArg.word src_idx)
      else pure (get_err_of_query_result H queryErr)
    decRefIfHeld env task
    pure ret

def hb_mm_mc_get_3dnr_enc_config (context : Option media_codec_context_t)
    (params : Option Blob) : Facade σ (hb_s32 × Option Blob) :=
  match context, params with
  | none, _ => pure (H.HB_MEDIA_ERR_INVALID_PARAMS, params)
  | some _, none => pure (H.HB_MEDIA_ERR_INVALID_PARAMS, none)
  | some ctx, some p => do
    let (queryErr, task) ← MCAPPGetTaskLocked env ctx
    let (ret, p) ←
      if queryErr = MC_TASK_EXIST then MCTaskGetConfig env task ctx ENC_CONFIG_3DNR p
      else if queryErr ≠ MC_TASK_INVALID_PARAMS ∧ queryErr ≠ MC_TASK_WRONG_INST_IDX then
        if env.MCTaskGetAppType ctx.codec_id = MC_APP_VIDEO ∧ ctx.encoder ≠ FALSE ∧
            ctx.codec_id = H.MEDIA_CODEC_ID_H265 then do
          let (_, p) ← default_params env mc_video_get_default_3dnr_params p
          pure (0, p)
        else pure (H.HB_MEDIA_ERR_OPERATION_NOT_ALLOWED, p)
      else pure (get_err_of_query_result H queryErr, p)
    decRefIfHeld env task
    pure (ret, some p)

def hb_mm_mc_set_3dnr_enc_config (context : Option media_codec_context_t)
    (params : Option Blob) : Facade σ hb_s32 :=
  match context, params with
  | none, _ => pure H.HB_MEDIA_ERR_INVALID_PARAMS
  | some _, none => pure H.HB_MEDIA_ERR_INVALID_PARAMS
  | some ctx, some p => do
    let (queryErr, task) ← MCAPPGetTaskLocked env ctx
    let ret ←
      if queryErr = MC_TASK_EXIST then MCTaskSetConfig env task ctx ENC_CONFIG_3DNR (ConfigArg.block p)
      else pure (get_err_of_query_result H queryErr)
    decRefIfHeld env task
    pure ret

def hb_mm_mc_get_smart_bg_enc_config (context : Option media_codec_context_t)
    (params : Option Blob) : Facade σ (hb_s32 × Option Blob) :=
  match context, params with
  | none, _ => pure (H.HB_MEDIA_ERR_INVALID_PARAMS, params)
  | some _, none => pure (H.HB_MEDIA_ERR_INVALID_PARAMS, none)
  | some ctx, some p => do
    let (queryErr, task) ← MCAPPGetTaskLocked env ctx
    let (ret, p) ←
      if queryErr = MC_TASK_EXIST then MCTaskGetConfig env task ctx ENC_CONFIG_SMART_BG p
      else if queryErr ≠ MC_TASK_INVALID_PARAMS ∧ queryErr ≠ MC_TASK_WRONG_INST_IDX then
        if env.MCTaskGetAppType ctx.codec_id = MC_APP_VIDEO ∧ ctx.encoder ≠ FALSE then do
          let (_, p) ← default_params env mc_video_get_default_smartBG_params p
          pure (0, p)
        else pure (H.HB_MEDIA_ERR_OPERATION_NOT_ALLOWED, p)
      else pure (get_err_of_query_result H queryErr, p)
    decRefIfHeld env task
    pure (ret, some p)

def hb_mm_mc_set_smart_bg_enc_config (context : Option media_codec_context_t)
    (params : Option Blob) : Facade σ hb_s32 :=
  match context, params with
  | none, _ => pure H.HB_MEDIA_ERR_INVALID_PARAMS
  | some _, none => pure H.HB_MEDIA_ERR_INVALID_PARAMS
  | some ctx, some p => do
    let (queryErr, task) ← MCAPPGetTaskLocked env ctx
    let ret ←
      if queryErr = MC_TASK_EXIST then MCTaskSetConfig env task ctx ENC_CONFIG_SMART_BG (ConfigArg.block p)
      else pure (get_err_of_query_result H queryErr)
    decRefIfHeld env task
    pure ret

def hb_mm_mc_get_monochroma_config (context : Option media_codec_context_t)
    (params : Option Blob) : Facade σ (hb_s32 × Option Blob) :=
  match context, params with
  | none, _ => pure (H.HB_MEDIA_ERR_INVALID_PARAMS, params)
  | some _, none => pure (H.HB_MEDIA_ERR_INVALID_PARAMS, none)
  | some ctx, some p => do
    let (queryErr, task) ← MCAPPGetTaskLocked env ctx
    let (ret, p) ←
      if queryErr = MC_TASK_EXIST then MCTaskGetConfig env task ctx ENC_CONFIG_MONOCHROMA p
      else if queryErr ≠ MC_TASK_INVALID_PARAMS ∧ queryErr ≠ MC_TASK_WRONG_INST_IDX then
        if env.MCTaskGetAppType ctx.codec_id = MC_APP_VIDEO ∧ ctx.encoder ≠ FALSE then do
          let (_, p) ← default_params env mc_video_get_default_monochroma_params p
          pure (0, p)
        else pure (H.HB_MEDIA_ERR_OPERATION_NOT_ALLOWED, p)
      else pure (get_err_of_query_result H queryErr, p)
    decRefIfHeld env task
    pure (ret, some p)

def hb_mm_mc_set_monochroma_config (context : Option media_codec_context_t)
    (params : Option Blob) : Facade σ hb_s32 :=
  match context, params with
  | none, _ => pure H.HB_MEDIA_ERR_INVALID_PARAMS
  | some _, none => pure H.HB_MEDIA_ERR_INVALID_PARAMS
  | some ctx, some p => do
    let (queryErr, task) ← MCAPPGetTaskLocked env ctx
    let ret ←
      if queryErr = MC_TASK_EXIST then MCTaskSetConfig env task ctx ENC_CONFIG_MONOCHROMA (ConfigArg.block p)
      else pure (get_err_of_query_result H queryErr)
    decRefIfHeld env task
    pure ret

def hb_mm_mc_get_pred_unit_config (context : Option media_codec_context_t)
    (params : Option Blob) : Facade σ (hb_s32 × Option Blob) :=
  match context, params with
  | none, _ => pure (H.HB_MEDIA_ERR_INVALID_PARAMS, params)
  | some _, none => pure (H.HB_MEDIA_ERR_INVALID_PARAMS, none)
  | some ctx, some p => do
    let (queryErr, task) ← MCAPPGetTaskLocked env ctx
    let (ret, p) ←
      if queryErr = MC_TASK_EXIST then MCTaskGetConfig env task ctx ENC_CONFIG_PRED_UNIT p
      else if queryErr ≠ MC_TASK_INVALID_PARAMS ∧ queryErr ≠ MC_TASK_WRONG_INST_IDX then
        if env.MCTaskGetAppType ctx.codec_id = MC_APP_VIDEO ∧ ctx.encoder ≠ FALSE then do
          let (_, p) ← default_params env (mc_video_get_default_predUnit_params ctx.codec_id) p
          pure (0, p)
        else pure (H.HB_MEDIA_ERR_OPERATION_NOT_ALLOWED, p)
      else pure (get_err_of_query_result H queryErr, p)
    decRefIfHeld env task
    pure (ret, some p)

def hb_mm_mc_set_pred_unit_config (context : Option media_codec_context_t)
    (params : Option Blob) : Facade σ hb_s32 :=
  match context, params with
  | none, _ => pure H.HB_MEDIA_ERR_INVALID_PARAMS
  | some _, none => pure H.HB_MEDIA_ERR_INVALID_PARAMS
  | some ctx, some p => do
    let (queryErr, task) ← MCAPPGetTaskLocked env ctx
    let ret ←
      if queryErr = MC_TASK_EXIST then MCTaskSetConfig env task ctx ENC_CONFIG_PRED_UNIT (ConfigArg.block p)
      else pure (get_err_of_query_result H queryErr)
    decRefIfHeld env task
    pure ret

def hb_mm_mc_get_transform_config (context : Option media_codec_context_t)
    (params : Option Blob) : Facade σ (hb_s32 × Option Blob) :=
  match context, params with
  | none, _ => pure (H.HB_MEDIA_ERR_INVALID_PARAMS, params)
  | some _, none => pure (H.HB_MEDIA_ERR_INVALID_PARAMS, none)
  | some ctx, some p => do
    let (queryErr, task) ← MCAPPGetTaskLocked env ctx
    let (ret, p) ←
      if queryErr = MC_TASK_EXIST then MCTaskGetConfig env task ctx ENC_CONFIG_TRANSFORM p
      else if queryErr ≠ MC_TASK_INVALID_PARAMS ∧ queryErr ≠ MC_TASK_WRONG_INST_IDX then
        if env.MCTaskGetAppType ctx.codec_id = MC_APP_VIDEO ∧ ctx.encoder ≠ FALSE then do
          let (_, p) ← default_params env (mc_video_get_default_transform_params ctx.codec_id) p
          pure (0, p)
        else pure (H.HB_MEDIA_ERR_OPERATION_NOT_ALLOWED, p)
      else pure (get_err_of_query_result H queryErr, p)
    decRefIfHeld env task
    pure (ret, some p)

def hb_mm_mc_set_transform_config (context : Option media_codec_context_t)
    (params : Option Blob) : Facade σ hb_s32 :=
  match context, params with
  | none, _ => pure H.HB_MEDIA_ERR_INVALID_PARAMS
  | some _, none => pure H.HB_MEDIA_ERR_INVALID_PARAMS
  | some ctx, some p => do
    let (queryErr, task) ← MCAPPGetTaskLocked env ctx
    let ret ←
      if queryErr = MC_TASK_EXIST then MCTaskSetConfig env task ctx ENC_CONFIG_TRANSFORM (ConfigArg.block p)
      else pure (get_err_of_query_result H queryErr)
    decRefIfHeld env task
    pure ret

def hb_mm_mc_get_roi_config (context : Option media_codec_context_t)
    (params : Option Blob) : Facade σ (hb_s32 × Option Blob) :=
  match context, params with
  | none, _ => pure (H.HB_MEDIA_ERR_INVALID_PARAMS, params)
  | some _, none => pure (H.HB_MEDIA_ERR_INVALID_PARAMS, none)
  | some ctx, some p => do
    let (queryErr, task) ← MCAPPGetTaskLocked env ctx
    let (ret, p) ←
      if queryErr = MC_TASK_EXIST then MCTaskGetConfig env task ctx ENC_CONFIG_ROI p
      else if queryErr ≠ MC_TASK_INVALID_PARAMS ∧ queryErr ≠ MC_TASK_WRONG_INST_IDX then
        if env.MCTaskGetAppType ctx.codec_id = MC_APP_VIDEO ∧ ctx.encoder ≠ FALSE then do
          let (_, p) ← default_params env mc_video_get_default_roi_params p
          pure (0, p)
        else pure (H.HB_MEDIA_ERR_OPERATION_NOT_ALLOWED, p)
      else pure (get_err_of_query_result H queryErr, p)
    decRefIfHeld env task
    pure (ret, some p)

def hb_mm_mc_set_roi_config (context : Option media_codec_context_t)
    (params : Option Blob) : Facade σ hb_s32 :=
  match context, params with
  | none, _ => pure H.HB_MEDIA_ERR_INVALID_PARAMS
  | some _, none => pure H.HB_MEDIA_ERR_INVALID_PARAMS
  | some ctx, some p => do
    let (queryErr, task) ← MCAPPGetTaskLocked env ctx
    let ret ←
      if queryErr = MC_TASK_EXIST then MCTaskSetConfig env task ctx ENC_CONFIG_ROI (ConfigArg.block p)
      else pure (get_err_of_query_result H queryErr)
    decRefIfHeld env task
    pure ret

def hb_mm_mc_get_roi_avg_qp (context : Option media_codec_context_t)
    (params : Option Blob) : Facade σ (hb_s32 × Option Blob) :=
  match context, params with
  | none, _ => pure (H.HB_MEDIA_ERR_INVALID_PARAMS, params)
  | some _, none => pure (H.HB_MEDIA_ERR_INVALID_PARAMS, none)
  | some ctx, some p => do
    let (queryErr, task) ← MCAPPGetTaskLocked env ctx
    let (ret, p) ←
      if queryErr = MC_TASK_EXIST then MCTaskGetConfig env task ctx ENC_CONFIG_ROI_AVG_QP p
      else if queryErr ≠ MC_TASK_INVALID_PARAMS ∧ queryErr ≠ MC_TASK_WRONG_INST_IDX then
        if env.MCTaskGetAppType ctx.codec_id = MC_APP_VIDEO ∧ ctx.encoder ≠ FALSE then do
          let (_, p) ← default_params env mc_video_get_default_roi_avgQP_params p
          pure (0, p)
        else pure (H.HB_MEDIA_ERR_OPERATION_NOT_ALLOWED, p)
      else pure (get_err_of_query_result H queryErr, p)
    decRefIfHeld env task
    pure (ret, some p)

def hb_mm_mc_set_roi_avg_qp (context : Option media_codec_context_t) (params : hb_u32) :
    Facade σ hb_s32 :=
  match context with
  | none => pure H.HB_MEDIA_ERR_INVALID_PARAMS
  | some ctx => do
    let (queryErr, task) ← MCAPPGetTaskLocked env ctx
    let ret ←
      if queryErr = MC_TASK_EXIST then MCTaskSetConfig env task ctx ENC_CONFIG_ROI_AVG_QP (ConfigArg.word params)
      else pure (get_err_of_query_result H queryErr)
    decRefIfHeld env task
    pure ret

def hb_mm_mc_get_roi_config_ex (context : Option media_codec_context_t) (roi_idx : hb_u32)
    (params : Option Blob) : Facade σ (hb_s32 × Option Blob) :=
  match context, params with
  | none, _ => pure (H.HB_MEDIA_ERR_INVALID_PARAMS, params)
  | some _, none => pure (H.HB_MEDIA_ERR_INVALID_PARAMS, none)
  | some ctx, some p => do
    let (queryErr, task) ← MCAPPGetTaskLocked env ctx
    let (ret, p) ←
      if queryErr = MC_TASK_EXIST then MCTaskGetConfig env task ctx ENC_CONFIG_ROI_EX (env.set_roi_idx roi_idx p)
      else if queryErr ≠ MC_TASK_INVALID_PARAMS ∧ queryErr ≠ MC_TASK_WRONG_INST_IDX then
        if env.MCTaskGetAppType ctx.codec_id = MC_APP_VIDEO ∧ ctx.encoder ≠ FALSE then do
          let (_, p) ← default_params env (mc_video_get_default_roi_params_ex roi_idx) p
          pure (0, p)
        else pure (H.HB_MEDIA_ERR_OPERATION_NOT_ALLOWED, p)
      else pure (get_err_of_query_result H queryErr, p)
    decRefIfHeld env task
    pure (ret, some p)

def hb_mm_mc_set_roi_config_ex (context : Option media_codec_context_t)
    (params : Option Blob) : Facade σ hb_s32 :=
  match context, params with
  | none, _ => pure H.HB_MEDIA_ERR_INVALID_PARAMS
  | some _, none => pure H.HB_MEDIA_ERR_INVALID_PARAMS
  | some ctx, some p => do
    let (queryErr, task) ← MCAPPGetTaskLocked env ctx
    let ret ←
      if queryErr = MC_TASK_EXIST then MCTaskSetConfig env task ctx ENC_CONFIG_ROI_EX (ConfigArg.block p)
      else pure (get_err_of_query_result H queryErr)
    decRefIfHeld env task
    pure ret

def hb_mm_mc_get_mode_decision_config (context : Option media_codec_context_t)
    (params : Option Blob) : Facade σ (hb_s32 × Option Blob) :=
  match context, params with
  | none, _ => pure (H.HB_MEDIA_ERR_INVALID_PARAMS, params)
  | some _, none => pure (H.HB_MEDIA_ERR_INVALID_PARAMS, none)
  | some ctx, some p => do
    let (queryErr, task) ← MCAPPGetTaskLocked env ctx
    let (ret, p) ←
      if queryErr = MC_TASK_EXIST then MCTaskGetConfig env task ctx ENC_CONFIG_MODE_DECISION p
      else if queryErr ≠ MC_TASK_INVALID_PARAMS ∧ queryErr ≠ MC_TASK_WRONG_INST_IDX then
        if ctx.encoder ≠ FALSE ∧ ctx.codec_id = H.MEDIA_CODEC_ID_H265 then do
          let (_, p) ← default_params env mc_video_get_default_modeDecision_params p
          pure (0, p)
        else pure (H.HB_MEDIA_ERR_OPERATION_NOT_ALLOWED, p)
      else pure (get_err_of_query_result H queryErr, p)
    decRefIfHeld env task
    pure (ret, some p)

def hb_mm_mc_set_mode_decision_config (context : Option media_codec_context_t)
    (params : Option Blob) : Facade σ hb_s32 :=
  match context, params with
  | none, _ => pure H.HB_MEDIA_ERR_INVALID_PARAMS
  | some _, none => pure H.HB_MEDIA_ERR_INVALID_PARAMS
  | some ctx, some p => do
    let (queryErr, task) ← MCAPPGetTaskLocked env ctx
    let ret ←
      if queryErr = MC_TASK_EXIST then MCTaskSetConfig env task ctx ENC_CONFIG_MODE_DECISION (ConfigArg.block p)
      else pure (get_err_of_query_result H queryErr)
    decRefIfHeld env task
    pure ret

def hb_mm_mc_get_encode_mode_config (context : Option media_codec_context_t)
    (params : Option Blob) : Facade σ (hb_s32 × Option Blob) :=
  match context, params with
  | none, _ => pure (H.HB_MEDIA_ERR_INVALID_PARAMS, params)
  | some _, none => pure (H.HB_MEDIA_ERR_INVALID_PARAMS, none)
  | some ctx, some p => do
    let (queryErr, task) ← MCAPPGetTaskLocked env ctx
    let (ret, p) ←
      if queryErr = MC_TASK_EXIST then MCTaskGetConfig env task ctx ENC_CONFIG_ENCODE_MODE p
      else if queryErr ≠ MC_TASK_INVALID_PARAMS ∧ queryErr ≠ MC_TASK_WRONG_INST_IDX then
        if ctx.encoder ≠ FALSE then do
          let (_, p) ← default_params env mc_video_get_default_encodeMode_params p
          pure (0, p)
        else pure (H.HB_MEDIA_ERR_OPERATION_NOT_ALLOWED, p)
      else pure (get_err_of_query_result H queryErr, p)
    decRefIfHeld env task
    pure (ret, some p)

def hb_mm_mc_set_encode_mode_config (context : Option media_codec_context_t) (mode : hb_s32) :
    Facade σ hb_s32 :=
  match context with
  | none => pure H.HB_MEDIA_ERR_INVALID_PARAMS
  | some ctx => do
    let (queryErr, task) ← MCAPPGetTaskLocked env ctx
    let ret ←
      if queryErr = MC_TASK_EXIST then MCTaskSetConfig env task ctx ENC_CONFIG_ENCODE_MODE (ConfigArg.word mode)
      else pure (get_err_of_query_result H queryErr)
    decRefIfHeld env task
    pure ret

def hb_mm_mc_get_explicit_header_config (context : Option media_codec_context_t)
    (params : Option Blob) : Facade σ (hb_s32 × Option Blob) :=
  match context, params with
  | none, _ => pure (H.HB_MEDIA_ERR_INVALID_PARAMS, params)
  | some _, none => pure (H.HB_MEDIA_ERR_INVALID_PARAMS, none)
  | some ctx, some p => do
    let (queryErr, task) ← MCAPPGetTaskLocked env ctx
    let (ret, p) ←
      if queryErr = MC_TASK_EXIST then MCTaskGetConfig env task ctx ENC_CONFIG_ENABLE_EXP_HEADER p
      else if queryErr ≠ MC_TASK_INVALID_PARAMS ∧ queryErr ≠ MC_TASK_WRONG_INST_IDX then
        if env.MCTaskGetAppType ctx.codec_id = MC_APP_VIDEO ∧ ctx.encoder ≠ FALSE then do
          let (_, p) ← default_params env mc_video_get_default_explicitHeader_params p
          pure (0, p)
        else pure (H.HB_MEDIA_ERR_OPERATION_NOT_ALLOWED, p)
      else pure (get_err_of_query_result H queryErr, p)
    decRefIfHeld env task
    pure (ret, some p)

def hb_mm_mc_set_explicit_header_config (context : Option media_codec_context_t) (status : hb_s32) :
    Facade σ hb_s32 :=
  match context with
  | none => pure H.HB_MEDIA_ERR_INVALID_PARAMS
  | some ctx => do
    let (queryErr, task) ← MCAPPGetTaskLocked env ctx
    let ret ←
      if queryErr = MC_TASK_EXIST then MCTaskSetConfig env task ctx ENC_CONFIG_ENABLE_EXP_HEADER (ConfigArg.word status)
      else pure (get_err_of_query_result H queryErr)
    decRefIfHeld env task
    pure ret

def hb_mm_mc_get_mjpeg_config (context : Option media_codec_context_t)
    (params : Option Blob) : Facade σ (hb_s32 × Option Blob) :=
  match context, params with
  | none, _ => pure (H.HB_MEDIA_ERR_INVALID_PARAMS, params)
  | some _, none => pure (H.HB_MEDIA_ERR_INVALID_PARAMS, none)
  | some ctx, some p => do
    let (queryErr, task) ← MCAPPGetTaskLocked env ctx
    let (ret, p) ←
      if queryErr = MC_TASK_EXIST then MCTaskGetConfig env task ctx ENC_CONFIG_MJPEG p
      else if queryErr ≠ MC_TASK_INVALID_PARAMS ∧ queryErr ≠ MC_TASK_WRONG_INST_IDX then
        if ctx.encoder ≠ FALSE ∧ ctx.codec_id = H.MEDIA_CODEC_ID_MJPEG then do
          let (_, p) ← default_params env mc_video_get_default_mjpeg_params p
          pure (0, p)
        else pure (H.HB_MEDIA_ERR_OPERATION_NOT_ALLOWED, p)
      else pure (get_err_of_query_result H queryErr, p)
    decRefIfHeld env task
    pure (ret, some p)

def hb_mm_mc_set_mjpeg_config (context : Option media_codec_context_t)
    (params : Option Blob) : Facade σ hb_s32 :=
  match context, params with
  | none, _ => pure H.HB_MEDIA_ERR_INVALID_PARAMS
  | some _, none => pure H.HB_MEDIA_ERR_INVALID_PARAMS
  | some ctx, some p => do
    let (queryErr, task) ← MCAPPGetTaskLocked env ctx
    let ret ←
      if queryErr = MC_TASK_EXIST then MCTaskSetConfig env task ctx ENC_CONFIG_MJPEG (ConfigArg.block p)
      else pure (get_err_of_query_result H queryErr)
    decRefIfHeld env task
    pure ret

def hb_mm_mc_get_jpeg_config (context : Option media_codec_context_t)
    (params : Option Blob) : Facade σ (hb_s32 × Option Blob) :=
  match context, params with
  | none, _ => pure (H.HB_MEDIA_ERR_INVALID_PARAMS, params)
  | some _, none => pure (H.HB_MEDIA_ERR_INVALID_PARAMS, none)
  | some ctx, some p => do
    let (queryErr, task) ← MCAPPGetTaskLocked env ctx
    let (ret, p) ←
      if queryErr = MC_TASK_EXIST then MCTaskGetConfig env task ctx ENC_CONFIG_JPEG p
      else if queryErr ≠ MC_TASK_INVALID_PARAMS ∧ queryErr ≠ MC_TASK_WRONG_INST_IDX then
        if ctx.encoder ≠ FALSE ∧ ctx.codec_id = H.MEDIA_CODEC_ID_JPEG then do
          let (_, p) ← default_params env mc_video_get_default_jpeg_params p
          pure (0, p)
        else pure (H.HB_MEDIA_ERR_OPERATION_NOT_ALLOWED, p)
      else pure (get_err_of_query_result H queryErr, p)
    decRefIfHeld env task
    pure (ret, some p)

def hb_mm_mc_set_jpeg_config (context : Option media_codec_context_t)
    (params : Option Blob) : Facade σ hb_s32 :=
  match context, params with
  | none, _ => pure H.HB_MEDIA_ERR_INVALID_PARAMS
  | some _, none => pure H.HB_MEDIA_ERR_INVALID_PARAMS
  | some ctx, some p => do
    let (queryErr, task) ← MCAPPGetTaskLocked env ctx
    let ret ←
      if queryErr = MC_TASK_EXIST then MCTaskSetConfig env task ctx ENC_CONFIG_JPEG (ConfigArg.block p)
      else pure (get_err_of_query_result H queryErr)
    decRefIfHeld env task
    pure ret

def hb_mm_mc_set_camera (context : Option media_codec_context_t) (pipeline : hb_s32)
    (channel_port_id : hb_s32) :
    Facade σ hb_s32 :=
  match context with
  | none => pure H.HB_MEDIA_ERR_INVALID_PARAMS
  | some ctx => do
    let (queryErr, task) ← MCAPPGetTaskLocked env ctx
    let ret ←
      if queryErr = MC_TASK_EXIST then MCTaskSetConfig env task ctx ENC_CONFIG_CAMERA (ConfigArg.cam_info pipeline channel_port_id)
      else pure (get_err_of_query_result H queryErr)
    decRefIfHeld env task
    pure ret

end Operations

/-! ## The operations as data

Enumerations of the facade, used to state properties of every operation of a
group at once.  Each constructor stands for the operation of the same name
(without the `hb_mm_mc_` at the front) and carries its arguments other than
the context. -/

/-- The lifecycle, status and buffer operations. -/
inductive LifecycleOp where
  | configure
  | start (info : Option Blob)
  | stop
  | pause
  | flush
  | release
  | get_status (status : Option Blob)
  | queue_input_buffer (buffer : Option Blob) (timeout : hb_s32)
  | dequeue_input_buffer (buffer : Option Blob) (timeout : hb_s32)
  | queue_output_buffer (buffer : Option Blob) (timeout : hb_s32)
  | dequeue_output_buffer (buffer : Option Blob) (info : Option Blob) (timeout : hb_s32)
deriving DecidableEq

/-- The pointer argument the operation checks against `NULL` is `NULL`. -/
def LifecycleOp.hasNullArgument : LifecycleOp → Bool
  | .get_status none => true
  | .queue_input_buffer none _ => true
  | .dequeue_input_buffer none _ => true
  | .queue_output_buffer none _ => true
  | .dequeue_output_buffer none _ _ => true
  | _ => false

def LifecycleOp.run (H : Header) (env : Env σ) (context : Option media_codec_context_t) :
    LifecycleOp → Facade σ hb_s32
  | .configure => hb_mm_mc_configure H env context
  | .start info => hb_mm_mc_start H env context info
  | .stop => hb_mm_mc_stop H env context
  | .pause => hb_mm_mc_pause H env context
  | .flush => hb_mm_mc_flush H env context
  | .release => hb_mm_mc_release H env context
  | .get_status status => (hb_mm_mc_get_status H env context status).code
  | .queue_input_buffer buffer timeout =>
    (hb_mm_mc_queue_input_buffer H env context buffer timeout).code
  | .dequeue_input_buffer buffer timeout =>
    (hb_mm_mc_dequeue_input_buffer H env context buffer timeout).code
  | .queue_output_buffer buffer timeout =>
    (hb_mm_mc_queue_output_buffer H env context buffer timeout).code
  | .dequeue_output_buffer buffer info timeout =>
    (hb_mm_mc_dequeue_output_buffer H env context buffer info timeout).code

/-- The operations that write a parameter through `MCTaskSetConfig`. -/
inductive SetConfigOp where
  | set_longterm_ref_mode (params : Option Blob)
  | set_intra_refresh_config (params : Option Blob)
  | set_rate_control_config (params : Option Blob)
  | set_max_bit_rate_config (params : hb_u32)
  | set_deblk_filter_config (params : Option Blob)
  | set_sao_config (params : Option Blob)
  | set_entropy_config (params : Option Blob)
  | set_vui_timing_config (params : Option Blob)
  | set_vui_config (params : Option Blob)
  | set_slice_config (params : Option Blob)
  | insert_user_data (data : hb_ptr) (length : hb_u32)
  | request_idr_frame
  | request_idr_header (force_header : hb_u32)
  | enable_idr_frame (enable : hb_bool)
  | skip_pic (src_idx : hb_s32)
  | set_3dnr_enc_config (params : Option Blob)
  | set_smart_bg_enc_config (params : Option Blob)
  | set_monochroma_config (params : Option Blob)
  | set_pred_unit_config (params : Option Blob)
  | set_transform_config (params : Option Blob)
  | set_roi_config (params : Option Blob)
  | set_roi_avg_qp (params : hb_u32)
  | set_roi_config_ex (params : Option Blob)
  | set_mode_decision_config (params : Option Blob)
  | set_encode_mode_config (mode : hb_s32)
  | set_explicit_header_config (status : hb_s32)
  | set_mjpeg_config (params : Option Blob)
  | set_jpeg_config (params : Option Blob)
  | set_camera (pipeline : hb_s32) (channel_port_id : hb_s32)
deriving DecidableEq

/-- The `params` pointer the setter checks against `NULL` is `NULL`. -/
def SetConfigOp.hasNullArgument : SetConfigOp → Bool
  | .set_longterm_ref_mode none => true
  | .set_intra_refresh_config none => true
  | .set_rate_control_config none => true
  | .set_deblk_filter_config none => true
  | .set_sao_config none => true
  | .set_entropy_config none => true
  | .set_vui_timing_config none => true
  | .set_vui_config none => true
  | .set_slice_config none => true
  | .set_3dnr_enc_config none => true
  | .set_smart_bg_enc_config none => true
  | .set_monochroma_config none => true
  | .set_pred_unit_config none => true
  | .set_transform_config none => true
  | .set_roi_config none => true
  | .set_roi_config_ex none => true
  | .set_mode_decision_config none => true
  | .set_mjpeg_config none => true
  | .set_jpeg_config none => true
  | _ => false

def SetConfigOp.run (H : Header) (env : Env σ) (context : Option media_codec_context_t) :
    SetConfigOp → Facade σ hb_s32
  | .set_longterm_ref_mode params => hb_mm_mc_set_longterm_ref_mode H env context params
  | .set_intra_refresh_config params => hb_mm_mc_set_intra_refresh_config H env context params
  | .set_rate_control_config params => hb_mm_mc_set_rate_control_config H env context params
  | .set_max_bit_rate_config params => hb_mm_mc_set_max_bit_rate_config H env context params
  | .set_deblk_filter_config params => hb_mm_mc_set_deblk_filter_config H env context params
  | .set_sao_config params => hb_mm_mc_set_sao_config H env context params
  | .set_entropy_config params => hb_mm_mc_set_entropy_config H env context params
  | .set_vui_timing_config params => hb_mm_mc_set_vui_timing_config H env context params
  | .set_vui_config params => hb_mm_mc_set_vui_config H env context params
  | .set_slice_config params => hb_mm_mc_set_slice_config H env context params
  | .insert_user_data data length => hb_mm_mc_insert_user_data H env context data length
  | .request_idr_frame => hb_mm_mc_request_idr_frame H env context
  | .request_idr_header force_header => hb_mm_mc_request_idr_header H env context force_header
  | .enable_idr_frame enable => hb_mm_mc_enable_idr_frame H env context enable
  | .skip_pic src_idx => hb_mm_mc_skip_pic H env context src_idx
  | .set_3dnr_enc_config params => hb_mm_mc_set_3dnr_enc_config H env context params
  | .set_smart_bg_enc_config params => hb_mm_mc_set_smart_bg_enc_config H env context params
  | .set_monochroma_config params => hb_mm_mc_set_monochroma_config H env context params
  | .set_pred_unit_config params => hb_mm_mc_set_pred_unit_config H env context params
  | .set_transform_config params => hb_mm_mc_set_transform_config H env context params
  | .set_roi_config params => hb_mm_mc_set_roi_config H env context params
  | .set_roi_avg_qp params => hb_mm_mc_set_roi_avg_qp H env context params
  | .set_roi_config_ex params => hb_mm_mc_set_roi_config_ex H env context params
  | .set_mode_decision_config params => hb_mm_mc_set_mode_decision_config H env context params
  | .set_encode_mode_config mode => hb_mm_mc_set_encode_mode_config H env context mode
  | .set_explicit_header_config status =>
    hb_mm_mc_set_explicit_header_config H env context status
  | .set_mjpeg_config params => hb_mm_mc_set_mjpeg_config H env context params
  | .set_jpeg_config params => hb_mm_mc_set_jpeg_config H env context params
  | .set_camera pipeline channel_port_id =>
    hb_mm_mc_set_camera H env context pipeline channel_port_id

/-- The tag a setter passes to `MCTaskSetConfig`. -/
def SetConfigOp.tag : SetConfigOp → EncConfig
  | .set_longterm_ref_mode _ => .ENC_CONFIG_LONGTERM_REF
  | .set_intra_refresh_config _ => .ENC_CONFIG_INTRA_REFRESH
  | .set_rate_control_config _ => .ENC_CONFIG_RATE_CONTROL
  | .set_max_bit_rate_config _ => .ENC_CONFIG_TRANS_BITRATE
  | .set_deblk_filter_config _ => .ENC_CONFIG_DEBLK_FILTER
  | .set_sao_config _ => .ENC_CONFIG_SAO
  | .set_entropy_config _ => .ENC_CONFIG_ENTROPY
  | .set_vui_timing_config _ => .ENC_CONFIG_VUI_TIMING
  | .set_vui_config _ => .ENC_CONFIG_VUI
  | .set_slice_config _ => .ENC_CONFIG_SLICE
  | .insert_user_data _ _ => .ENC_CONFIG_INSERT_USERDATA
  | .request_idr_frame => .ENC_CONFIG_REQUEST_IDR
  | .request_idr_header _ => .ENC_CONFIG_REQUEST_IDR_HEADER
  | .enable_idr_frame _ => .ENC_CONFIG_ENABLE_IDR
  | .skip_pic _ => .ENC_CONFIG_SKIP_PIC
  | .set_3dnr_enc_config _ => .ENC_CONFIG_3DNR
  | .set_smart_bg_enc_config _ => .ENC_CONFIG_SMART_BG
  | .set_monochroma_config _ => .ENC_CONFIG_MONOCHROMA
  | .set_pred_unit_config _ => .ENC_CONFIG_PRED_UNIT
  | .set_transform_config _ => .ENC_CONFIG_TRANSFORM
  | .set_roi_config _ => .ENC_CONFIG_ROI
  | .set_roi_avg_qp _ => .ENC_CONFIG_ROI_AVG_QP
  | .set_roi_config_ex _ => .ENC_CONFIG_ROI_EX
  | .set_mode_decision_config _ => .ENC_CONFIG_MODE_DECISION
  | .set_encode_mode_config _ => .ENC_CONFIG_ENCODE_MODE
  | .set_explicit_header_config _ => .ENC_CONFIG_ENABLE_EXP_HEADER
  | .set_mjpeg_config _ => .ENC_CONFIG_MJPEG
  | .set_jpeg_config _ => .ENC_CONFIG_JPEG
  | .set_camera _ _ => .ENC_CONFIG_CAMERA

/-- The `const void *` a setter passes to `MCTaskSetConfig`: the caller's block,
or the address of a local holding the by-value argument.  (A `NULL` block never
gets this far; it is listed as `null`.) -/
def SetConfigOp.arg : SetConfigOp → ConfigArg
  | .set_longterm_ref_mode (some p) => .block p
  | .set_intra_refresh_config (some p) => .block p
  | .set_rate_control_config (some p) => .block p
  | .set_max_bit_rate_config params => .word params
  | .set_deblk_filter_config (some p) => .block p
  | .set_sao_config (some p) => .block p
  | .set_entropy_config (some p) => .block p
  | .set_vui_timing_config (some p) => .block p
  | .set_vui_config (some p) => .block p
  | .set_slice_config (some p) => .block p
  | .insert_user_data data length => .user_data length data
  | .request_idr_frame => .null
  | .request_idr_header force_header => .word force_header
  | .enable_idr_frame enable => .word enable
  | .skip_pic src_idx => .word src_idx
  | .set_3dnr_enc_config (some p) => .block p
  | .set_smart_bg_enc_config (some p) => .block p
  | .set_monochroma_config (some p) => .block p
  | .set_pred_unit_config (some p) => .block p
  | .set_transform_config (some p) => .block p
  | .set_roi_config (some p) => .block p
  | .set_roi_avg_qp params => .word params
  | .set_roi_config_ex (some p) => .block p
  | .set_mode_decision_config (some p) => .block p
  | .set_encode_mode_config mode => .word mode
  | .set_explicit_header_config status => .word status
  | .set_mjpeg_config (some p) => .block p
  | .set_jpeg_config (some p) => .block p
  | .set_camera pipeline channel_port_id => .cam_info pipeline channel_port_id
  | _ => .null

/-- The operations that read a parameter block (`MCTaskGetConfig`, or the
default table when there is no task). -/
inductive GetConfigOp where
  | get_longterm_ref_mode
  | get_intra_refresh_config
  | get_rate_control_config
  | get_max_bit_rate_config
  | get_deblk_filter_config
  | get_sao_config
  | get_entropy_config
  | get_vui_timing_config
  | get_vui_config
  | get_slice_config
  | get_3dnr_enc_config
  | get_smart_bg_enc_config
  | get_monochroma_config
  | get_pred_unit_config
  | get_transform_config
  | get_roi_config
  | get_roi_avg_qp
  | get_roi_config_ex (roi_idx : hb_u32)
  | get_mode_decision_config
  | get_encode_mode_config
  | get_explicit_header_config
  | get_mjpeg_config
  | get_jpeg_config
deriving DecidableEq

/-- The second component of the value is the caller's block after the call. -/
def GetConfigOp.run (H : Header) (env : Env σ) (context : Option media_codec_context_t)
    (params : Option Blob) : GetConfigOp → Facade σ (hb_s32 × Option Blob)
  | .get_longterm_ref_mode => hb_mm_mc_get_longterm_ref_mode H env context params
  | .get_intra_refresh_config => hb_mm_mc_get_intra_refresh_config H env context params
  | .get_rate_control_config => hb_mm_mc_get_rate_control_config H env context params
  | .get_max_bit_rate_config => hb_mm_mc_get_max_bit_rate_config H env context params
  | .get_deblk_filter_config => hb_mm_mc_get_deblk_filter_config H env context params
  | .get_sao_config => hb_mm_mc_get_sao_config H env context params
  | .get_entropy_config => hb_mm_mc_get_entropy_config H env context params
  | .get_vui_timing_config => hb_mm_mc_get_vui_timing_config H env context params
  | .get_vui_config => hb_mm_mc_get_vui_config H env context params
  | .get_slice_config => hb_mm_mc_get_slice_config H env context params
  | .get_3dnr_enc_config => hb_mm_mc_get_3dnr_enc_config H env context params
  | .get_smart_bg_enc_config => hb_mm_mc_get_smart_bg_enc_config H env context params
  | .get_monochroma_config => hb_mm_mc_get_monochroma_config H env context params
  | .get_pred_unit_config => hb_mm_mc_get_pred_unit_config H env context params
  | .get_transform_config => hb_mm_mc_get_transform_config H env context params
  | .get_roi_config => hb_mm_mc_get_roi_config H env context params
  | .get_roi_avg_qp => hb_mm_mc_get_roi_avg_qp H env context params
  | .get_roi_config_ex roi_idx => hb_mm_mc_get_roi_config_ex H env context roi_idx params
  | .get_mode_decision_config => hb_mm_mc_get_mode_decision_config H env context params
  | .get_encode_mode_config => hb_mm_mc_get_encode_mode_config H env context params
  | .get_explicit_header_config => hb_mm_mc_get_explicit_header_config H env context params
  | .get_mjpeg_config => hb_mm_mc_get_mjpeg_config H env context params
  | .get_jpeg_config => hb_mm_mc_get_jpeg_config H env context params

/-- Every operation of `media_codec.c` that resolves a task. -/
inductive FacadeOp where
  | init
  | set_callback (callback : Option media_codec_callback_t) (userdata : hb_ptr)
  | set_vlc_buffer_listener (callback : Option media_codec_callback_t) (userdata : hb_ptr)
  | lifecycle (op : LifecycleOp)
  | get_state (state : Option media_codec_state_t)
  | get_config (op : GetConfigOp) (params : Option Blob)
  | set_config (op : SetConfigOp)
  | get_user_data (params : Option Blob) (timeout : hb_s32)
  | release_user_data (params : Option Blob)
  | get_fd (fd : Option hb_s32)
  | close_fd (fd : hb_s32)
  | set_status (status : Option Blob)
deriving DecidableEq

def FacadeOp.run (H : Header) (env : Env σ) (context : Option media_codec_context_t) :
    FacadeOp → Facade σ hb_s32
  | .init => ( hb_mm_mc_initialize H env context).code
  | .set_callback callback userdata => hb_mm_mc_set_callback H env context callback userdata
  | .set_vlc_buffer_listener callback userdata =>
    hb_mm_mc_set_vlc_buffer_listener H env context callback userdata
  | .lifecycle op => op.run H env context
  | .get_state state => (hb_mm_mc_get_state H env context state).code
  | .get_config op params => (op.run H env context params).code
  | .set_config op => op.run H env context
  | .get_user_data params timeout => (hb_mm_mc_get_user_data H env context params timeout).code
  | .release_user_data params => hb_mm_mc_release_user_data H env context params
  | .get_fd fd => (hb_mm_mc_get_fd H env context fd).code
  | .close_fd fd => hb_mm_mc_close_fd H env context fd
  | .set_status status => (hb_mm_mc_set_status H env context status).code

/-! ## Reading a call list -/

/-- The pointer a call stores into the caller's `task` variable, for the two
calls that do (`MCAPPGetTaskLocked(context, &task)` and
`task = MCTaskCreate()`). -/
def Call.handedOut : Call → Option (Option MCTaskContext)
  | .MCAPPGetTaskLocked _ _ task => some task
  | .MCTaskCreate task => some task
  | _ => none

/-- The value of the local `task` variable after a list of calls, `cur` being
its value before: each lookup or creation overwrites it. -/
def taskVariableFrom (cur : Option MCTaskContext) (calls : List Call) : Option MCTaskContext :=
  calls.foldl (fun cur c => match c.handedOut with
    | some t => t
    | none => cur) cur

/-- The value of an operation's local `task` variable at its end: `NULL` at
first, then whatever the latest lookup or creation stored. -/
def taskVariable (calls : List Call) : Option MCTaskContext :=
  taskVariableFrom none calls

/-- The task an `MCTaskDecRef` call releases. -/
def Call.released : Call → Option MCTaskContext
  | .MCTaskDecRef t => some t
  | _ => none

/-- The tasks on which `MCTaskDecRef` was called, in order. -/
def decRefs (calls : List Call) : List MCTaskContext :=
  calls.filterMap Call.released

/-- Change of the reference count of task `t` by one call, in the model where
a lookup or a creation that hands out `t` takes one reference on it and
`MCTaskDecRef` gives one back. -/
def Call.refChange (t : MCTaskContext) : Call → Int
  | .MCAPPGetTaskLocked _ _ (some u) => if u = t then 1 else 0
  | .MCTaskCreate (some u) => if u = t then 1 else 0
  | .MCTaskDecRef u => if u = t then -1 else 0
  | _ => 0

/-- Net change of the reference count of task `t` over a list of calls. -/
def refDelta (t : MCTaskContext) (calls : List Call) : Int :=
  (calls.map (Call.refChange t)).sum

/-- The call is a task level or registry mutating operation: every collaborator
call other than the lookup, the release of the reference the lookup handed out,
the default tables, the audio subsystem and the demo's entry records. -/
def Call.isTaskOperation : Call → Bool
  | .MCAPPGetTaskLocked _ _ _ => false
  | .MCTaskDecRef _ => false
  | .default_params _ _ => false
  | .MCAPPRegisterAudioEncoder _ _ => false
  | .MCAPPUnregisterAudioEncoder _ => false
  | .MCAPPRegisterAudioDecoder _ _ => false
  | .MCAPPUnregisterAudioDecoder _ => false
  | .api _ => false
  | _ => true

/-- The calls that give back the reference behind a task pointer: one
`MCTaskDecRef` when the pointer is not `NULL`, none otherwise. -/
def releaseCalls : Option MCTaskContext → List Call
  | some t => [Call.MCTaskDecRef t]
  | none => []

/-- The world after `if (task != NULL) MCTaskDecRef(task)`. -/
def releaseWorld (env : Env σ) : Option MCTaskContext → σ → σ
  | some t, w => env.MCTaskDecRef t w
  | none, w => w

/-- The call is an `MCTaskSetConfig`. -/
def Call.isSetConfig : Call → Bool
  | .MCTaskSetConfig _ _ _ _ => true
  | _ => false

/-- A sample header: the error enumerators are distinct negative values and
the codec ids count up from `MEDIA_CODEC_ID_NONE`. -/
def sampleHeader : Header where
  HB_MEDIA_ERR_UNKNOWN := -1
  HB_MEDIA_ERR_CODEC_NOT_FOUND := -2
  HB_MEDIA_ERR_OPERATION_NOT_ALLOWED := -6
  HB_MEDIA_ERR_INSUFFICIENT_RES := -7
  HB_MEDIA_ERR_INVALID_PARAMS := -9
  HB_MEDIA_ERR_INVALID_INSTANCE := -10
  HB_MEDIA_ERR_WAIT_TIMEOUT := -16
  MEDIA_CODEC_ID_NONE := -1
  MEDIA_CODEC_ID_H264 := 0
  MEDIA_CODEC_ID_H265 := 1
  MEDIA_CODEC_ID_MJPEG := 2
  MEDIA_CODEC_ID_JPEG := 3
  MEDIA_CODEC_ID_FLAC := 4
  MEDIA_CODEC_ID_PCM_MULAW := 5
  MEDIA_CODEC_ID_PCM_ALAW := 6
  MEDIA_CODEC_ID_ADPCM_G726 := 7
  MEDIA_CODEC_ID_ADPCM := 8
  MEDIA_CODEC_ID_AAC := 9
  MEDIA_CODEC_ID_TOTAL := 37

/-! ## Tables read off the getters -/

/-- The condition on the codec kind under which a getter serves its default
when there is no task.  As listed in the specification: rate-control and slice
need app-type VIDEO or JPEG; SAO and mode-decision need H265; 3DNR needs app-type
VIDEO and H265; entropy needs H264; the MJPEG and JPEG blocks need MJPEG and
JPEG; encode-mode has no codec condition; every other getter needs app-type
VIDEO. -/
def GetConfigOp.codecApplies (H : Header) (env : Env σ) (codec_id : media_codec_id_t) :
    GetConfigOp → Prop
  | .get_rate_control_config | .get_slice_config =>
    env.MCTaskGetAppType codec_id = MCAppType.MC_APP_VIDEO ∨
      env.MCTaskGetAppType codec_id = MCAppType.MC_APP_JPEG
  | .get_sao_config | .get_mode_decision_config => codec_id = H.MEDIA_CODEC_ID_H265
  | .get_3dnr_enc_config =>
    env.MCTaskGetAppType codec_id = MCAppType.MC_APP_VIDEO ∧ codec_id = H.MEDIA_CODEC_ID_H265
  | .get_entropy_config => codec_id = H.MEDIA_CODEC_ID_H264
  | .get_mjpeg_config => codec_id = H.MEDIA_CODEC_ID_MJPEG
  | .get_jpeg_config => codec_id = H.MEDIA_CODEC_ID_JPEG
  | .get_encode_mode_config => True
  | _ => env.MCTaskGetAppType codec_id = MCAppType.MC_APP_VIDEO

instance (H : Header) (env : Env σ) (codec_id : media_codec_id_t) (op : GetConfigOp) :
    Decidable (op.codecApplies H env codec_id) := by
  cases op <;> unfold GetConfigOp.codecApplies <;> infer_instance

/-- The two getters whose default is computed from the encoder frame rate. -/
def GetConfigOp.needsFrameRate : GetConfigOp → Bool
  | .get_vui_timing_config => true
  | .get_vui_config => true
  | _ => false

/-- The getter whose result code is the one its default table returns (the
other tables return nothing and the getter answers 0). -/
def GetConfigOp.returnsProviderCode : GetConfigOp → Bool
  | .get_rate_control_config => true
  | _ => false

/-- The default table a getter falls back to, with the scalar arguments it
passes for the given context. -/
def GetConfigOp.provider (env : Env σ) (ctx : media_codec_context_t) :
    GetConfigOp → DefaultProvider
  | .get_longterm_ref_mode => .mc_video_get_default_longtermRef_params
  | .get_intra_refresh_config => .mc_video_get_default_intraRefresh_params ctx.codec_id
  | .get_rate_control_config => .mc_video_get_default_rate_control_params
  | .get_max_bit_rate_config => .mc_video_get_default_transrate_params
  | .get_deblk_filter_config => .mc_video_get_default_deblkFilter_params ctx.codec_id
  | .get_sao_config => .mc_video_get_default_sao_params
  | .get_entropy_config => .mc_video_get_default_entropy_params
  | .get_vui_timing_config =>
    .mc_video_get_default_VUITiming_params ctx.codec_id (env.mc_video_get_enc_frame_rate ctx)
  | .get_vui_config =>
    .mc_video_get_default_VUI_params ctx.codec_id (env.mc_video_get_enc_frame_rate ctx)
  | .get_slice_config => .mc_video_get_default_slice_params ctx.codec_id
  | .get_3dnr_enc_config => .mc_video_get_default_3dnr_params
  | .get_smart_bg_enc_config => .mc_video_get_default_smartBG_params
  | .get_monochroma_config => .mc_video_get_default_monochroma_params
  | .get_pred_unit_config => .mc_video_get_default_predUnit_params ctx.codec_id
  | .get_transform_config => .mc_video_get_default_transform_params ctx.codec_id
  | .get_roi_config => .mc_video_get_default_roi_params
  | .get_roi_avg_qp => .mc_video_get_default_roi_avgQP_params
  | .get_roi_config_ex roi_idx => .mc_video_get_default_roi_params_ex roi_idx
  | .get_mode_decision_config => .mc_video_get_default_modeDecision_params
  | .get_encode_mode_config => .mc_video_get_default_encodeMode_params
  | .get_explicit_header_config => .mc_video_get_default_explicitHeader_params
  | .get_mjpeg_config => .mc_video_get_default_mjpeg_params
  | .get_jpeg_config => .mc_video_get_default_jpeg_params

/-! ## A sample registry

A small concrete world used to run the operations: one slot that holds at
most one registered task with the codec id it was initialised for, the task's
reference count, and the number of times the task level init ran. -/

structure SampleWorld where
  task : Option MCTaskContext
  codec : media_codec_id_t
  refs : Int
  initRuns : Nat
deriving DecidableEq

/-- App-type of a codec id in the sample: ids `0` and `1` are video, `2` and
`3` JPEG. -/
def sampleAppType (codec_id : media_codec_id_t) : MCAppType :=
  if codec_id = 0 ∨ codec_id = 1 then MCAppType.MC_APP_VIDEO
  else if codec_id = 2 ∨ codec_id = 3 then MCAppType.MC_APP_JPEG
  else MCAppType.other 0

/-- Collaborators over `SampleWorld`.  The lookup rejects an instance index
outside `0..31`, reports `MC_TASK_NOT_EXIST` for the empty slot and
`MC_TASK_WRONG_APP_TYPE` when the registered task belongs to another app-type,
and otherwise hands out the task and takes a reference.  Creation hands out
task `7`, whose instance index is `7`; the encoder frame rate is the first word
of `video_enc_params`; a default table writes its own number. -/
def sampleEnv : Env SampleWorld where
  MCAppInitLocked := fun _ w => (0, w)
  MCAPPGetTaskLocked := fun ctx w =>
    if ctx.instance_index < 0 ∨ 32 ≤ ctx.instance_index then
      ((MCTaskQueryError.MC_TASK_WRONG_INST_IDX, none), w)
    else
      match w.task with
      | none => ((MCTaskQueryError.MC_TASK_NOT_EXIST, none), w)
      | some t =>
        if sampleAppType ctx.codec_id = sampleAppType w.codec then
          ((MCTaskQueryError.MC_TASK_EXIST, some t), { w with refs := w.refs + 1 })
        else ((MCTaskQueryError.MC_TASK_WRONG_APP_TYPE, none), w)
  MCTaskCreate := fun w => (some 7, { w with refs := 1 })
  MCTaskInitLocked := fun _ codec_id _ _ w =>
    (0, { w with codec := codec_id, initRuns := w.initRuns + 1 })
  MCAppAddTaskLocked := fun t w => (0, { w with task := t })
  MCTaskDecRef := fun _ w => { w with refs := w.refs - 1 }
  instIdx := fun t _ => t
  MCTaskRegisterListernerLocked := fun _ _ _ _ w => (0, w)
  MCTaskRegisterVLCBufListernerLocked := fun _ _ _ _ w => (0, w)
  MCTaskConfigureLocked := fun _ _ w => (0, w)
  MCTaskStartLocked := fun _ _ w => (0, w)
  MCTaskStopLocked := fun _ w => (0, w)
  MCTaskPauseLocked := fun _ w => (0, w)
  MCTaskFlushLocked := fun _ w => (0, w)
  MCTaskRelease := fun _ w => (0, w)
  MCAppDeleteTaskLocked := fun _ w => (0, { w with task := none })
  MCTaskGetStateLocked := fun _ _ w => ((0, media_codec_state_t.other 1), w)
  MCTaskGetStatusLocked := fun _ _ b w => ((0, b), w)
  MCTaskSetStatusLocked := fun _ _ b w => ((0, b), w)
  MCTaskQueueInputBufferLocked := fun _ b _ w => ((0, b), w)
  MCTaskDequeueInputBufferLocked := fun _ b _ w => ((0, b), w)
  MCTaskQueueOutputBufferLocked := fun _ b _ w => ((0, b), w)
  MCTaskDequeueOutputBufferLocked := fun _ b i _ w => ((0, b, i), w)
  MCTaskGetConfig := fun _ _ _ b w => ((0, b), w)
  MCTaskSetConfig := fun _ _ _ _ w => (0, w)
  MCTaskGetUserData := fun _ b _ w => ((0, b), w)
  MCTaskReleaseUserData := fun _ _ w => (0, w)
  MCTaskOpenFdLocked := fun _ _ fd w => ((0, fd), w)
  MCTaskCloseFdLocked := fun _ _ _ w => (0, w)
  MCTaskGetAppType := sampleAppType
  mc_video_get_enc_frame_rate := fun ctx => (ctx.video_enc_params.headD 0).toNat
  default_params := fun _ _ => (0, [42])
  set_roi_idx := fun idx b => (idx : Int) :: b.tail

/-- The empty registry. -/
def emptyWorld : SampleWorld := { task := none, codec := 0, refs := 0, initRuns := 0 }

/-- A registry holding task `7`, an H.265 task initialised once. -/
def liveWorld : SampleWorld := { task := some 7, codec := 1, refs := 1, initRuns := 1 }

/-- The context of the demo (`main.cpp`): an H.265 encoder, everything else
zeroed by `memset`. -/
def h265Encoder : media_codec_context_t where
  codec_id := sampleHeader.MEDIA_CODEC_ID_H265
  encoder := 1
  instance_index := 0
  video_enc_params := []
  video_dec_params := []
  audio_enc_params := []
  audio_dec_params := []

/-- The demo context after a successful initialize: it carries the instance
index of task `7`. -/
def h265EncoderAt7 : media_codec_context_t := { h265Encoder with instance_index := 7 }

/-- An H.265 decoder context. -/
def h265Decoder : media_codec_context_t := { h265Encoder with encoder := FALSE }

/-- A JPEG encoder context. -/
def jpegEncoder : media_codec_context_t :=
  { h265Encoder with codec_id := sampleHeader.MEDIA_CODEC_ID_JPEG }

/-! ## Default contexts (`hb_mm_mc_get_default_context`) -/

/-- The default tables of whole parameter blocks, one encoder and one decoder
table per codec family. -/
inductive ContextDefault where
  | mc_video_get_default_h264enc_params
  | mc_video_get_default_h264dec_params
  | mc_video_get_default_h265enc_params
  | mc_video_get_default_h265dec_params
  | mc_video_get_default_mjpegenc_params
  | mc_video_get_default_mjpegdec_params
  | mc_video_get_default_jpegenc_params
  | mc_video_get_default_jpegdec_params
  | mc_audio_get_default_aacEnc_params
  | mc_audio_get_default_aacDec_params
  | mc_audio_get_default_flacEnc_params
  | mc_audio_get_default_flacDec_params
  | mc_audio_get_default_g711Enc_params
  | mc_audio_get_default_g711Dec_params
  | mc_audio_get_default_g726Enc_params
  | mc_audio_get_default_g726Dec_params
  | mc_audio_get_default_adpcmEnc_params
  | mc_audio_get_default_adpcmDec_params
deriving DecidableEq

/-- One video `case` of the switch: the encoder table on `video_enc_params`
when `encoder != FALSE`, the decoder table on `video_dec_params` otherwise. -/
def fillVideoDefaults (dflt : ContextDefault → Blob → Blob) (enc dec : ContextDefault)
    (ctx : media_codec_context_t) : media_codec_context_t :=
  if ctx.encoder ≠ FALSE then { ctx with video_enc_params := dflt enc ctx.video_enc_params }
  else { ctx with video_dec_params := dflt dec ctx.video_dec_params }

/-- One audio `case` of the switch: the encoder table on `audio_enc_params`
when `encoder != FALSE`, the decoder table on `audio_dec_params` otherwise. -/
def fillAudioDefaults (dflt : ContextDefault → Blob → Blob) (enc dec : ContextDefault)
    (ctx : media_codec_context_t) : media_codec_context_t :=
  if ctx.encoder ≠ FALSE then { ctx with audio_enc_params := dflt enc ctx.audio_enc_params }
  else { ctx with audio_dec_params := dflt dec ctx.audio_dec_params }

/-- The default tables are a parameter `dflt`: each maps the block it is given
to the block it leaves.  The `switch` is read as the chain of its `case` labels
in source order (the labels of a C `switch` are distinct).  The second component
is the caller's context after the call. -/
def hb_mm_mc_get_default_context (H : Header) (dflt : ContextDefault → Blob → Blob)
    (codec_id : media_codec_id_t) (encoder : hb_bool) (context : Option media_codec_context_t) :
    hb_s32 × Option media_codec_context_t :=
  match context with
  | none => (H.HB_MEDIA_ERR_INVALID_PARAMS, none)
  | some ctx =>
    if codec_id ≤ H.MEDIA_CODEC_ID_NONE ∨ codec_id ≥ H.MEDIA_CODEC_ID_TOTAL then
      (H.HB_MEDIA_ERR_INVALID_PARAMS, some ctx)
    else if encoder ≠ TRUE ∧ encoder ≠ FALSE then (H.HB_MEDIA_ERR_INVALID_PARAMS, some ctx)
    else
      let ctx := { ctx with codec_id := codec_id, encoder := encoder }
      if codec_id = H.MEDIA_CODEC_ID_H264 then
        (0, some (fillVideoDefaults dflt .mc_video_get_default_h264enc_params
          .mc_video_get_default_h264dec_params ctx))
      else if codec_id = H.MEDIA_CODEC_ID_H265 then
        (0, some (fillVideoDefaults dflt .mc_video_get_default_h265enc_params
          .mc_video_get_default_h265dec_params ctx))
      else if codec_id = H.MEDIA_CODEC_ID_MJPEG then
        (0, some (fillVideoDefaults dflt .mc_video_get_default_mjpegenc_params
          .mc_video_get_default_mjpegdec_params ctx))
      else if codec_id = H.MEDIA_CODEC_ID_JPEG then
        (0, some (fillVideoDefaults dflt .mc_video_get_default_jpegenc_params
          .mc_video_get_default_jpegdec_params ctx))
      else if codec_id = H.MEDIA_CODEC_ID_AAC then
        (0, some (fillAudioDefaults dflt .mc_audio_get_default_aacEnc_params
          .mc_audio_get_default_aacDec_params ctx))
      else if codec_id = H.MEDIA_CODEC_ID_FLAC then
        (0, some (fillAudioDefaults dflt .mc_audio_get_default_flacEnc_params
          .mc_audio_get_default_flacDec_params ctx))
      else if codec_id = H.MEDIA_CODEC_ID_PCM_MULAW ∨ codec_id = H.MEDIA_CODEC_ID_PCM_ALAW then
        (0, some (fillAudioDefaults dflt .mc_audio_get_default_g711Enc_params
          .mc_audio_get_default_g711Dec_params ctx))
      else if codec_id = H.MEDIA_CODEC_ID_ADPCM_G726 then
        (0, some (fillAudioDefaults dflt .mc_audio_get_default_g726Enc_params
          .mc_audio_get_default_g726Dec_params ctx))
      else if codec_id = H.MEDIA_CODEC_ID_ADPCM then
        (0, some (fillAudioDefaults dflt .mc_audio_get_default_adpcmEnc_params
          .mc_audio_get_default_adpcmDec_params ctx))
      else (H.HB_MEDIA_ERR_INVALID_PARAMS, some ctx)

/-- The codec kinds that have default tables, as the specification lists them:
the codec id, whether its blocks are the video ones, its encoder table and its
decoder table. -/
def Header.defaultTables (H : Header) :
    List (media_codec_id_t × Bool × ContextDefault × ContextDefault) :=
  [(H.MEDIA_CODEC_ID_H264, true, .mc_video_get_default_h264enc_params,
      .mc_video_get_default_h264dec_params),
    (H.MEDIA_CODEC_ID_H265, true, .mc_video_get_default_h265enc_params,
      .mc_video_get_default_h265dec_params),
    (H.MEDIA_CODEC_ID_MJPEG, true, .mc_video_get_default_mjpegenc_params,
      .mc_video_get_default_mjpegdec_params),
    (H.MEDIA_CODEC_ID_JPEG, true, .mc_video_get_default_jpegenc_params,
      .mc_video_get_default_jpegdec_params),
    (H.MEDIA_CODEC_ID_AAC, false, .mc_audio_get_default_aacEnc_params,
      .mc_audio_get_default_aacDec_params),
    (H.MEDIA_CODEC_ID_FLAC, false, .mc_audio_get_default_flacEnc_params,
      .mc_audio_get_default_flacDec_params),
    (H.MEDIA_CODEC_ID_PCM_MULAW, false, .mc_audio_get_default_g711Enc_params,
      .mc_audio_get_default_g711Dec_params),
    (H.MEDIA_CODEC_ID_PCM_ALAW, false, .mc_audio_get_default_g711Enc_params,
      .mc_audio_get_default_g711Dec_params),
    (H.MEDIA_CODEC_ID_ADPCM_G726, false, .mc_audio_get_default_g726Enc_params,
      .mc_audio_get_default_g726Dec_params),
    (H.MEDIA_CODEC_ID_ADPCM, false, .mc_audio_get_default_adpcmEnc_params,
      .mc_audio_get_default_adpcmDec_params)]

/-- What the header guarantees about the ten codec ids the switch names: they
are pairwise distinct (they are `case` labels of one `switch`) and lie strictly
between `MEDIA_CODEC_ID_NONE` and `MEDIA_CODEC_ID_TOTAL`. -/
def Header.CodecIdsValid (H : Header) : Prop :=
  (H.defaultTables.map (·.1)).Nodup ∧
    ∀ id ∈ H.defaultTables.map (·.1), H.MEDIA_CODEC_ID_NONE < id ∧ id < H.MEDIA_CODEC_ID_TOTAL

instance (H : Header) : Decidable H.CodecIdsValid := by
  unfold Header.CodecIdsValid
  infer_instance

/-! ## Audio registration (`hb_mm_mc_register_audio_encoder` and friends) -/

/-- The audio subsystem, present only when `ENABLE_AUDIO` is defined.  A
register function may write the new handle through its `handle` pointer. -/
structure AudioEnv (σ : Type) where
  MCAPPRegisterAudioEncoder : Option hb_s32 → Option Blob → σ → (hb_s32 × Option hb_s32) × σ
  MCAPPUnregisterAudioEncoder : hb_s32 → σ → hb_s32 × σ
  MCAPPRegisterAudioDecoder : Option hb_s32 → Option Blob → σ → (hb_s32 × Option hb_s32) × σ
  MCAPPUnregisterAudioDecoder : hb_s32 → σ → hb_s32 × σ

/-- `audio` is `none` when `ENABLE_AUDIO` is not defined.  The second component
is what `*handle` holds after the call. -/
def hb_mm_mc_register_audio_encoder (H : Header) (audio : Option (AudioEnv σ))
    (handle : Option hb_s32) (encoder : Option Blob) : Facade σ (hb_s32 × Option hb_s32) := do
  let (ret, handle) ←
    match audio with
    | some a =>
      Facade.call (fun _ => Call.MCAPPRegisterAudioEncoder handle encoder)
        (a.MCAPPRegisterAudioEncoder handle encoder)
    | none => pure (H.HB_MEDIA_ERR_CODEC_NOT_FOUND, handle)
  if ret < 0 then pure (ret, handle)
  else pure (ret, handle)

def hb_mm_mc_unregister_audio_encoder (H : Header) (audio : Option (AudioEnv σ))
    (handle : hb_s32) : Facade σ hb_s32 := do
  let ret ←
    match audio with
    | some a =>
      Facade.call (fun _ => Call.MCAPPUnregisterAudioEncoder handle)
        (a.MCAPPUnregisterAudioEncoder handle)
    | none => pure H.HB_MEDIA_ERR_CODEC_NOT_FOUND
  if ret < 0 then pure H.HB_MEDIA_ERR_CODEC_NOT_FOUND
  else pure ret

def hb_mm_mc_register_audio_decoder (H : Header) (audio : Option (AudioEnv σ))
    (handle : Option hb_s32) (decoder : Option Blob) : Facade σ (hb_s32 × Option hb_s32) := do
  let (ret, handle) ←
    match audio with
    | some a =>
      Facade.call (fun _ => Call.MCAPPRegisterAudioDecoder handle decoder)
        (a.MCAPPRegisterAudioDecoder handle decoder)
    | none => pure (H.HB_MEDIA_ERR_CODEC_NOT_FOUND, handle)
  if ret < 0 then pure (ret, handle)
  else pure (ret, handle)

def hb_mm_mc_unregister_audio_decoder (H : Header) (audio : Option (AudioEnv σ))
    (handle : hb_s32) : Facade σ hb_s32 := do
  let ret ←
    match audio with
    | some a =>
      Facade.call (fun _ => Call.MCAPPUnregisterAudioDecoder handle)
        (a.MCAPPUnregisterAudioDecoder handle)
    | none => pure H.HB_MEDIA_ERR_CODEC_NOT_FOUND
  if ret < 0 then pure H.HB_MEDIA_ERR_CODEC_NOT_FOUND
  else pure ret

/-- The pointer argument an operation checks against `NULL` right after the
context (buffer, state, status, params or fd) is `NULL`. -/
def FacadeOp.hasNullArgument : FacadeOp → Bool
  | .lifecycle op => op.hasNullArgument
  | .get_state none => true
  | .get_config _ none => true
  | .set_config op => op.hasNullArgument
  | .get_user_data none _ => true
  | .release_user_data none => true
  | .get_fd none => true
  | .set_status none => true
  | _ => false

/-! ## The demo: `do_sync_encoding` of `main.cpp` -/

/-- Record that the demo enters an operation of the facade. -/
def Facade.enter (e : ApiCall) : Facade σ Unit := fun w => ⟨(), w, [Call.api e]⟩

/-- A step of the C library or of the clock: it acts on the world and is not
recorded in the call list. -/
def Facade.effect {α : Type} (f : σ → α × σ) : Facade σ α := fun w => ⟨(f w).1, (f w).2, []⟩

/-- What the demo uses besides the facade: the C library, the clock, and the
layout of the buffer structure of the header (the fields the loop touches). -/
structure DemoEnv (σ : Type) where
  /-- The call `fopen(inputFileName, "rb")`: whether the stream is not `NULL`. -/
  fopen_in : σ → Bool × σ
  /-- The call `fopen(outputFileName, "wb")`: whether the stream is not `NULL`. -/
  fopen_out : σ → Bool × σ
  fclose_in : σ → σ
  fclose_out : σ → σ
  /-- The test `if (outFile)` on the local `outFile` before anything was assigned
  to it: whether the value it happens to hold is not `NULL`. -/
  outFile_unassigned : Bool
  /-- The monotonic clock in milliseconds, a `Uint64`. -/
  osal_gettime : σ → Nat × σ
  /-- The call `fread(buf.vframe_buf.vir_ptr[0], 1, buf.vframe_buf.size, inFile)`:
  the number of bytes read, a `size_t`. -/
  fread : Blob → σ → Nat × σ
  /-- The call `fseek(inFile, 0, SEEK_SET)`. -/
  fseek : σ → Int × σ
  /-- The call `fwrite(buf.vstream_buf.vir_ptr, buf.vstream_buf.size, 1, outFile)`. -/
  fwrite : Blob → σ → σ
  /-- A `media_codec_buffer_t` after `memset(.., 0x00, ..)`. -/
  zero_buffer : Blob
  /-- A `media_codec_output_buffer_info_t` after `memset(.., 0x00, ..)`. -/
  zero_info : Blob
  /-- The local `startup_params` with `receive_frame_number = 0`. -/
  startup_params : Blob
  /-- The assignment `buf.vframe_buf.frame_end = 1`. -/
  set_frame_end : Blob → Blob
  /-- The field `buf.vstream_buf.stream_end`. -/
  stream_end : Blob → Int

/-- Conversion to `int32_t` (`hb_s32`). -/
def toS32 (n : Int) : Int := (n + 2 ^ 31) % 2 ^ 32 - 2 ^ 31

/-- The locals of `do_sync_encoding` that live across iterations of the loop. -/
structure LoopState where
  noMoreInput : Int
  lastStream : Int
  needFlush : Int
deriving DecidableEq

/-- The locals as the loop is entered: `noMoreInput = 0`, `lastStream = 0`,
`needFlush = 1`. -/
def LoopState.start : LoopState := { noMoreInput := 0, lastStream := 0, needFlush := 1 }

section Demo

variable (H : Header) (env : Env σ) (denv : DemoEnv σ)

/-- Lines 121 to 138: `ret = fread(..)`, and on `ret <= 0` one rewind and one
more `fread`.  The value is `ret`. -/
def readFrame (inputBuffer : Blob) : Facade σ hb_s32 := do
  let n ← Facade.effect (denv.fread inputBuffer)
  let ret := toS32 n
  if ret ≤ 0 then do
    let seek ← Facade.effect denv.fseek
    if seek ≠ 0 then pure ret
    else do
      let n ← Facade.effect (denv.fread inputBuffer)
      pure (toS32 n)
  else pure ret

/-- Lines 168 to 201: the block `if (!lastStream) { .. }`.  The flag in the
result says that a `break` was taken. -/
def drainOutput (context : Option media_codec_context_t) (outFile : Bool) (s : LoopState) :
    Facade σ (LoopState × Bool) :=
  if s.lastStream = 0 then do
    Facade.enter .dequeue_output_buffer
    let (ret, outputBuffer, _) ←
      hb_mm_mc_dequeue_output_buffer H env context (some denv.zero_buffer)
        (some denv.zero_info) 3000
    if ret = 0 ∧ outFile = true then do
      Facade.effect (fun w => ((), denv.fwrite (outputBuffer.getD []) w))
      Facade.enter .queue_output_buffer
      let (ret, outputBuffer) ← hb_mm_mc_queue_output_buffer H env context outputBuffer 100
      if ret ≠ 0 then pure (s, true)
      else if denv.stream_end (outputBuffer.getD []) ≠ 0 then
        pure ({ s with lastStream := 1 }, true)
      else pure (s, false)
    else if ret ≠ toS32 H.HB_MEDIA_ERR_WAIT_TIMEOUT then pure (s, true)
    else pure (s, false)
  else pure (s, false)

/-- Lines 109 to 218: the body of the `do .. while`.  The flag in the result says
that the body was left by a `break`.  The buffers are locals of the body, so
their addresses are never `NULL`. -/
def loopBody (context : Option media_codec_context_t) (duration : Int) (lastTime : Nat)
    (outFile : Bool) (s : LoopState) : Facade σ (LoopState × Bool) :=
  if s.noMoreInput = 0 then do
    Facade.enter .dequeue_input_buffer
    let (ret, inputBuffer) ←
      hb_mm_mc_dequeue_input_buffer H env context (some denv.zero_buffer) 100
    if ret = 0 then do
      let curTime ← Facade.effect denv.osal_gettime
      let ret ←
        if ((curTime : Int) - (lastTime : Int)) % 2 ^ 64 < duration % 2 ^ 32 then
          readFrame denv (inputBuffer.getD [])
        else pure 0
      let (inputBuffer, s) :=
        if ret = 0 then (inputBuffer.map denv.set_frame_end, { s with noMoreInput := 1 })
        else (inputBuffer, s)
      Facade.enter .queue_input_buffer
      let (ret, _) ← hb_mm_mc_queue_input_buffer H env context inputBuffer 100
      if ret ≠ 0 then pure (s, true)
      else do
        let (s, left) ← drainOutput H env denv context outFile s
        if left then pure (s, true)
        else if s.needFlush ≠ 0 then do
          Facade.enter .flush
          let ret ← hb_mm_mc_flush H env context
          let s := { s with needFlush := 0 }
          if ret ≠ 0 then pure (s, true)
          else pure (s, false)
        else pure (s, false)
    else pure (s, false)
  else pure (s, false)

/-- Lines 107 to 220: `do { body } while (!lastStream);`.  The fuel bounds the
number of iterations; `none` says the fuel ran out with the loop still
running. -/
def encodeLoop (context : Option media_codec_context_t) (duration : Int) (lastTime : Nat)
    (outFile : Bool) : Nat → LoopState → Facade σ (Option LoopState)
  | 0, _ => pure none
  | fuel + 1, s => do
    let (s, left) ← loopBody H env denv context duration lastTime outFile s
    if left then pure (some s)
    else if s.lastStream = 0 then encodeLoop context duration lastTime outFile fuel s
    else pure (some s)

/-- The label `ERR:`: close the streams that are open. -/
def closeFiles (inFile outFile : Bool) : Facade σ Unit := do
  if inFile = true then Facade.effect (fun w => ((), denv.fclose_in w))
  if outFile = true then Facade.effect (fun w => ((), denv.fclose_out w))

/-- The value is `some ()` when the function returns and `none` when the fuel
of the loop runs out.  `context` is `ctx->context`, `duration` is
`ctx->duration`.  After a failed first `fopen` the source jumps to `ERR:` with
`inFile` being `NULL` and `outFile` not yet assigned: the test of `outFile`
there reads whatever the variable holds, which is the environment's
`outFile_unassigned`. -/
def do_sync_encoding (context : Option media_codec_context_t) (duration : Int) (fuel : Nat) :
    Facade σ (Option Unit) := do
  let inFile ← Facade.effect denv.fopen_in
  if inFile = false then do
    closeFiles denv inFile denv.outFile_unassigned
    pure (some ())
  else do
    let outFile ← Facade.effect denv.fopen_out
    if outFile = false then do
      closeFiles denv inFile outFile
      pure (some ())
    else do
      let lastTime ← Facade.effect denv.osal_gettime
      Facade.enter .init
      let (ret, context) ← hb_mm_mc_initialize H env context
      if ret ≠ 0 then do
        closeFiles denv inFile outFile
        pure (some ())
      else do
        Facade.enter .configure
        let ret ← hb_mm_mc_configure H env context
        if ret ≠ 0 then do
          closeFiles denv inFile outFile
          pure (some ())
        else do
          Facade.enter .start
          let ret ← hb_mm_mc_start H env context (some denv.startup_params)
          if ret ≠ 0 then do
            closeFiles denv inFile outFile
            pure (some ())
          else do
            let r ← encodeLoop H env denv context duration lastTime outFile fuel LoopState.start
            match r with
            | none => pure none
            | some _ => do
              Facade.enter .stop
              let _ ← hb_mm_mc_stop H env context
              Facade.enter .release
              let _ ← hb_mm_mc_release H env context
              closeFiles denv inFile outFile
              pure (some ())

end Demo

/-- A sample of the demo's surroundings: files that open, a clock that stands
still, reads that deliver nothing.  Word 0 of a buffer is `frame_end`, word 1 is
`stream_end`. -/
def sampleDemo : DemoEnv SampleWorld where
  fopen_in := fun w => (true, w)
  fopen_out := fun w => (true, w)
  fclose_in := fun w => w
  fclose_out := fun w => w
  outFile_unassigned := false
  osal_gettime := fun w => (0, w)
  fread := fun _ w => (0, w)
  fseek := fun w => (0, w)
  fwrite := fun _ w => w
  zero_buffer := [0, 0]
  zero_info := [0]
  startup_params := [0]
  set_frame_end := fun b => 1 :: b.drop 1
  stream_end := fun b => (b.drop 1).headD 0

/-- The sample registry with a task level that marks every buffer it hands out
as the end of the stream. -/
def sampleEnvStreamEnd : Env SampleWorld :=
  { sampleEnv with
    MCTaskDequeueOutputBufferLocked := fun _ buf info _ w => ((0, [buf.headD 0, 1], info), w) }

/-- The operations of the facade the demo entered, in order. -/
def apiCalls (calls : List Call) : List ApiCall :=
  calls.filterMap fun c =>
    match c with
    | .api e => some e
    | _ => none

/-! ## More samples -/

/-- The sample registry when no task can be allocated. -/
def sampleEnvNoMemory : Env SampleWorld :=
  { sampleEnv with MCTaskCreate := fun w => (none, w) }

/-- The sample registry with a task level init that fails with `-5`. -/
def sampleEnvInitFails : Env SampleWorld :=
  { sampleEnv with MCTaskInitLocked := fun _ _ _ _ w => (-5, w) }

/-- The sample registry when the insertion of a task fails with `-7`. -/
def sampleEnvAddFails : Env SampleWorld :=
  { sampleEnv with MCAppAddTaskLocked := fun _ w => (-7, w) }

/-- The sample registry with a task level release that fails with `-6`. -/
def sampleEnvReleaseFails : Env SampleWorld :=
  { sampleEnv with MCTaskRelease := fun _ w => (-6, w) }

/-- The sample registry with a task level whose dequeue operations time out
(`-16` is `HB_MEDIA_ERR_WAIT_TIMEOUT` of the sample header). -/
def sampleEnvTimeout : Env SampleWorld :=
  { sampleEnv with
    MCTaskDequeueInputBufferLocked := fun _ b _ w => ((-16, b), w)
    MCTaskDequeueOutputBufferLocked := fun _ b i _ w => ((-16, b, i), w) }

/-- A callback structure with all four pointers set. -/
def allCallbacks : media_codec_callback_t where
  on_input_buffer_available := some 1
  on_output_buffer_available := some 2
  on_media_codec_message := some 3
  on_vlc_buffer_message := some 4

/-- A callback structure with only the VLC buffer pointer set. -/
def vlcCallbackOnly : media_codec_callback_t where
  on_input_buffer_available := none
  on_output_buffer_available := none
  on_media_codec_message := none
  on_vlc_buffer_message := some 4

/-- The `ENC_CONFIG_*` tag a getter passes to `MCTaskGetConfig`. -/
def GetConfigOp.tag : GetConfigOp → EncConfig
  | .get_longterm_ref_mode => .ENC_CONFIG_LONGTERM_REF
  | .get_intra_refresh_config => .ENC_CONFIG_INTRA_REFRESH
  | .get_rate_control_config => .ENC_CONFIG_RATE_CONTROL
  | .get_max_bit_rate_config => .ENC_CONFIG_TRANS_BITRATE
  | .get_deblk_filter_config => .ENC_CONFIG_DEBLK_FILTER
  | .get_sao_config => .ENC_CONFIG_SAO
  | .get_entropy_config => .ENC_CONFIG_ENTROPY
  | .get_vui_timing_config => .ENC_CONFIG_VUI_TIMING
  | .get_vui_config => .ENC_CONFIG_VUI
  | .get_slice_config => .ENC_CONFIG_SLICE
  | .get_3dnr_enc_config => .ENC_CONFIG_3DNR
  | .get_smart_bg_enc_config => .ENC_CONFIG_SMART_BG
  | .get_monochroma_config => .ENC_CONFIG_MONOCHROMA
  | .get_pred_unit_config => .ENC_CONFIG_PRED_UNIT
  | .get_transform_config => .ENC_CONFIG_TRANSFORM
  | .get_roi_config => .ENC_CONFIG_ROI
  | .get_roi_avg_qp => .ENC_CONFIG_ROI_AVG_QP
  | .get_roi_config_ex _ => .ENC_CONFIG_ROI_EX
  | .get_mode_decision_config => .ENC_CONFIG_MODE_DECISION
  | .get_encode_mode_config => .ENC_CONFIG_ENCODE_MODE
  | .get_explicit_header_config => .ENC_CONFIG_ENABLE_EXP_HEADER
  | .get_mjpeg_config => .ENC_CONFIG_MJPEG
  | .get_jpeg_config => .ENC_CONFIG_JPEG

/-- The block a getter hands to `MCTaskGetConfig`: the caller's block, in which
`hb_mm_mc_get_roi_config_ex` has first stored `roi_idx`. -/
def GetConfigOp.request (env : Env σ) : GetConfigOp → Blob → Blob
  | .get_roi_config_ex roi_idx, blk => env.set_roi_idx roi_idx blk
  | _, blk => blk

/-- The setter of the same parameter kind as a getter, called with value `v`.
Four kinds are set by value (`hb_u32` or `hb_s32`) and read through a pointer
to one word: there the value is the first word of `v`. -/
def GetConfigOp.setter : GetConfigOp → Blob → SetConfigOp
  | .get_longterm_ref_mode, v => .set_longterm_ref_mode (some v)
  | .get_intra_refresh_config, v => .set_intra_refresh_config (some v)
  | .get_rate_control_config, v => .set_rate_control_config (some v)
  | .get_max_bit_rate_config, v => .set_max_bit_rate_config (v.headD 0).toNat
  | .get_deblk_filter_config, v => .set_deblk_filter_config (some v)
  | .get_sao_config, v => .set_sao_config (some v)
  | .get_entropy_config, v => .set_entropy_config (some v)
  | .get_vui_timing_config, v => .set_vui_timing_config (some v)
  | .get_vui_config, v => .set_vui_config (some v)
  | .get_slice_config, v => .set_slice_config (some v)
  | .get_3dnr_enc_config, v => .set_3dnr_enc_config (some v)
  | .get_smart_bg_enc_config, v => .set_smart_bg_enc_config (some v)
  | .get_monochroma_config, v => .set_monochroma_config (some v)
  | .get_pred_unit_config, v => .set_pred_unit_config (some v)
  | .get_transform_config, v => .set_transform_config (some v)
  | .get_roi_config, v => .set_roi_config (some v)
  | .get_roi_avg_qp, v => .set_roi_avg_qp (v.headD 0).toNat
  | .get_roi_config_ex _, v => .set_roi_config_ex (some v)
  | .get_mode_decision_config, v => .set_mode_decision_config (some v)
  | .get_encode_mode_config, v => .set_encode_mode_config (v.headD 0)
  | .get_explicit_header_config, v => .set_explicit_header_config (v.headD 0)
  | .get_mjpeg_config, v => .set_mjpeg_config (some v)
  | .get_jpeg_config, v => .set_jpeg_config (some v)

/-- The block is one word, not negative unless `signed`. -/
def isWord (signed : Bool) : Blob → Bool
  | [n] => signed || decide (0 ≤ n)
  | _ => false

/-- The blocks that are values of a parameter kind: for the four kinds set by
value, one word (not negative where the setter takes an `hb_u32`); for the
other kinds, every block. -/
def GetConfigOp.isValue : GetConfigOp → Blob → Bool
  | .get_max_bit_rate_config, v => isWord false v
  | .get_roi_avg_qp, v => isWord false v
  | .get_encode_mode_config, v => isWord true v
  | .get_explicit_header_config, v => isWord true v
  | _, _ => true

/-- What the task level sees behind the `const void *` of `MCTaskSetConfig`
when it reads a parameter block there. -/
def ConfigArg.toBlob : ConfigArg → Blob
  | .block params => params
  | .word value => [value]
  | _ => []

/-! ## Collaborators that only look at the task

A building block for sample worlds: every task level operation first touches
the task it is given and then succeeds, passing the caller's data through. -/

/-- The collaborators built from a lookup, a creation, a touch of the task, the
return of a reference and the removal from the registry. -/
def taskEnv
    (lookup : media_codec_context_t → σ → (MCTaskQueryError × Option MCTaskContext) × σ)
    (touch : Option MCTaskContext → σ → σ) (decRef : MCTaskContext → σ → σ)
    (remove : Option MCTaskContext → σ → hb_s32 × σ) : Env σ where
  MCAppInitLocked := fun _ w => (0, w)
  MCAPPGetTaskLocked := lookup
  MCTaskCreate := fun w => (none, w)
  MCTaskInitLocked := fun t _ _ _ w => (0, touch t w)
  MCAppAddTaskLocked := fun t w => (0, touch t w)
  MCTaskDecRef := decRef
  instIdx := fun t _ => t
  MCTaskRegisterListernerLocked := fun t _ _ _ w => (0, touch t w)
  MCTaskRegisterVLCBufListernerLocked := fun t _ _ _ w => (0, touch t w)
  MCTaskConfigureLocked := fun t _ w => (0, touch t w)
  MCTaskStartLocked := fun t _ w => (0, touch t w)
  MCTaskStopLocked := fun t w => (0, touch t w)
  MCTaskPauseLocked := fun t w => (0, touch t w)
  MCTaskFlushLocked := fun t w => (0, touch t w)
  MCTaskRelease := fun t w => (0, touch t w)
  MCAppDeleteTaskLocked := remove
  MCTaskGetStateLocked := fun t st w => ((0, st), touch t w)
  MCTaskGetStatusLocked := fun t _ b w => ((0, b), touch t w)
  MCTaskSetStatusLocked := fun t _ b w => ((0, b), touch t w)
  MCTaskQueueInputBufferLocked := fun t b _ w => ((0, b), touch t w)
  MCTaskDequeueInputBufferLocked := fun t b _ w => ((0, b), touch t w)
  MCTaskQueueOutputBufferLocked := fun t b _ w => ((0, b), touch t w)
  MCTaskDequeueOutputBufferLocked := fun t b i _ w => ((0, b, i), touch t w)
  MCTaskGetConfig := fun t _ _ b w => ((0, b), touch t w)
  MCTaskSetConfig := fun t _ _ _ w => (0, touch t w)
  MCTaskGetUserData := fun t b _ w => ((0, b), touch t w)
  MCTaskReleaseUserData := fun t _ w => (0, touch t w)
  MCTaskOpenFdLocked := fun t _ fd w => ((0, fd), touch t w)
  MCTaskCloseFdLocked := fun t _ _ w => (0, touch t w)
  MCTaskGetAppType := fun _ => MCAppType.MC_APP_VIDEO
  mc_video_get_enc_frame_rate := fun _ => 0
  default_params := fun _ b => (0, b)
  set_roi_idx := fun _ b => b

/-- Modelled from the spec: the task level of `MCTaskGetConfig` and
`MCTaskSetConfig`, which is outside the sources, as a store that holds one
value per `ENC_CONFIG_*` tag ("applied configuration snapshot").  The world is
the store; a task (task 7) is always live; a set stores the value behind its
pointer under the tag and succeeds, a get returns the value stored under the
tag. -/
def storeEnv : Env (EncConfig → Blob) :=
  { taskEnv (fun _ s => ((MCTaskQueryError.MC_TASK_EXIST, some 7), s)) (fun _ s => s)
      (fun _ s => s) (fun _ s => (0, s)) with
    MCTaskGetConfig := fun _ _ tag _ s => ((0, s tag), s)
    MCTaskSetConfig := fun _ _ tag arg s => (0, Function.update s tag arg.toBlob) }

/-! ## Running a computation: unfolding lemmas -/

namespace Facade

variable {α β : Type}

theorem run_pure (a : α) (w : σ) : (pure a : Facade σ α).run w = ⟨a, w, []⟩ := rfl

theorem run_bind (m : Facade σ α) (f : α → Facade σ β) (w : σ) :
    (m >>= f).run w =
      ⟨((f (m.run w).val).run (m.run w).world).val,
        ((f (m.run w).val).run (m.run w).world).world,
        (m.run w).calls ++ ((f (m.run w).val).run (m.run w).world).calls⟩ := rfl

theorem run_call (c : α → Call) (f : σ → α × σ) (w : σ) :
    (call c f).run w = ⟨(f w).1, (f w).2, [c (f w).1]⟩ := rfl

theorem run_read (f : σ → α) (w : σ) : (read f).run w = ⟨f w, w, []⟩ := rfl

theorem run_ite (c : Prop) [Decidable c] (m n : Facade σ α) (w : σ) :
    (if c then m else n).run w = if c then m.run w else n.run w := by
  split <;> rfl

theorem run_code (m : Facade σ (hb_s32 × α)) (w : σ) :
    (code m).run w = ⟨(m.run w).val.1, (m.run w).world, (m.run w).calls⟩ := rfl

end Facade

namespace Facade

variable {α β : Type}

theorem calls_pure (a : α) (w : σ) : ((pure a : Facade σ α).run w).calls = [] := rfl

theorem calls_bind (m : Facade σ α) (f : α → Facade σ β) (w : σ) :
    ((m >>= f).run w).calls =
      (m.run w).calls ++ ((f (m.run w).val).run (m.run w).world).calls := rfl

theorem calls_call (c : α → Call) (f : σ → α × σ) (w : σ) :
    ((call c f).run w).calls = [c (f w).1] := rfl

theorem val_call (c : α → Call) (f : σ → α × σ) (w : σ) : ((call c f).run w).val = (f w).1 := rfl

theorem world_call (c : α → Call) (f : σ → α × σ) (w : σ) :
    ((call c f).run w).world = (f w).2 := rfl

theorem calls_read (f : σ → α) (w : σ) : ((read f).run w).calls = [] := rfl

theorem val_pure (a : α) (w : σ) : ((pure a : Facade σ α).run w).val = a := rfl

theorem world_pure (a : α) (w : σ) : ((pure a : Facade σ α).run w).world = w := rfl

theorem val_bind (m : Facade σ α) (f : α → Facade σ β) (w : σ) :
    ((m >>= f).run w).val = ((f (m.run w).val).run (m.run w).world).val := rfl

theorem world_bind (m : Facade σ α) (f : α → Facade σ β) (w : σ) :
    ((m >>= f).run w).world = ((f (m.run w).val).run (m.run w).world).world := rfl

theorem val_read (f : σ → α) (w : σ) : ((read f).run w).val = f w := rfl

theorem world_read (f : σ → α) (w : σ) : ((read f).run w).world = w := rfl

theorem calls_ite (c : Prop) [Decidable c] (m n : Facade σ α) (w : σ) :
    ((if c then m else n).run w).calls = if c then (m.run w).calls else (n.run w).calls := by
  split <;> rfl

theorem calls_code (m : Facade σ (hb_s32 × α)) (w : σ) :
    ((code m).run w).calls = (m.run w).calls := rfl

end Facade

theorem calls_decRefIfHeld (env : Env σ) (p : Option MCTaskContext) (w : σ) :
    ((decRefIfHeld env p).run w).calls = releaseCalls p := by
  cases p <;> rfl

/-! ### Reading call lists built from pieces -/

theorem decRefs_nil : decRefs [] = [] := rfl

theorem decRefs_cons (c : Call) (l : List Call) :
    decRefs (c :: l) = c.released.toList ++ decRefs l := by
  cases h : c.released <;> simp [decRefs, List.filterMap_cons, h]

theorem decRefs_append (a b : List Call) : decRefs (a ++ b) = decRefs a ++ decRefs b := by
  simp [decRefs]

theorem decRefs_ite (c : Prop) [Decidable c] (a b : List Call) :
    decRefs (if c then a else b) = if c then decRefs a else decRefs b := by
  split <;> rfl

theorem taskVariableFrom_nil (cur : Option MCTaskContext) : taskVariableFrom cur [] = cur := rfl

theorem taskVariableFrom_cons (cur : Option MCTaskContext) (c : Call) (l : List Call) :
    taskVariableFrom cur (c :: l) = taskVariableFrom (c.handedOut.getD cur) l := by
  cases h : c.handedOut <;> simp [taskVariableFrom, h]

theorem taskVariableFrom_append (cur : Option MCTaskContext) (a b : List Call) :
    taskVariableFrom cur (a ++ b) = taskVariableFrom (taskVariableFrom cur a) b := by
  simp [taskVariableFrom]

theorem taskVariableFrom_ite (cur : Option MCTaskContext) (c : Prop) [Decidable c]
    (a b : List Call) :
    taskVariableFrom cur (if c then a else b) =
      if c then taskVariableFrom cur a else taskVariableFrom cur b := by
  split <;> rfl

theorem refDelta_nil (t : MCTaskContext) : refDelta t [] = 0 := rfl

theorem refDelta_cons (t : MCTaskContext) (c : Call) (l : List Call) :
    refDelta t (c :: l) = c.refChange t + refDelta t l := by
  simp [refDelta]

theorem refDelta_append (t : MCTaskContext) (a b : List Call) :
    refDelta t (a ++ b) = refDelta t a + refDelta t b := by
  simp [refDelta]

theorem refDelta_ite (t : MCTaskContext) (c : Prop) [Decidable c] (a b : List Call) :
    refDelta t (if c then a else b) = if c then refDelta t a else refDelta t b := by
  split <;> rfl

theorem refChange_pair (t u : MCTaskContext) :
    (if u = t then (1 : Int) else 0) + (if u = t then -1 else 0) = 0 := by
  split <;> simp


/-! ### Every operation gives back the reference it was handed

For each group of operations: the `MCTaskDecRef` calls are exactly the release
of the final value of the `task` variable, and every task's reference count is
back where it started. -/

theorem balanced_lifecycle (H : Header) (env : Env σ) (context : Option media_codec_context_t)
    (op : LifecycleOp) (w : σ) :
    decRefs ((op.run H env context).run w).calls =
        (taskVariable ((op.run H env context).run w).calls).toList ∧
      ∀ t, refDelta t ((op.run H env context).run w).calls = 0 := by
  cases context with
  | none => cases op <;> exact ⟨rfl, fun _ => rfl⟩
  | some ctx =>
    rcases hl : env.MCAPPGetTaskLocked ctx w with ⟨⟨q, p⟩, w1⟩
    cases op with
    | dequeue_output_buffer buffer info timeout =>
      cases buffer with
      | none => exact ⟨rfl, fun _ => rfl⟩
      | some b =>
        cases p <;>
        simp only [LifecycleOp.run, hb_mm_mc_dequeue_output_buffer,
          MCTaskDequeueOutputBufferLocked,
        Facade.calls_bind, Facade.calls_pure, Facade.calls_call, Facade.calls_ite,
        Facade.calls_code, Facade.calls_read, Facade.val_call, Facade.world_call,
        calls_decRefIfHeld, MCAPPGetTaskLocked, hl, releaseCalls] <;>
        simp [decRefs_cons, decRefs_append, decRefs_ite, decRefs_nil, taskVariable,
        taskVariableFrom_cons, taskVariableFrom_append, taskVariableFrom_ite,
        taskVariableFrom_nil, refDelta_cons, refDelta_append, refDelta_ite, refDelta_nil,
        Call.released, Call.handedOut, Call.refChange, refChange_pair]
    | _ =>
      (try cases ‹Option Blob›) <;> (try exact ⟨rfl, fun _ => rfl⟩) <;> cases p <;>
      simp only [LifecycleOp.run, hb_mm_mc_configure, hb_mm_mc_start, hb_mm_mc_stop,
        hb_mm_mc_pause, hb_mm_mc_flush, hb_mm_mc_release, hb_mm_mc_get_status,
        hb_mm_mc_queue_input_buffer, hb_mm_mc_dequeue_input_buffer,
        hb_mm_mc_queue_output_buffer, MCTaskConfigureLocked, MCTaskStartLocked,
        MCTaskStopLocked, MCTaskPauseLocked, MCTaskFlushLocked, MCTaskRelease,
        MCAppDeleteTaskLocked, MCTaskGetStatusLocked, MCTaskQueueInputBufferLocked,
        MCTaskDequeueInputBufferLocked, MCTaskQueueOutputBufferLocked,
        Facade.calls_bind, Facade.calls_pure, Facade.calls_call, Facade.calls_ite,
        Facade.calls_code, Facade.calls_read, Facade.val_call, Facade.world_call,
        calls_decRefIfHeld, MCAPPGetTaskLocked, hl, releaseCalls] <;>
      simp [decRefs_cons, decRefs_append, decRefs_ite, decRefs_nil, taskVariable,
        taskVariableFrom_cons, taskVariableFrom_append, taskVariableFrom_ite,
        taskVariableFrom_nil, refDelta_cons, refDelta_append, refDelta_ite, refDelta_nil,
        Call.released, Call.handedOut, Call.refChange, refChange_pair]

theorem balanced_set_config (H : Header) (env : Env σ)
    (context : Option media_codec_context_t) (op : SetConfigOp) (w : σ) :
    decRefs ((op.run H env context).run w).calls =
        (taskVariable ((op.run H env context).run w).calls).toList ∧
      ∀ t, refDelta t ((op.run H env context).run w).calls = 0 := by
  cases context with
  | none => cases op <;> exact ⟨rfl, fun _ => rfl⟩
  | some ctx =>
    rcases hl : env.MCAPPGetTaskLocked ctx w with ⟨⟨q, p⟩, w1⟩
    cases op <;> (try cases ‹Option Blob›) <;> (try exact ⟨rfl, fun _ => rfl⟩) <;> cases p <;>
      simp only [SetConfigOp.run,
        hb_mm_mc_set_longterm_ref_mode, hb_mm_mc_set_intra_refresh_config,
        hb_mm_mc_set_rate_control_config, hb_mm_mc_set_max_bit_rate_config,
        hb_mm_mc_set_deblk_filter_config, hb_mm_mc_set_sao_config, hb_mm_mc_set_entropy_config,
        hb_mm_mc_set_vui_timing_config, hb_mm_mc_set_vui_config, hb_mm_mc_set_slice_config,
        hb_mm_mc_insert_user_data, hb_mm_mc_request_idr_frame, hb_mm_mc_request_idr_header,
        hb_mm_mc_enable_idr_frame, hb_mm_mc_skip_pic, hb_mm_mc_set_3dnr_enc_config,
        hb_mm_mc_set_smart_bg_enc_config, hb_mm_mc_set_monochroma_config,
        hb_mm_mc_set_pred_unit_config, hb_mm_mc_set_transform_config, hb_mm_mc_set_roi_config,
        hb_mm_mc_set_roi_avg_qp, hb_mm_mc_set_roi_config_ex, hb_mm_mc_set_mode_decision_config,
        hb_mm_mc_set_encode_mode_config, hb_mm_mc_set_explicit_header_config,
        hb_mm_mc_set_mjpeg_config, hb_mm_mc_set_jpeg_config, hb_mm_mc_set_camera,
        MCTaskSetConfig,
        Facade.calls_bind, Facade.calls_pure, Facade.calls_call, Facade.calls_ite,
        Facade.calls_code, Facade.calls_read, Facade.val_call, Facade.world_call,
        calls_decRefIfHeld, MCAPPGetTaskLocked, hl, releaseCalls] <;>
      simp [decRefs_cons, decRefs_append, decRefs_ite, decRefs_nil, taskVariable,
        taskVariableFrom_cons, taskVariableFrom_append, taskVariableFrom_ite,
        taskVariableFrom_nil, refDelta_cons, refDelta_append, refDelta_ite, refDelta_nil,
        Call.released, Call.handedOut, Call.refChange, refChange_pair]

theorem balanced_get_config (H : Header) (env : Env σ)
    (context : Option media_codec_context_t) (op : GetConfigOp) (params : Option Blob) (w : σ) :
    decRefs ((op.run H env context params).run w).calls =
        (taskVariable ((op.run H env context params).run w).calls).toList ∧
      ∀ t, refDelta t ((op.run H env context params).run w).calls = 0 := by
  cases context with
  | none => cases op <;> exact ⟨rfl, fun _ => rfl⟩
  | some ctx =>
    cases params with
    | none => cases op <;> exact ⟨rfl, fun _ => rfl⟩
    | some blk =>
      rcases hl : env.MCAPPGetTaskLocked ctx w with ⟨⟨q, p⟩, w1⟩
      cases op <;> cases p <;>
        simp only [GetConfigOp.run,
          hb_mm_mc_get_longterm_ref_mode, hb_mm_mc_get_intra_refresh_config,
          hb_mm_mc_get_rate_control_config, hb_mm_mc_get_max_bit_rate_config,
          hb_mm_mc_get_deblk_filter_config, hb_mm_mc_get_sao_config, hb_mm_mc_get_entropy_config,
          hb_mm_mc_get_vui_timing_config, hb_mm_mc_get_vui_config, hb_mm_mc_get_slice_config,
          hb_mm_mc_get_3dnr_enc_config, hb_mm_mc_get_smart_bg_enc_config,
          hb_mm_mc_get_monochroma_config, hb_mm_mc_get_pred_unit_config,
          hb_mm_mc_get_transform_config, hb_mm_mc_get_roi_config, hb_mm_mc_get_roi_avg_qp,
          hb_mm_mc_get_roi_config_ex, hb_mm_mc_get_mode_decision_config,
          hb_mm_mc_get_encode_mode_config, hb_mm_mc_get_explicit_header_config,
          hb_mm_mc_get_mjpeg_config, hb_mm_mc_get_jpeg_config,
          MCTaskGetConfig, default_params,
        Facade.calls_bind, Facade.calls_pure, Facade.calls_call, Facade.calls_ite,
        Facade.calls_code, Facade.calls_read, Facade.val_call, Facade.world_call,
        calls_decRefIfHeld, MCAPPGetTaskLocked, hl, releaseCalls] <;>
        simp [decRefs_cons, decRefs_append, decRefs_ite, decRefs_nil, taskVariable,
        taskVariableFrom_cons, taskVariableFrom_append, taskVariableFrom_ite,
        taskVariableFrom_nil, refDelta_cons, refDelta_append, refDelta_ite, refDelta_nil,
        Call.released, Call.handedOut, Call.refChange, refChange_pair]

theorem balanced_listener (H : Header) (env : Env σ) (context : Option media_codec_context_t)
    (callback : Option media_codec_callback_t) (userdata : hb_ptr) (w : σ) :
    (decRefs ((hb_mm_mc_set_callback H env context callback userdata).run w).calls =
        (taskVariable
          ((hb_mm_mc_set_callback H env context callback userdata).run w).calls).toList ∧
      ∀ t, refDelta t ((hb_mm_mc_set_callback H env context callback userdata).run w).calls
        = 0) ∧
    (decRefs ((hb_mm_mc_set_vlc_buffer_listener H env context callback userdata).run w).calls =
        (taskVariable
          ((hb_mm_mc_set_vlc_buffer_listener H env context callback userdata).run
            w).calls).toList ∧
      ∀ t, refDelta t
        ((hb_mm_mc_set_vlc_buffer_listener H env context callback userdata).run w).calls = 0) := by
  cases context with
  | none => exact ⟨⟨rfl, fun _ => rfl⟩, ⟨rfl, fun _ => rfl⟩⟩
  | some ctx =>
    cases callback with
    | none => exact ⟨⟨rfl, fun _ => rfl⟩, ⟨rfl, fun _ => rfl⟩⟩
    | some cb =>
      cases userdata with
      | none => exact ⟨⟨rfl, fun _ => rfl⟩, ⟨rfl, fun _ => rfl⟩⟩
      | some ud =>
        rcases hl : env.MCAPPGetTaskLocked ctx w with ⟨⟨q, p⟩, w1⟩
        by_cases h1 : cb.on_input_buffer_available = none ∨
          cb.on_output_buffer_available = none ∨ cb.on_media_codec_message = none <;>
        by_cases h2 : cb.on_vlc_buffer_message = none <;>
        constructor <;> cases p <;>
        simp only [h1, h2, if_true, if_false, hb_mm_mc_set_callback, hb_mm_mc_set_vlc_buffer_listener,
          MCTaskRegisterListernerLocked, MCTaskRegisterVLCBufListernerLocked,
        Facade.calls_bind, Facade.calls_pure, Facade.calls_call, Facade.calls_ite,
        Facade.calls_code, Facade.calls_read, Facade.val_call, Facade.world_call,
        calls_decRefIfHeld, MCAPPGetTaskLocked, hl, releaseCalls] <;>
        simp [decRefs_cons, decRefs_append, decRefs_ite, decRefs_nil, taskVariable,
        taskVariableFrom_cons, taskVariableFrom_append, taskVariableFrom_ite,
        taskVariableFrom_nil, refDelta_cons, refDelta_append, refDelta_ite, refDelta_nil,
        Call.released, Call.handedOut, Call.refChange, refChange_pair]

theorem balanced_misc (H : Header) (env : Env σ) (ctx : media_codec_context_t) (w : σ) :
    (∀ state, decRefs ((hb_mm_mc_get_state H env (some ctx) (some state)).run w).calls =
        (taskVariable ((hb_mm_mc_get_state H env (some ctx) (some state)).run w).calls).toList ∧
      ∀ t, refDelta t ((hb_mm_mc_get_state H env (some ctx) (some state)).run w).calls = 0) ∧
    (∀ params timeout,
      decRefs ((hb_mm_mc_get_user_data H env (some ctx) (some params) timeout).run w).calls =
        (taskVariable
          ((hb_mm_mc_get_user_data H env (some ctx) (some params) timeout).run w).calls).toList ∧
      ∀ t, refDelta t
        ((hb_mm_mc_get_user_data H env (some ctx) (some params) timeout).run w).calls = 0) ∧
    (∀ params,
      decRefs ((hb_mm_mc_release_user_data H env (some ctx) (some params)).run w).calls =
        (taskVariable
          ((hb_mm_mc_release_user_data H env (some ctx) (some params)).run w).calls).toList ∧
      ∀ t, refDelta t
        ((hb_mm_mc_release_user_data H env (some ctx) (some params)).run w).calls = 0) ∧
    (∀ fd, decRefs ((hb_mm_mc_get_fd H env (some ctx) (some fd)).run w).calls =
        (taskVariable ((hb_mm_mc_get_fd H env (some ctx) (some fd)).run w).calls).toList ∧
      ∀ t, refDelta t ((hb_mm_mc_get_fd H env (some ctx) (some fd)).run w).calls = 0) ∧
    (∀ fd, decRefs ((hb_mm_mc_close_fd H env (some ctx) fd).run w).calls =
        (taskVariable ((hb_mm_mc_close_fd H env (some ctx) fd).run w).calls).toList ∧
      ∀ t, refDelta t ((hb_mm_mc_close_fd H env (some ctx) fd).run w).calls = 0) ∧
    (∀ status, decRefs ((hb_mm_mc_set_status H env (some ctx) (some status)).run w).calls =
        (taskVariable ((hb_mm_mc_set_status H env (some ctx) (some status)).run w).calls).toList ∧
      ∀ t, refDelta t ((hb_mm_mc_set_status H env (some ctx) (some status)).run w).calls = 0) := by
  rcases hl : env.MCAPPGetTaskLocked ctx w with ⟨⟨q, p⟩, w1⟩
  refine ⟨fun _ => ?_, fun _ _ => ?_, fun _ => ?_, fun _ => ?_, fun _ => ?_, fun _ => ?_⟩ <;>
    cases p <;>
    simp only [hb_mm_mc_get_state, hb_mm_mc_get_user_data, hb_mm_mc_release_user_data,
      hb_mm_mc_get_fd, hb_mm_mc_close_fd, hb_mm_mc_set_status, MCTaskGetStateLocked,
      MCTaskGetUserData, MCTaskReleaseUserData, MCTaskOpenFdLocked, MCTaskCloseFdLocked,
      MCTaskSetStatusLocked,
        Facade.calls_bind, Facade.calls_pure, Facade.calls_call, Facade.calls_ite,
        Facade.calls_code, Facade.calls_read, Facade.val_call, Facade.world_call,
        calls_decRefIfHeld, MCAPPGetTaskLocked, hl, releaseCalls] <;>
    simp [decRefs_cons, decRefs_append, decRefs_ite, decRefs_nil, taskVariable,
        taskVariableFrom_cons, taskVariableFrom_append, taskVariableFrom_ite,
        taskVariableFrom_nil, refDelta_cons, refDelta_append, refDelta_ite, refDelta_nil,
        Call.released, Call.handedOut, Call.refChange, refChange_pair]

theorem balanced_init (H : Header) (env : Env σ) (context : Option media_codec_context_t)
    (w : σ) :
    decRefs (( hb_mm_mc_initialize H env context).run w).calls =
        (taskVariable (( hb_mm_mc_initialize H env context).run w).calls).toList ∧
      ((∀ c q p, Call.MCAPPGetTaskLocked c q p ∈
            (( hb_mm_mc_initialize H env context).run w).calls →
          q = MCTaskQueryError.MC_TASK_NOT_EXIST → p = none) →
        ∀ t, refDelta t (( hb_mm_mc_initialize H env context).run w).calls = 0) := by
  cases context with
  | none => exact ⟨rfl, fun _ _ => rfl⟩
  | some ctx =>
    rcases hi : env.MCAppInitLocked ctx.codec_id w with ⟨r0, w0⟩
    rcases hl : env.MCAPPGetTaskLocked ctx w0 with ⟨⟨q, p⟩, w1⟩
    rcases hc : env.MCTaskCreate w1 with ⟨tk, w2⟩
    by_cases h0 : r0 = 0
    · by_cases hq : q = MCTaskQueryError.MC_TASK_NOT_EXIST
      · subst hq
        cases tk with
        | none =>
          cases p <;>
          simp only [ hb_mm_mc_initialize, MCAppInitLocked, MCAPPGetTaskLocked, MCTaskCreate,
          MCTaskInitLocked, MCAppAddTaskLocked, Facade.calls_bind, Facade.calls_pure,
          Facade.calls_call, Facade.calls_ite, Facade.calls_read, Facade.val_call,
          Facade.world_call, Facade.val_pure, Facade.world_pure, Facade.val_bind,
          Facade.world_bind, Facade.val_read, Facade.world_read, Facade.run_ite,
          calls_decRefIfHeld, releaseCalls, if_true, if_false, reduceCtorEq, or_self, or_false,
          false_or, or_true, true_or, hi, hl, hc, h0] <;>
          simp [decRefs_cons, decRefs_append, decRefs_ite, decRefs_nil, taskVariable,
        taskVariableFrom_cons, taskVariableFrom_append, taskVariableFrom_ite,
        taskVariableFrom_nil, refDelta_cons, refDelta_append, refDelta_ite, refDelta_nil,
        Call.released, Call.handedOut, Call.refChange, refChange_pair]
        | some tk =>
          rcases hti : env.MCTaskInitLocked (some tk) ctx.codec_id ctx.encoder ctx w2
            with ⟨r1, w3⟩
          rcases hta : env.MCAppAddTaskLocked (some tk) w3 with ⟨r2, w4⟩
          cases p <;> by_cases h1 : r1 = 0 <;> by_cases h2 : r2 = 0 <;>
          simp only [ hb_mm_mc_initialize, MCAppInitLocked, MCAPPGetTaskLocked, MCTaskCreate,
          MCTaskInitLocked, MCAppAddTaskLocked, Facade.calls_bind, Facade.calls_pure,
          Facade.calls_call, Facade.calls_ite, Facade.calls_read, Facade.val_call,
          Facade.world_call, Facade.val_pure, Facade.world_pure, Facade.val_bind,
          Facade.world_bind, Facade.val_read, Facade.world_read, Facade.run_ite,
          calls_decRefIfHeld, releaseCalls, if_true, if_false, reduceCtorEq, or_self, or_false,
          false_or, or_true, true_or, hi, hl, hc, hti, hta, h0, h1, h2] <;>
          simp [decRefs_cons, decRefs_append, decRefs_ite, decRefs_nil, taskVariable,
        taskVariableFrom_cons, taskVariableFrom_append, taskVariableFrom_ite,
        taskVariableFrom_nil, refDelta_cons, refDelta_append, refDelta_ite, refDelta_nil,
        Call.released, Call.handedOut, Call.refChange, refChange_pair]
      · cases p <;> cases q <;> (try exact absurd rfl hq) <;>
        simp only [ hb_mm_mc_initialize, MCAppInitLocked, MCAPPGetTaskLocked, MCTaskCreate,
          MCTaskInitLocked, MCAppAddTaskLocked, Facade.calls_bind, Facade.calls_pure,
          Facade.calls_call, Facade.calls_ite, Facade.calls_read, Facade.val_call,
          Facade.world_call, Facade.val_pure, Facade.world_pure, Facade.val_bind,
          Facade.world_bind, Facade.val_read, Facade.world_read, Facade.run_ite,
          calls_decRefIfHeld, releaseCalls, if_true, if_false, reduceCtorEq, or_self, or_false,
          false_or, or_true, true_or, hi, hl, h0] <;>
        simp [decRefs_cons, decRefs_append, decRefs_ite, decRefs_nil, taskVariable,
        taskVariableFrom_cons, taskVariableFrom_append, taskVariableFrom_ite,
        taskVariableFrom_nil, refDelta_cons, refDelta_append, refDelta_ite, refDelta_nil,
        Call.released, Call.handedOut, Call.refChange, refChange_pair]
    · simp only [ hb_mm_mc_initialize, MCAppInitLocked, MCAPPGetTaskLocked, MCTaskCreate,
          MCTaskInitLocked, MCAppAddTaskLocked, Facade.calls_bind, Facade.calls_pure,
          Facade.calls_call, Facade.calls_ite, Facade.calls_read, Facade.val_call,
          Facade.world_call, Facade.val_pure, Facade.world_pure, Facade.val_bind,
          Facade.world_bind, Facade.val_read, Facade.world_read, Facade.run_ite,
          calls_decRefIfHeld, releaseCalls, if_true, if_false, reduceCtorEq, or_self, or_false,
          false_or, or_true, true_or, hi, h0]
      simp [decRefs_cons, decRefs_append, decRefs_ite, decRefs_nil, taskVariable,
        taskVariableFrom_cons, taskVariableFrom_append, taskVariableFrom_ite,
        taskVariableFrom_nil, refDelta_cons, refDelta_append, refDelta_ite, refDelta_nil,
        Call.released, Call.handedOut, Call.refChange, refChange_pair]

/-! ## Claims -/

section Claims

open MCTaskQueryError MCAppType media_codec_state_t EncConfig DefaultProvider

/-- C1: with a non-NULL context and a non-NULL state pointer, when the lookup
reports `MC_TASK_NOT_EXIST`, `hb_mm_mc_get_state` returns 0 and leaves
`MEDIA_CODEC_STATE_UNINITIALIZED` in `*state`.  The only calls it makes are the
lookup and the release of whatever pointer the lookup left (none when it left
`NULL`): no task operation, `MCTaskGetStateLocked` in particular, is called. -/
theorem C1_get_state_without_task (H : Header) (env : Env σ) (ctx : media_codec_context_t)
    (st : media_codec_state_t) (w : σ) (task : Option MCTaskContext)
    (hq : (env.MCAPPGetTaskLocked ctx w).1 = (MC_TASK_NOT_EXIST, task)) :
    ((hb_mm_mc_get_state H env (some ctx) (some st)).run w).val =
        (0, some MEDIA_CODEC_STATE_UNINITIALIZED) ∧
      ((hb_mm_mc_get_state H env (some ctx) (some st)).run w).calls =
        Call.MCAPPGetTaskLocked ctx MC_TASK_NOT_EXIST task :: releaseCalls task ∧
      (∀ c ∈ ((hb_mm_mc_get_state H env (some ctx) (some st)).run w).calls,
        c.isTaskOperation = false) ∧
      ((hb_mm_mc_get_state H env (some ctx) (some st)).run w).world =
        releaseWorld env task (env.MCAPPGetTaskLocked ctx w).2 := by
  rcases hl : env.MCAPPGetTaskLocked ctx w with ⟨⟨q, t⟩, w1⟩
  rw [hl] at hq
  obtain ⟨rfl, rfl⟩ := Prod.mk.inj hq
  cases t <;>
    simp [hb_mm_mc_get_state, Facade.run_bind, Facade.run_pure, Facade.run_call,
      Facade.run_ite, MCAPPGetTaskLocked, hl, decRefIfHeld, MCTaskDecRef, releaseCalls,
      releaseWorld, Call.isTaskOperation]

/-- C1 at the empty sample registry: the state query of the demo context
answers 0 and `MEDIA_CODEC_STATE_UNINITIALIZED` after the lookup alone. -/
theorem C1_get_state_without_task_witness :
    ((hb_mm_mc_get_state sampleHeader sampleEnv (some h265Encoder)
        (some MEDIA_CODEC_STATE_NONE)).run emptyWorld).val =
        (0, some MEDIA_CODEC_STATE_UNINITIALIZED) ∧
      ((hb_mm_mc_get_state sampleHeader sampleEnv (some h265Encoder)
        (some MEDIA_CODEC_STATE_NONE)).run emptyWorld).calls =
        [Call.MCAPPGetTaskLocked h265Encoder MC_TASK_NOT_EXIST none] :=
  ⟨(C1_get_state_without_task sampleHeader sampleEnv h265Encoder MEDIA_CODEC_STATE_NONE
      emptyWorld none rfl).1,
    (C1_get_state_without_task sampleHeader sampleEnv h265Encoder MEDIA_CODEC_STATE_NONE
      emptyWorld none rfl).2.1⟩

/-- C2: each lifecycle and buffer operation (configure, start, stop, pause,
flush, release, get_status and the four queue/dequeue operations), called with
non-NULL arguments while the lookup reports `MC_TASK_NOT_EXIST`, returns
`HB_MEDIA_ERR_OPERATION_NOT_ALLOWED`.  The only calls it makes are the lookup
and the release of whatever pointer the lookup left, so no task level or
registry mutating operation is invoked and the world is the one the lookup
(and that release) left. -/
theorem C2_lifecycle_without_task (H : Header) (env : Env σ) (ctx : media_codec_context_t)
    (op : LifecycleOp) (w : σ) (task : Option MCTaskContext)
    (hargs : op.hasNullArgument = false)
    (hq : (env.MCAPPGetTaskLocked ctx w).1 = (MC_TASK_NOT_EXIST, task)) :
    ((op.run H env (some ctx)).run w).val = H.HB_MEDIA_ERR_OPERATION_NOT_ALLOWED ∧
      ((op.run H env (some ctx)).run w).calls =
        Call.MCAPPGetTaskLocked ctx MC_TASK_NOT_EXIST task :: releaseCalls task ∧
      (∀ c ∈ ((op.run H env (some ctx)).run w).calls, c.isTaskOperation = false) ∧
      ((op.run H env (some ctx)).run w).world =
        releaseWorld env task (env.MCAPPGetTaskLocked ctx w).2 := by
  rcases hl : env.MCAPPGetTaskLocked ctx w with ⟨⟨q, t⟩, w1⟩
  rw [hl] at hq
  obtain ⟨rfl, rfl⟩ := Prod.mk.inj hq
  cases op with
  | get_status status =>
    cases status with
    | none => simp [LifecycleOp.hasNullArgument] at hargs
    | some s =>
      cases t <;>
        simp [LifecycleOp.run, Facade.run_bind, Facade.run_pure, Facade.run_call, Facade.run_ite,
          Facade.run_code, hb_mm_mc_get_status, MCAPPGetTaskLocked, hl, decRefIfHeld,
          MCTaskDecRef, releaseCalls, releaseWorld, Call.isTaskOperation,
          get_err_of_query_result]
  | queue_input_buffer buffer timeout =>
    cases buffer with
    | none => simp [LifecycleOp.hasNullArgument] at hargs
    | some b =>
      cases t <;>
        simp [LifecycleOp.run, Facade.run_bind, Facade.run_pure, Facade.run_call, Facade.run_ite,
          Facade.run_code, hb_mm_mc_queue_input_buffer, MCAPPGetTaskLocked, hl,
          decRefIfHeld, MCTaskDecRef, releaseCalls, releaseWorld, Call.isTaskOperation,
          get_err_of_query_result]
  | dequeue_input_buffer buffer timeout =>
    cases buffer with
    | none => simp [LifecycleOp.hasNullArgument] at hargs
    | some b =>
      cases t <;>
        simp [LifecycleOp.run, Facade.run_bind, Facade.run_pure, Facade.run_call, Facade.run_ite,
          Facade.run_code, hb_mm_mc_dequeue_input_buffer, MCAPPGetTaskLocked, hl,
          decRefIfHeld, MCTaskDecRef, releaseCalls, releaseWorld, Call.isTaskOperation,
          get_err_of_query_result]
  | queue_output_buffer buffer timeout =>
    cases buffer with
    | none => simp [LifecycleOp.hasNullArgument] at hargs
    | some b =>
      cases t <;>
        simp [LifecycleOp.run, Facade.run_bind, Facade.run_pure, Facade.run_call, Facade.run_ite,
          Facade.run_code, hb_mm_mc_queue_output_buffer, MCAPPGetTaskLocked, hl,
          decRefIfHeld, MCTaskDecRef, releaseCalls, releaseWorld, Call.isTaskOperation,
          get_err_of_query_result]
  | dequeue_output_buffer buffer info timeout =>
    cases buffer with
    | none => simp [LifecycleOp.hasNullArgument] at hargs
    | some b =>
      cases t <;>
        simp [LifecycleOp.run, Facade.run_bind, Facade.run_pure, Facade.run_call, Facade.run_ite,
          Facade.run_code, hb_mm_mc_dequeue_output_buffer, MCAPPGetTaskLocked, hl,
          decRefIfHeld, MCTaskDecRef, releaseCalls, releaseWorld, Call.isTaskOperation,
          get_err_of_query_result]
  | _ =>
    cases t <;>
      simp [LifecycleOp.run, Facade.run_bind, Facade.run_pure, Facade.run_call, Facade.run_ite,
          Facade.run_code, hb_mm_mc_configure, hb_mm_mc_start, hb_mm_mc_stop, hb_mm_mc_pause,
        hb_mm_mc_flush, hb_mm_mc_release, MCAPPGetTaskLocked, hl, decRefIfHeld, MCTaskDecRef,
        releaseCalls, releaseWorld, Call.isTaskOperation, get_err_of_query_result]

/-- C2 at the empty sample registry: `start` and `queue_output_buffer` of the
demo context are refused with `HB_MEDIA_ERR_OPERATION_NOT_ALLOWED` after the
lookup alone. -/
theorem C2_lifecycle_without_task_witness :
    (((LifecycleOp.start (some [0])).run sampleHeader sampleEnv (some h265Encoder)).run
        emptyWorld).val = sampleHeader.HB_MEDIA_ERR_OPERATION_NOT_ALLOWED ∧
      (((LifecycleOp.queue_output_buffer (some [5]) 100).run sampleHeader sampleEnv
        (some h265Encoder)).run emptyWorld).calls =
        [Call.MCAPPGetTaskLocked h265Encoder MC_TASK_NOT_EXIST none] :=
  ⟨(C2_lifecycle_without_task sampleHeader sampleEnv h265Encoder (LifecycleOp.start (some [0]))
      emptyWorld none rfl rfl).1,
    (C2_lifecycle_without_task sampleHeader sampleEnv h265Encoder
      (LifecycleOp.queue_output_buffer (some [5]) 100) emptyWorld none rfl rfl).2.1⟩

/-- C3 (as stated, refuted): `MC_TASK_NOT_EXIST` and `MC_TASK_WRONG_APP_TYPE`
are different lookup outcomes mapped to the same public code, so the mapping
is not injective on the four failing outcomes. -/
theorem C3_not_injective_counterexample :
    MC_TASK_NOT_EXIST ≠ MC_TASK_WRONG_APP_TYPE ∧
      get_err_of_query_result sampleHeader MC_TASK_NOT_EXIST =
        get_err_of_query_result sampleHeader MC_TASK_WRONG_APP_TYPE := by
  decide

/-- C3 (amended): the four failing lookup outcomes are mapped to three public
codes.  `MC_TASK_NOT_EXIST` and `MC_TASK_WRONG_APP_TYPE` share
`HB_MEDIA_ERR_OPERATION_NOT_ALLOWED`, `MC_TASK_WRONG_INST_IDX` gives
`HB_MEDIA_ERR_INVALID_INSTANCE` and `MC_TASK_INVALID_PARAMS` gives
`HB_MEDIA_ERR_INVALID_PARAMS`; when the three enumerators are pairwise distinct,
two failing outcomes get the same code only if they are equal or are the pair
not-exist / wrong-app-type. -/
theorem C3_failing_outcomes_three_codes (H : Header) (hH : H.ErrorsDistinct)
    (a b : MCTaskQueryError)
    (ha : a ∈ [MC_TASK_NOT_EXIST, MC_TASK_WRONG_APP_TYPE, MC_TASK_WRONG_INST_IDX,
      MC_TASK_INVALID_PARAMS])
    (hb : b ∈ [MC_TASK_NOT_EXIST, MC_TASK_WRONG_APP_TYPE, MC_TASK_WRONG_INST_IDX,
      MC_TASK_INVALID_PARAMS]) :
    get_err_of_query_result H MC_TASK_NOT_EXIST = H.HB_MEDIA_ERR_OPERATION_NOT_ALLOWED ∧
      get_err_of_query_result H MC_TASK_WRONG_APP_TYPE = H.HB_MEDIA_ERR_OPERATION_NOT_ALLOWED ∧
      get_err_of_query_result H MC_TASK_WRONG_INST_IDX = H.HB_MEDIA_ERR_INVALID_INSTANCE ∧
      get_err_of_query_result H MC_TASK_INVALID_PARAMS = H.HB_MEDIA_ERR_INVALID_PARAMS ∧
      (get_err_of_query_result H a = get_err_of_query_result H b ↔
        (a = b ∨ (a = MC_TASK_NOT_EXIST ∧ b = MC_TASK_WRONG_APP_TYPE) ∨
          (a = MC_TASK_WRONG_APP_TYPE ∧ b = MC_TASK_NOT_EXIST))) := by
  obtain ⟨h1, h2, -, h4, -, -⟩ := hH
  simp only [List.mem_cons, List.mem_singleton, List.not_mem_nil, or_false] at ha hb
  refine ⟨by simp [get_err_of_query_result], by simp [get_err_of_query_result],
    by simp [get_err_of_query_result], by simp [get_err_of_query_result], ?_⟩
  rcases ha with rfl | rfl | rfl | rfl <;> rcases hb with rfl | rfl | rfl | rfl <;>
    simp [get_err_of_query_result, h1, h2, h4, Ne.symm h1, Ne.symm h2, Ne.symm h4]

/-- C3 (amended) at the sample header: wrong-instance and invalid-params get
different codes. -/
theorem C3_failing_outcomes_three_codes_witness :
    (get_err_of_query_result sampleHeader MC_TASK_WRONG_INST_IDX =
        get_err_of_query_result sampleHeader MC_TASK_INVALID_PARAMS ↔
      (MC_TASK_WRONG_INST_IDX = MC_TASK_INVALID_PARAMS ∨
        (MC_TASK_WRONG_INST_IDX = MC_TASK_NOT_EXIST ∧
          MC_TASK_INVALID_PARAMS = MC_TASK_WRONG_APP_TYPE) ∨
        (MC_TASK_WRONG_INST_IDX = MC_TASK_WRONG_APP_TYPE ∧
          MC_TASK_INVALID_PARAMS = MC_TASK_NOT_EXIST))) :=
  (C3_failing_outcomes_three_codes sampleHeader (by decide) MC_TASK_WRONG_INST_IDX
    MC_TASK_INVALID_PARAMS (by decide) (by decide)).2.2.2.2


/-- C4: for every operation that resolves a task and every path through it,
the `MCTaskDecRef` calls made are exactly one call on the final value of the
operation's `task` variable when that value is not `NULL`, and none when it is
`NULL`.  Hence, in the model where a lookup (or, in initialize, the creation)
that hands out a task takes one reference on it and `MCTaskDecRef` gives one
back, every task's reference count after the call equals the count before it,
provided a lookup that reports `MC_TASK_NOT_EXIST` hands out no pointer (which
initialize relies on when it overwrites `task` with the created one). -/
theorem C4_reference_released_exactly_once (H : Header) (env : Env σ)
    (context : Option media_codec_context_t) (op : FacadeOp) (w : σ) :
    decRefs ((op.run H env context).run w).calls =
        (taskVariable ((op.run H env context).run w).calls).toList ∧
      ((∀ c q p, Call.MCAPPGetTaskLocked c q p ∈ ((op.run H env context).run w).calls →
          q = MC_TASK_NOT_EXIST → p = none) →
        ∀ t, refDelta t ((op.run H env context).run w).calls = 0) := by
  cases op with
  | init => exact balanced_init H env context w
  | set_callback callback userdata =>
    exact ⟨(balanced_listener H env context callback userdata w).1.1,
      fun _ => (balanced_listener H env context callback userdata w).1.2⟩
  | set_vlc_buffer_listener callback userdata =>
    exact ⟨(balanced_listener H env context callback userdata w).2.1,
      fun _ => (balanced_listener H env context callback userdata w).2.2⟩
  | lifecycle op =>
    exact ⟨(balanced_lifecycle H env context op w).1, fun _ => (balanced_lifecycle H env context op w).2⟩
  | get_config op params =>
    exact ⟨(balanced_get_config H env context op params w).1,
      fun _ => (balanced_get_config H env context op params w).2⟩
  | set_config op =>
    exact ⟨(balanced_set_config H env context op w).1,
      fun _ => (balanced_set_config H env context op w).2⟩
  | get_state state =>
    cases context with
    | none => exact ⟨rfl, fun _ _ => rfl⟩
    | some ctx =>
      cases state with
      | none => exact ⟨rfl, fun _ _ => rfl⟩
      | some st =>
        exact ⟨((balanced_misc H env ctx w).1 st).1, fun _ => ((balanced_misc H env ctx w).1 st).2⟩
  | get_user_data params timeout =>
    cases context with
    | none => exact ⟨rfl, fun _ _ => rfl⟩
    | some ctx =>
      cases params with
      | none => exact ⟨rfl, fun _ _ => rfl⟩
      | some blk =>
        exact ⟨((balanced_misc H env ctx w).2.1 blk timeout).1,
          fun _ => ((balanced_misc H env ctx w).2.1 blk timeout).2⟩
  | release_user_data params =>
    cases context with
    | none => exact ⟨rfl, fun _ _ => rfl⟩
    | some ctx =>
      cases params with
      | none => exact ⟨rfl, fun _ _ => rfl⟩
      | some blk =>
        exact ⟨((balanced_misc H env ctx w).2.2.1 blk).1,
          fun _ => ((balanced_misc H env ctx w).2.2.1 blk).2⟩
  | get_fd fd =>
    cases context with
    | none => exact ⟨rfl, fun _ _ => rfl⟩
    | some ctx =>
      cases fd with
      | none => exact ⟨rfl, fun _ _ => rfl⟩
      | some v =>
        exact ⟨((balanced_misc H env ctx w).2.2.2.1 v).1,
          fun _ => ((balanced_misc H env ctx w).2.2.2.1 v).2⟩
  | close_fd fd =>
    cases context with
    | none => exact ⟨rfl, fun _ _ => rfl⟩
    | some ctx =>
      exact ⟨((balanced_misc H env ctx w).2.2.2.2.1 fd).1,
        fun _ => ((balanced_misc H env ctx w).2.2.2.2.1 fd).2⟩
  | set_status status =>
    cases context with
    | none => exact ⟨rfl, fun _ _ => rfl⟩
    | some ctx =>
      cases status with
      | none => exact ⟨rfl, fun _ _ => rfl⟩
      | some st =>
        exact ⟨((balanced_misc H env ctx w).2.2.2.2.2 st).1,
          fun _ => ((balanced_misc H env ctx w).2.2.2.2.2 st).2⟩

/-- C4 at the sample registry holding task 7: `release` of the demo context
calls `MCTaskDecRef` once, on task 7, after the registry removal. -/
theorem C4_reference_released_exactly_once_witness :
    decRefs (((FacadeOp.lifecycle LifecycleOp.release).run sampleHeader sampleEnv
        (some h265Encoder)).run liveWorld).calls = [7] :=
  (C4_reference_released_exactly_once sampleHeader sampleEnv (some h265Encoder)
    (FacadeOp.lifecycle LifecycleOp.release) liveWorld).1

/-- C5: when the environment init succeeds and the lookup reports
`MC_TASK_WRONG_APP_TYPE`, `hb_mm_mc_initialize` returns
`HB_MEDIA_ERR_INVALID_PARAMS` and leaves the context (its `instance_index`
included) as it was.  The calls made are the environment init, the lookup and
the release of whatever pointer the lookup left: no task is created, inserted
or re-initialised. -/
theorem C5_initialize_wrong_app_type (H : Header) (env : Env σ) (ctx : media_codec_context_t)
    (w : σ) (task : Option MCTaskContext)
    (hinit : (env.MCAppInitLocked ctx.codec_id w).1 = 0)
    (hq : (env.MCAPPGetTaskLocked ctx (env.MCAppInitLocked ctx.codec_id w).2).1 =
      (MC_TASK_WRONG_APP_TYPE, task)) :
    (( hb_mm_mc_initialize H env (some ctx)).run w).val =
        (H.HB_MEDIA_ERR_INVALID_PARAMS, some ctx) ∧
      (( hb_mm_mc_initialize H env (some ctx)).run w).calls =
        Call.MCAppInitLocked ctx.codec_id ::
          Call.MCAPPGetTaskLocked ctx MC_TASK_WRONG_APP_TYPE task :: releaseCalls task := by
  rcases hi : env.MCAppInitLocked ctx.codec_id w with ⟨r0, w0⟩
  rw [hi] at hinit hq
  rcases hl : env.MCAPPGetTaskLocked ctx w0 with ⟨⟨q, p⟩, w1⟩
  simp only at hinit hq
  rw [hl] at hq
  obtain ⟨rfl, rfl⟩ := Prod.mk.inj hq
  subst hinit
  cases p <;>
    simp [ hb_mm_mc_initialize, Facade.run_bind, Facade.run_pure, Facade.run_call,
      Facade.run_ite, MCAppInitLocked, MCAPPGetTaskLocked, hi, hl, decRefIfHeld, MCTaskDecRef,
      releaseCalls]

/-- C5 at the sample registry holding an H.265 task: initialize of a JPEG
encoder context is refused with `HB_MEDIA_ERR_INVALID_PARAMS` and the context
comes back unchanged. -/
theorem C5_initialize_wrong_app_type_witness :
    (( hb_mm_mc_initialize sampleHeader sampleEnv (some jpegEncoder)).run liveWorld).val =
        (sampleHeader.HB_MEDIA_ERR_INVALID_PARAMS, some jpegEncoder) ∧
      (( hb_mm_mc_initialize sampleHeader sampleEnv (some jpegEncoder)).run liveWorld).calls =
        [Call.MCAppInitLocked jpegEncoder.codec_id,
          Call.MCAPPGetTaskLocked jpegEncoder MC_TASK_WRONG_APP_TYPE none] :=
  C5_initialize_wrong_app_type sampleHeader sampleEnv jpegEncoder liveWorld none rfl rfl

/-- C6 (as stated, refuted): at the sample registry holding task 7, initialize
of the context of that task runs the task level init again on task 7 (the third
argument is the instance index 7, where creation passes the encoder flag) and
so changes the task's state: the init counter goes from 1 to 2. -/
theorem C6_initialize_existing_counterexample :
    (( hb_mm_mc_initialize sampleHeader sampleEnv (some h265EncoderAt7)).run liveWorld).calls =
        [Call.MCAppInitLocked 1, Call.MCAPPGetTaskLocked h265EncoderAt7 MC_TASK_EXIST (some 7),
          Call.MCTaskInitLocked (some 7) 1 7 h265EncoderAt7, Call.MCTaskDecRef 7] ∧
      liveWorld.initRuns = 1 ∧
      (( hb_mm_mc_initialize sampleHeader sampleEnv (some h265EncoderAt7)).run
        liveWorld).world.initRuns = 2 := by
  decide

/-- C6 (amended): when the environment init succeeds and the lookup reports
`MC_TASK_EXIST`, `hb_mm_mc_initialize` creates no task and inserts none; it
runs the task level init `MCTaskInitLocked` once more on the task the lookup
found, returns exactly the result of that run (0 exactly when the run
succeeds), gives back the looked-up reference, and leaves the context
unchanged. -/
theorem C6_initialize_existing_reruns_task_init (H : Header) (env : Env σ)
    (ctx : media_codec_context_t) (w : σ) (task : Option MCTaskContext)
    (hinit : (env.MCAppInitLocked ctx.codec_id w).1 = 0)
    (hq : (env.MCAPPGetTaskLocked ctx (env.MCAppInitLocked ctx.codec_id w).2).1 =
      (MC_TASK_EXIST, task)) :
    ∃ third : hb_bool,
      (( hb_mm_mc_initialize H env (some ctx)).run w).val =
          ((env.MCTaskInitLocked task ctx.codec_id third ctx
            (env.MCAPPGetTaskLocked ctx (env.MCAppInitLocked ctx.codec_id w).2).2).1,
            some ctx) ∧
        (( hb_mm_mc_initialize H env (some ctx)).run w).calls =
          Call.MCAppInitLocked ctx.codec_id :: Call.MCAPPGetTaskLocked ctx MC_TASK_EXIST task ::
            Call.MCTaskInitLocked task ctx.codec_id third ctx :: releaseCalls task ∧
        (( hb_mm_mc_initialize H env (some ctx)).run w).world =
          releaseWorld env task (env.MCTaskInitLocked task ctx.codec_id third ctx
            (env.MCAPPGetTaskLocked ctx (env.MCAppInitLocked ctx.codec_id w).2).2).2 := by
  refine ⟨ctx.instance_index, ?_⟩
  rcases hi : env.MCAppInitLocked ctx.codec_id w with ⟨r0, w0⟩
  rw [hi] at hinit hq
  rcases hl : env.MCAPPGetTaskLocked ctx w0 with ⟨⟨q, p⟩, w1⟩
  simp only at hinit hq
  rw [hl] at hq
  obtain ⟨rfl, rfl⟩ := Prod.mk.inj hq
  subst hinit
  cases p <;>
    simp [ hb_mm_mc_initialize, Facade.run_bind, Facade.run_pure, Facade.run_call,
      Facade.run_ite, MCAppInitLocked, MCAPPGetTaskLocked, MCTaskInitLocked, hi, hl,
      decRefIfHeld, MCTaskDecRef, releaseCalls, releaseWorld]

/-- C6 (amended) at the sample registry holding task 7: some run of the task
level init on task 7 is among the calls of initialize, which returns 0 as that
run does. -/
theorem C6_initialize_existing_reruns_task_init_witness :
    ∃ third : hb_bool,
      (( hb_mm_mc_initialize sampleHeader sampleEnv (some h265EncoderAt7)).run liveWorld).val =
          (0, some h265EncoderAt7) ∧
        (( hb_mm_mc_initialize sampleHeader sampleEnv (some h265EncoderAt7)).run
          liveWorld).calls =
          [Call.MCAppInitLocked 1, Call.MCAPPGetTaskLocked h265EncoderAt7 MC_TASK_EXIST (some 7),
            Call.MCTaskInitLocked (some 7) 1 third h265EncoderAt7, Call.MCTaskDecRef 7] :=
  (C6_initialize_existing_reruns_task_init sampleHeader sampleEnv h265EncoderAt7 liveWorld
    (some 7) rfl rfl).imp fun _ h => ⟨h.1, h.2.1⟩

/-- The lookup mapper gives a non-zero code for every outcome other than
`MC_TASK_EXIST`. -/
theorem get_err_of_query_result_ne_zero (H : Header) (hH : H.ErrorsNonZero)
    (q : MCTaskQueryError) (hq : q ≠ MC_TASK_EXIST) : get_err_of_query_result H q ≠ 0 := by
  obtain ⟨h1, -, h3, -, h5, h6⟩ := hH
  cases q <;> simp [get_err_of_query_result, h1, h3, h5, h6] at hq ⊢

/-- Every setter, once its pointer argument passed the `NULL` check, is the
same dispatch: with a task, `MCTaskSetConfig` with the setter's tag and
argument; without one, the mapped lookup error.  Either way the pointer the
lookup left is released. -/
theorem set_config_run (H : Header) (env : Env σ) (ctx : media_codec_context_t)
    (op : SetConfigOp) (w w1 : σ) (q : MCTaskQueryError) (p : Option MCTaskContext)
    (hnn : op.hasNullArgument = false) (hl : env.MCAPPGetTaskLocked ctx w = ((q, p), w1)) :
    (op.run H env (some ctx)).run w =
      if q = MC_TASK_EXIST then
        ⟨(env.MCTaskSetConfig p ctx op.tag op.arg w1).1,
          releaseWorld env p (env.MCTaskSetConfig p ctx op.tag op.arg w1).2,
          Call.MCAPPGetTaskLocked ctx q p :: Call.MCTaskSetConfig p ctx op.tag op.arg ::
            releaseCalls p⟩
      else
        ⟨get_err_of_query_result H q, releaseWorld env p w1,
          Call.MCAPPGetTaskLocked ctx q p :: releaseCalls p⟩ := by
  by_cases hq : q = MC_TASK_EXIST <;>
  cases op <;> (try cases ‹Option Blob›) <;> (try exact absurd hnn (by decide)) <;> cases p <;>
    simp only [SetConfigOp.run, SetConfigOp.tag, SetConfigOp.arg,
      hb_mm_mc_set_longterm_ref_mode, hb_mm_mc_set_intra_refresh_config,
      hb_mm_mc_set_rate_control_config, hb_mm_mc_set_max_bit_rate_config,
      hb_mm_mc_set_deblk_filter_config, hb_mm_mc_set_sao_config, hb_mm_mc_set_entropy_config,
      hb_mm_mc_set_vui_timing_config, hb_mm_mc_set_vui_config, hb_mm_mc_set_slice_config,
      hb_mm_mc_insert_user_data, hb_mm_mc_request_idr_frame, hb_mm_mc_request_idr_header,
      hb_mm_mc_enable_idr_frame, hb_mm_mc_skip_pic, hb_mm_mc_set_3dnr_enc_config,
      hb_mm_mc_set_smart_bg_enc_config, hb_mm_mc_set_monochroma_config,
      hb_mm_mc_set_pred_unit_config, hb_mm_mc_set_transform_config, hb_mm_mc_set_roi_config,
      hb_mm_mc_set_roi_avg_qp, hb_mm_mc_set_roi_config_ex, hb_mm_mc_set_mode_decision_config,
      hb_mm_mc_set_encode_mode_config, hb_mm_mc_set_explicit_header_config,
      hb_mm_mc_set_mjpeg_config, hb_mm_mc_set_jpeg_config, hb_mm_mc_set_camera,
      Facade.run_bind, Facade.run_pure, Facade.run_call, Facade.run_ite, MCAPPGetTaskLocked,
      MCTaskSetConfig, MCTaskDecRef, decRefIfHeld, hl, hq, if_true, if_false, releaseCalls,
      releaseWorld, List.append_nil, List.cons_append, List.nil_append, List.singleton_append]

/-- No call in the release of a pointer is an `MCTaskSetConfig` or a default
table, and none is a task operation. -/
theorem releaseCalls_quiet (p : Option MCTaskContext) (c : Call) (hc : c ∈ releaseCalls p) :
    c.isSetConfig = false ∧ c.isTaskOperation = false ∧ c = Call.MCTaskDecRef (p.getD 0) := by
  cases p with
  | none => simp [releaseCalls] at hc
  | some t =>
    simp only [releaseCalls, List.mem_singleton] at hc
    subst hc
    exact ⟨rfl, rfl, rfl⟩

/-- C7: for every operation that writes a parameter through `MCTaskSetConfig`,
if the lookup outcome is anything other than `MC_TASK_EXIST` the operation
returns a non-zero code and never calls `MCTaskSetConfig`; when its pointer
argument is not `NULL` the code is the mapped lookup error and the only calls
are the lookup and the release of whatever pointer the lookup left.  There is
no fallback to defaults for writes. -/
theorem C7_set_config_requires_task (H : Header) (env : Env σ) (ctx : media_codec_context_t)
    (op : SetConfigOp) (w : σ) (q : MCTaskQueryError) (task : Option MCTaskContext)
    (hH : H.ErrorsNonZero)
    (hl : (env.MCAPPGetTaskLocked ctx w).1 = (q, task)) (hq : q ≠ MC_TASK_EXIST) :
    ((op.run H env (some ctx)).run w).val ≠ 0 ∧
      (∀ c ∈ ((op.run H env (some ctx)).run w).calls, c.isSetConfig = false) ∧
      (op.hasNullArgument = false →
        ((op.run H env (some ctx)).run w).val = get_err_of_query_result H q ∧
        ((op.run H env (some ctx)).run w).calls =
          Call.MCAPPGetTaskLocked ctx q task :: releaseCalls task) := by
  have hne := get_err_of_query_result_ne_zero H hH q hq
  have hnull : H.HB_MEDIA_ERR_INVALID_PARAMS ≠ 0 := hH.2.2.2.2.1
  rcases hl2 : env.MCAPPGetTaskLocked ctx w with ⟨⟨q2, p⟩, w1⟩
  rw [hl2] at hl
  obtain ⟨rfl, rfl⟩ := Prod.mk.inj hl
  by_cases hnn : op.hasNullArgument = false
  · rw [set_config_run H env ctx op w w1 q2 p hnn hl2, if_neg hq]
    refine ⟨hne, ?_, fun _ => ⟨rfl, rfl⟩⟩
    intro c hc
    rcases List.mem_cons.1 hc with rfl | hc
    · rfl
    · exact (releaseCalls_quiet p c hc).1
  · have hrun : (op.run H env (some ctx)).run w = ⟨H.HB_MEDIA_ERR_INVALID_PARAMS, w, []⟩ := by
      cases op <;> (try cases ‹Option Blob›) <;> first | rfl | exact absurd rfl hnn
    rw [hrun]
    exact ⟨hnull, fun c hc => absurd hc (List.not_mem_nil c), fun h => absurd h hnn⟩

/-- C7 at the empty sample registry: `set_rate_control_config` on the demo
context fails with the mapped lookup error after the lookup alone. -/
theorem C7_set_config_requires_task_witness :
    (((SetConfigOp.set_rate_control_config (some [1])).run sampleHeader sampleEnv
        (some h265Encoder)).run emptyWorld).val ≠ 0 ∧
      (((SetConfigOp.set_rate_control_config (some [1])).run sampleHeader sampleEnv
        (some h265Encoder)).run emptyWorld).calls =
        [Call.MCAPPGetTaskLocked h265Encoder MC_TASK_NOT_EXIST none] :=
  ⟨(C7_set_config_requires_task sampleHeader sampleEnv h265Encoder
      (SetConfigOp.set_rate_control_config (some [1])) emptyWorld MC_TASK_NOT_EXIST none
      (by decide) rfl (by decide)).1,
    ((C7_set_config_requires_task sampleHeader sampleEnv h265Encoder
      (SetConfigOp.set_rate_control_config (some [1])) emptyWorld MC_TASK_NOT_EXIST none
      (by decide) rfl (by decide)).2.2 rfl).2⟩

/-- Every getter, on the branch it takes when the lookup outcome is neither
`MC_TASK_EXIST`, `MC_TASK_INVALID_PARAMS` nor `MC_TASK_WRONG_INST_IDX`: for an
encoder context whose codec kind satisfies the getter's condition (and, for the
two VUI getters, whose frame rate is not 0) it calls its default table on the
caller's block; otherwise it answers `HB_MEDIA_ERR_OPERATION_NOT_ALLOWED` and
leaves the block alone.  Either way the pointer the lookup left is released. -/
theorem get_config_fallback_run (H : Header) (env : Env σ) (ctx : media_codec_context_t)
    (op : GetConfigOp) (blk : Blob) (w w1 : σ) (q : MCTaskQueryError)
    (p : Option MCTaskContext) (hl : env.MCAPPGetTaskLocked ctx w = ((q, p), w1))
    (hq1 : q ≠ MC_TASK_EXIST) (hq2 : q ≠ MC_TASK_INVALID_PARAMS)
    (hq3 : q ≠ MC_TASK_WRONG_INST_IDX) :
    (op.run H env (some ctx) (some blk)).run w =
      if ctx.encoder ≠ FALSE ∧ op.codecApplies H env ctx.codec_id ∧
          (op.needsFrameRate = true → env.mc_video_get_enc_frame_rate ctx ≠ 0) then
        ⟨(if op.returnsProviderCode = true then
              (env.default_params (op.provider env ctx) blk).1 else 0,
            some (env.default_params (op.provider env ctx) blk).2),
          releaseWorld env p w1,
          Call.MCAPPGetTaskLocked ctx q p :: Call.default_params (op.provider env ctx) blk ::
            releaseCalls p⟩
      else
        ⟨(H.HB_MEDIA_ERR_OPERATION_NOT_ALLOWED, some blk), releaseWorld env p w1,
          Call.MCAPPGetTaskLocked ctx q p :: releaseCalls p⟩ := by
  cases op <;> cases p <;>
    simp only [GetConfigOp.run, GetConfigOp.codecApplies, GetConfigOp.needsFrameRate,
      GetConfigOp.returnsProviderCode, GetConfigOp.provider,
      hb_mm_mc_get_longterm_ref_mode, hb_mm_mc_get_intra_refresh_config,
      hb_mm_mc_get_rate_control_config, hb_mm_mc_get_max_bit_rate_config,
      hb_mm_mc_get_deblk_filter_config, hb_mm_mc_get_sao_config, hb_mm_mc_get_entropy_config,
      hb_mm_mc_get_vui_timing_config, hb_mm_mc_get_vui_config, hb_mm_mc_get_slice_config,
      hb_mm_mc_get_3dnr_enc_config, hb_mm_mc_get_smart_bg_enc_config,
      hb_mm_mc_get_monochroma_config, hb_mm_mc_get_pred_unit_config,
      hb_mm_mc_get_transform_config, hb_mm_mc_get_roi_config, hb_mm_mc_get_roi_avg_qp,
      hb_mm_mc_get_roi_config_ex, hb_mm_mc_get_mode_decision_config,
      hb_mm_mc_get_encode_mode_config, hb_mm_mc_get_explicit_header_config,
      hb_mm_mc_get_mjpeg_config, hb_mm_mc_get_jpeg_config,
      Facade.run_bind, Facade.run_pure, Facade.run_call, Facade.run_ite, MCAPPGetTaskLocked,
      default_params, MCTaskDecRef, decRefIfHeld, hl, hq1, hq2, hq3, if_true, if_false,
      ne_eq, not_false_eq_true, and_self, releaseCalls, releaseWorld, List.append_nil,
      List.cons_append, List.nil_append, List.singleton_append, Bool.false_eq_true,
      false_implies, true_implies, and_true, true_and] <;>
    split_ifs <;> first | rfl | tauto

/-- C8 (as stated, refuted): the demo context is an encoder of a video codec
kind, for which the VUI timing block is applicable, and the sample registry is
empty; yet `hb_mm_mc_get_vui_timing_config` fails with
`HB_MEDIA_ERR_OPERATION_NOT_ALLOWED` and leaves the caller's block as it was,
because the frame rate recorded in the zeroed context is 0. -/
theorem C8_vui_timing_counterexample :
    sampleEnv.MCTaskGetAppType h265Encoder.codec_id = MC_APP_VIDEO ∧
      h265Encoder.encoder = TRUE ∧
      (sampleEnv.MCAPPGetTaskLocked h265Encoder emptyWorld).1 = (MC_TASK_NOT_EXIST, none) ∧
      ((hb_mm_mc_get_vui_timing_config sampleHeader sampleEnv (some h265Encoder)
        (some [9])).run emptyWorld).val =
        (sampleHeader.HB_MEDIA_ERR_OPERATION_NOT_ALLOWED, some [9]) := by
  decide

/-- C8 (amended): for every get-config operation and every encoder context
whose codec kind satisfies the getter's condition, when the lookup reports
`MC_TASK_NOT_EXIST`: the two VUI getters with an encoder frame rate of 0 return
`HB_MEDIA_ERR_OPERATION_NOT_ALLOWED` and leave the block alone; in every other
case the getter calls its default table on the caller's block, leaves the
table's output in the block, and returns 0, except the rate-control getter,
which returns the result code of its default table. -/
theorem C8_get_config_default_without_task (H : Header) (env : Env σ)
    (ctx : media_codec_context_t) (op : GetConfigOp) (blk : Blob) (w : σ)
    (task : Option MCTaskContext)
    (henc : ctx.encoder ≠ FALSE) (happ : op.codecApplies H env ctx.codec_id)
    (hl : (env.MCAPPGetTaskLocked ctx w).1 = (MC_TASK_NOT_EXIST, task)) :
    (op.needsFrameRate = true ∧ env.mc_video_get_enc_frame_rate ctx = 0 →
        ((op.run H env (some ctx) (some blk)).run w).val =
          (H.HB_MEDIA_ERR_OPERATION_NOT_ALLOWED, some blk) ∧
        ((op.run H env (some ctx) (some blk)).run w).calls =
          Call.MCAPPGetTaskLocked ctx MC_TASK_NOT_EXIST task :: releaseCalls task) ∧
      (op.needsFrameRate = false ∨ env.mc_video_get_enc_frame_rate ctx ≠ 0 →
        ((op.run H env (some ctx) (some blk)).run w).val =
          (if op.returnsProviderCode = true then
              (env.default_params (op.provider env ctx) blk).1 else 0,
            some (env.default_params (op.provider env ctx) blk).2) ∧
        ((op.run H env (some ctx) (some blk)).run w).calls =
          Call.MCAPPGetTaskLocked ctx MC_TASK_NOT_EXIST task ::
            Call.default_params (op.provider env ctx) blk :: releaseCalls task) := by
  rcases hl2 : env.MCAPPGetTaskLocked ctx w with ⟨⟨q, p⟩, w1⟩
  rw [hl2] at hl
  obtain ⟨rfl, rfl⟩ := Prod.mk.inj hl
  rw [get_config_fallback_run H env ctx op blk w w1 MC_TASK_NOT_EXIST p hl2 (by decide)
    (by decide) (by decide)]
  constructor
  · rintro ⟨hn, hf⟩
    rw [if_neg (fun h => h.2.2 hn hf)]
    exact ⟨rfl, rfl⟩
  · intro h
    rw [if_pos ⟨henc, happ, fun hn => h.elim (fun hf => absurd hn (by simp [hf])) id⟩]
    exact ⟨rfl, rfl⟩

/-- C8 (amended) at the empty sample registry: the SAO getter of the demo
context returns 0 and leaves the default table's output in the block. -/
theorem C8_get_config_default_without_task_witness :
    ((GetConfigOp.get_sao_config.run sampleHeader sampleEnv (some h265Encoder)
        (some [9])).run emptyWorld).val = (0, some [42]) :=
  ((C8_get_config_default_without_task sampleHeader sampleEnv h265Encoder
    GetConfigOp.get_sao_config [9] emptyWorld none (by decide) (by decide) rfl).2
    (Or.inl rfl)).1

/-- C9: for an encoder context whose codec app-type is VIDEO or JPEG and for
which the lookup finds no task (`MC_TASK_NOT_EXIST`, no pointer handed out),
`hb_mm_mc_get_rate_control_config` calls the default rate-control table on the
caller's block and returns exactly that table's result code with the table's
output in the block.  The lookup and the table are the only calls: no
`MCTaskDecRef` is made and the world is the one the lookup left. -/
theorem C9_rate_control_default_without_task (H : Header) (env : Env σ)
    (ctx : media_codec_context_t) (blk : Blob) (w : σ)
    (henc : ctx.encoder ≠ FALSE)
    (happ : env.MCTaskGetAppType ctx.codec_id = MC_APP_VIDEO ∨
      env.MCTaskGetAppType ctx.codec_id = MC_APP_JPEG)
    (hl : (env.MCAPPGetTaskLocked ctx w).1 = (MC_TASK_NOT_EXIST, none)) :
    ((hb_mm_mc_get_rate_control_config H env (some ctx) (some blk)).run w).val =
        ((env.default_params mc_video_get_default_rate_control_params blk).1,
          some (env.default_params mc_video_get_default_rate_control_params blk).2) ∧
      ((hb_mm_mc_get_rate_control_config H env (some ctx) (some blk)).run w).calls =
        [Call.MCAPPGetTaskLocked ctx MC_TASK_NOT_EXIST none,
          Call.default_params mc_video_get_default_rate_control_params blk] ∧
      decRefs ((hb_mm_mc_get_rate_control_config H env (some ctx) (some blk)).run w).calls =
        [] ∧
      ((hb_mm_mc_get_rate_control_config H env (some ctx) (some blk)).run w).world =
        (env.MCAPPGetTaskLocked ctx w).2 := by
  rcases hl2 : env.MCAPPGetTaskLocked ctx w with ⟨⟨q, p⟩, w1⟩
  rw [hl2] at hl
  obtain ⟨rfl, rfl⟩ := Prod.mk.inj hl
  have h := get_config_fallback_run H env ctx GetConfigOp.get_rate_control_config blk w w1
    MC_TASK_NOT_EXIST none hl2 (by decide) (by decide) (by decide)
  rw [if_pos ⟨henc, happ, fun hn => absurd hn (by decide)⟩] at h
  have h2 : (hb_mm_mc_get_rate_control_config H env (some ctx) (some blk)).run w =
      (GetConfigOp.get_rate_control_config.run H env (some ctx) (some blk)).run w := rfl
  rw [h2, h]
  exact ⟨rfl, rfl, rfl, rfl⟩

/-- C9 at the demo: the H.265 encoder context of `main.cpp`, before any
initialize, gets the default table's answer. -/
theorem C9_rate_control_default_without_task_witness :
    ((hb_mm_mc_get_rate_control_config sampleHeader sampleEnv (some h265Encoder)
        (some [0])).run emptyWorld).val = (0, some [42]) ∧
      ((hb_mm_mc_get_rate_control_config sampleHeader sampleEnv (some h265Encoder)
        (some [0])).run emptyWorld).calls =
        [Call.MCAPPGetTaskLocked h265Encoder MC_TASK_NOT_EXIST none,
          Call.default_params mc_video_get_default_rate_control_params [0]] :=
  ⟨(C9_rate_control_default_without_task sampleHeader sampleEnv h265Encoder [0]
      emptyWorld (by decide) (by decide) rfl).1,
    (C9_rate_control_default_without_task sampleHeader sampleEnv h265Encoder [0]
      emptyWorld (by decide) (by decide) rfl).2.1⟩

/-- C10: for every get-config operation, when the lookup reports
`MC_TASK_NOT_EXIST` and the context is a decoder (`encoder == FALSE`), the
operation returns `HB_MEDIA_ERR_OPERATION_NOT_ALLOWED`, which is neither
`HB_MEDIA_ERR_INVALID_PARAMS` nor `HB_MEDIA_ERR_INVALID_INSTANCE`; the caller's
block is left as it was and no default table is called: the only calls are the
lookup and the release of whatever pointer the lookup left. -/
theorem C10_get_config_decoder_not_allowed (H : Header) (env : Env σ)
    (ctx : media_codec_context_t) (op : GetConfigOp) (blk : Blob) (w : σ)
    (task : Option MCTaskContext) (hH : H.ErrorsDistinct)
    (hdec : ctx.encoder = FALSE)
    (hl : (env.MCAPPGetTaskLocked ctx w).1 = (MC_TASK_NOT_EXIST, task)) :
    ((op.run H env (some ctx) (some blk)).run w).val =
        (H.HB_MEDIA_ERR_OPERATION_NOT_ALLOWED, some blk) ∧
      ((op.run H env (some ctx) (some blk)).run w).val.1 ≠ H.HB_MEDIA_ERR_INVALID_PARAMS ∧
      ((op.run H env (some ctx) (some blk)).run w).val.1 ≠ H.HB_MEDIA_ERR_INVALID_INSTANCE ∧
      ((op.run H env (some ctx) (some blk)).run w).calls =
        Call.MCAPPGetTaskLocked ctx MC_TASK_NOT_EXIST task :: releaseCalls task := by
  rcases hl2 : env.MCAPPGetTaskLocked ctx w with ⟨⟨q, p⟩, w1⟩
  rw [hl2] at hl
  obtain ⟨rfl, rfl⟩ := Prod.mk.inj hl
  rw [get_config_fallback_run H env ctx op blk w w1 MC_TASK_NOT_EXIST p hl2 (by decide)
    (by decide) (by decide), if_neg (fun h => h.1 hdec)]
  exact ⟨rfl, Ne.symm hH.1, hH.2.2.2.1, rfl⟩

/-- C10 at the empty sample registry: the SAO getter of an H.265 decoder
context is refused and the block keeps its contents. -/
theorem C10_get_config_decoder_not_allowed_witness :
    ((GetConfigOp.get_sao_config.run sampleHeader sampleEnv (some h265Decoder)
        (some [9])).run emptyWorld).val =
        (sampleHeader.HB_MEDIA_ERR_OPERATION_NOT_ALLOWED, some [9]) ∧
      ((GetConfigOp.get_sao_config.run sampleHeader sampleEnv (some h265Decoder)
        (some [9])).run emptyWorld).calls =
        [Call.MCAPPGetTaskLocked h265Decoder MC_TASK_NOT_EXIST none] :=
  ⟨(C10_get_config_decoder_not_allowed sampleHeader sampleEnv h265Decoder
      GetConfigOp.get_sao_config [9] emptyWorld none (by decide) rfl rfl).1,
    (C10_get_config_decoder_not_allowed sampleHeader sampleEnv h265Decoder
      GetConfigOp.get_sao_config [9] emptyWorld none (by decide) rfl rfl).2.2.2⟩

/-! ### Claims C11 to C20 -/

/-- The tail of every operation as one outcome. -/
theorem run_decRefIfHeld (env : Env σ) (p : Option MCTaskContext) (w : σ) :
    (decRefIfHeld env p).run w = ⟨(), releaseWorld env p w, releaseCalls p⟩ := by
  cases p <;> rfl

theorem Facade.run_effect {α : Type} (f : σ → α × σ) (w : σ) :
    (Facade.effect f).run w = ⟨(f w).1, (f w).2, []⟩ := rfl

theorem Facade.run_enter (e : ApiCall) (w : σ) :
    (Facade.enter e : Facade σ Unit).run w = ⟨(), w, [Call.api e]⟩ := rfl

/-- Once `noMoreInput` is set, the body of the loop does nothing at all. -/
theorem loopBody_skipped (H : Header) (env : Env σ) (denv : DemoEnv σ)
    (context : Option media_codec_context_t) (duration : Int) (lastTime : Nat) (outFile : Bool)
    (s : LoopState) (w : σ) (h : s.noMoreInput ≠ 0) :
    (loopBody H env denv context duration lastTime outFile s).run w = ⟨(s, false), w, []⟩ := by
  unfold loopBody
  rw [if_neg h]
  rfl

/-- With `noMoreInput` set and `lastStream` clear the loop never ends: whatever
the fuel, it runs out, and nothing has been called or changed. -/
theorem encodeLoop_stalled (H : Header) (env : Env σ) (denv : DemoEnv σ)
    (context : Option media_codec_context_t) (duration : Int) (lastTime : Nat) (outFile : Bool)
    (s : LoopState) (w : σ) (h1 : s.noMoreInput ≠ 0) (h2 : s.lastStream = 0) (fuel : Nat) :
    (encodeLoop H env denv context duration lastTime outFile fuel s).run w = ⟨none, w, []⟩ := by
  induction fuel with
  | zero => rfl
  | succ n ih =>
    unfold encodeLoop
    simp only [Facade.run_bind, loopBody_skipped H env denv context duration lastTime outFile s w
      h1, Facade.run_ite, h2, if_true, ih, List.append_nil, Bool.false_eq_true, if_false]

theorem apiCalls_append (a b : List Call) : apiCalls (a ++ b) = apiCalls a ++ apiCalls b :=
  List.filterMap_append _ _ _

theorem apiCalls_api (e : ApiCall) (l : List Call) :
    apiCalls (Call.api e :: l) = e :: apiCalls l := rfl

/-- C11: every facade operation returns `HB_MEDIA_ERR_INVALID_PARAMS` when the
context is `NULL`, and every operation with a checked pointer argument (the
buffer of the four queue/dequeue operations, the state of get_state, the status
of get_status and set_status, the params of the pointer-taking get and set
config operations) does so when that argument is `NULL`.  In both cases the
world is left as it was and no call at all is made: no `MCAppInitLocked`, no
lookup, no task operation, no `MCTaskDecRef`.  (The `info` pointers of start
and dequeue_output_buffer and the `data` pointer of insert_user_data are not
among the checked arguments: the source hands them on as they are.) -/
theorem C11_null_arguments_rejected_first (H : Header) (env : Env σ) (w : σ) :
    (∀ op : FacadeOp,
        (op.run H env none).run w = ⟨H.HB_MEDIA_ERR_INVALID_PARAMS, w, []⟩) ∧
      (∀ (ctx : media_codec_context_t) (op : FacadeOp), op.hasNullArgument = true →
        (op.run H env (some ctx)).run w = ⟨H.HB_MEDIA_ERR_INVALID_PARAMS, w, []⟩) := by
  constructor
  · intro op
    cases op with
    | lifecycle op => cases op <;> rfl
    | get_config op params => cases op <;> rfl
    | set_config op => cases op <;> rfl
    | _ => rfl
  · intro ctx op h
    cases op with
    | lifecycle op =>
      cases op with
      | dequeue_output_buffer buffer info timeout =>
        cases buffer <;>
          first | rfl | simp [FacadeOp.hasNullArgument, LifecycleOp.hasNullArgument] at h
      | _ =>
        (try cases ‹Option Blob›) <;>
          first | rfl | simp [FacadeOp.hasNullArgument, LifecycleOp.hasNullArgument] at h
    | get_config op params =>
      cases params <;> first | (cases op <;> rfl) | simp [FacadeOp.hasNullArgument] at h
    | set_config op =>
      cases op <;> (try cases ‹Option Blob›) <;>
        first | rfl | simp [FacadeOp.hasNullArgument, SetConfigOp.hasNullArgument] at h
    | get_state state => cases state <;> first | rfl | simp [FacadeOp.hasNullArgument] at h
    | get_user_data params t => cases params <;> first | rfl | simp [FacadeOp.hasNullArgument] at h
    | release_user_data params => cases params <;> first | rfl | simp [FacadeOp.hasNullArgument] at h
    | get_fd fd => cases fd <;> first | rfl | simp [FacadeOp.hasNullArgument] at h
    | set_status status => cases status <;> first | rfl | simp [FacadeOp.hasNullArgument] at h
    | _ => simp [FacadeOp.hasNullArgument] at h

/-- C11 at the sample registry: a `NULL` buffer given to
`hb_mm_mc_dequeue_output_buffer` with a valid context of a live task is refused
without a lookup, and so is initialize of a `NULL` context. -/
theorem C11_null_arguments_rejected_first_witness :
    ((FacadeOp.lifecycle (LifecycleOp.dequeue_output_buffer none (some [0]) 3000)).run
        sampleHeader sampleEnv (some h265Encoder)).run liveWorld =
        ⟨sampleHeader.HB_MEDIA_ERR_INVALID_PARAMS, liveWorld, []⟩ ∧
      (FacadeOp.init.run sampleHeader sampleEnv none).run liveWorld =
        ⟨sampleHeader.HB_MEDIA_ERR_INVALID_PARAMS, liveWorld, []⟩ :=
  ⟨(C11_null_arguments_rejected_first sampleHeader sampleEnv liveWorld).2 h265Encoder _ rfl,
    (C11_null_arguments_rejected_first sampleHeader sampleEnv liveWorld).1 FacadeOp.init⟩

/-- The `data` pointer of `hb_mm_mc_insert_user_data` is not a checked
argument: with `NULL` data the sample registry's task is looked up and the
request is handed to the task level. -/
theorem insert_user_data_null_data_sample :
    ((hb_mm_mc_insert_user_data sampleHeader sampleEnv (some h265EncoderAt7) none 4).run
        liveWorld).calls =
      [Call.MCAPPGetTaskLocked h265EncoderAt7 MC_TASK_EXIST (some 7),
        Call.MCTaskSetConfig (some 7) h265EncoderAt7 ENC_CONFIG_INSERT_USERDATA
          (ConfigArg.user_data 4 none),
        Call.MCTaskDecRef 7] := by
  decide

/-- C12: in `hb_mm_mc_initialize`, when the environment init succeeds, the
lookup reports `MC_TASK_NOT_EXIST` and `MCTaskCreate` yields no task, the
result is `HB_MEDIA_ERR_INSUFFICIENT_RES`, the context (its `instance_index`
included) is left as it was, and the calls made are exactly the environment
init, the lookup and the failed `MCTaskCreate`: no task init, no registry
insertion and no `MCTaskDecRef`. -/
theorem C12_initialize_allocation_failure (H : Header) (env : Env σ)
    (ctx : media_codec_context_t) (w : σ) (task : Option MCTaskContext)
    (hinit : (env.MCAppInitLocked ctx.codec_id w).1 = 0)
    (hq : (env.MCAPPGetTaskLocked ctx (env.MCAppInitLocked ctx.codec_id w).2).1 =
      (MC_TASK_NOT_EXIST, task))
    (hcreate : (env.MCTaskCreate
      (env.MCAPPGetTaskLocked ctx (env.MCAppInitLocked ctx.codec_id w).2).2).1 = none) :
    (( hb_mm_mc_initialize H env (some ctx)).run w).val =
        (H.HB_MEDIA_ERR_INSUFFICIENT_RES, some ctx) ∧
      (( hb_mm_mc_initialize H env (some ctx)).run w).calls =
        [Call.MCAppInitLocked ctx.codec_id, Call.MCAPPGetTaskLocked ctx MC_TASK_NOT_EXIST task,
          Call.MCTaskCreate none] := by
  rcases hi : env.MCAppInitLocked ctx.codec_id w with ⟨r0, w0⟩
  rw [hi] at hinit hq hcreate
  rcases hl : env.MCAPPGetTaskLocked ctx w0 with ⟨⟨q, p⟩, w1⟩
  simp only at hinit hq hcreate
  rw [hl] at hq hcreate
  rcases hc : env.MCTaskCreate w1 with ⟨t, w2⟩
  simp only at hcreate
  rw [hc] at hcreate
  obtain ⟨rfl, rfl⟩ := Prod.mk.inj hq
  subst hinit
  simp only at hcreate
  subst hcreate
  simp [ hb_mm_mc_initialize, Facade.run_bind, Facade.run_pure, Facade.run_call,
    Facade.run_ite, MCAppInitLocked, MCAPPGetTaskLocked, MCTaskCreate, hi, hl, hc, decRefIfHeld]

/-- C12 at a sample registry that is empty and out of memory: initialize of an
H.265 encoder context fails with `HB_MEDIA_ERR_INSUFFICIENT_RES` after the
three calls, and the context comes back unchanged. -/
theorem C12_initialize_allocation_failure_witness :
    (( hb_mm_mc_initialize sampleHeader sampleEnvNoMemory (some h265Encoder)).run
        emptyWorld).val = (sampleHeader.HB_MEDIA_ERR_INSUFFICIENT_RES, some h265Encoder) ∧
      (( hb_mm_mc_initialize sampleHeader sampleEnvNoMemory (some h265Encoder)).run
        emptyWorld).calls =
        [Call.MCAppInitLocked h265Encoder.codec_id,
          Call.MCAPPGetTaskLocked h265Encoder MC_TASK_NOT_EXIST none, Call.MCTaskCreate none] :=
  C12_initialize_allocation_failure sampleHeader sampleEnvNoMemory h265Encoder emptyWorld none
    rfl rfl rfl

/-- C13: in `hb_mm_mc_initialize`, when the environment init succeeds, the
lookup reports `MC_TASK_NOT_EXIST` and `MCTaskCreate` hands out a task `t`, the
task is initialised with the context's `codec_id` and `encoder` flag.  If that
and the registry insertion both return 0, initialize returns 0 and stores the
instance index of `t` in `context.instance_index`.  If the task init fails,
no insertion is attempted; if the task init or the insertion fails, initialize
returns that error and leaves the context as it was.  In every case the
reference to `t` is given back at the end. -/
theorem C13_initialize_creates_task (H : Header) (env : Env σ) (ctx : media_codec_context_t)
    (w w0 w1 w2 w3 w4 : σ) (task : Option MCTaskContext) (t : MCTaskContext) (r1 r2 : hb_s32)
    (hi : env.MCAppInitLocked ctx.codec_id w = (0, w0))
    (hl : env.MCAPPGetTaskLocked ctx w0 = ((MC_TASK_NOT_EXIST, task), w1))
    (hc : env.MCTaskCreate w1 = (some t, w2))
    (ht : env.MCTaskInitLocked (some t) ctx.codec_id ctx.encoder ctx w2 = (r1, w3))
    (ha : env.MCAppAddTaskLocked (some t) w3 = (r2, w4)) :
    (r1 = 0 → r2 = 0 →
        (( hb_mm_mc_initialize H env (some ctx)).run w).val =
          (0, some { ctx with instance_index := env.instIdx t w4 }) ∧
        (( hb_mm_mc_initialize H env (some ctx)).run w).calls =
          [Call.MCAppInitLocked ctx.codec_id,
            Call.MCAPPGetTaskLocked ctx MC_TASK_NOT_EXIST task, Call.MCTaskCreate (some t),
            Call.MCTaskInitLocked (some t) ctx.codec_id ctx.encoder ctx,
            Call.MCAppAddTaskLocked (some t), Call.MCTaskDecRef t]) ∧
      (r1 ≠ 0 →
        (( hb_mm_mc_initialize H env (some ctx)).run w).val = (r1, some ctx) ∧
        (( hb_mm_mc_initialize H env (some ctx)).run w).calls =
          [Call.MCAppInitLocked ctx.codec_id,
            Call.MCAPPGetTaskLocked ctx MC_TASK_NOT_EXIST task, Call.MCTaskCreate (some t),
            Call.MCTaskInitLocked (some t) ctx.codec_id ctx.encoder ctx,
            Call.MCTaskDecRef t]) ∧
      (r1 = 0 → r2 ≠ 0 →
        (( hb_mm_mc_initialize H env (some ctx)).run w).val = (r2, some ctx) ∧
        (( hb_mm_mc_initialize H env (some ctx)).run w).calls =
          [Call.MCAppInitLocked ctx.codec_id,
            Call.MCAPPGetTaskLocked ctx MC_TASK_NOT_EXIST task, Call.MCTaskCreate (some t),
            Call.MCTaskInitLocked (some t) ctx.codec_id ctx.encoder ctx,
            Call.MCAppAddTaskLocked (some t), Call.MCTaskDecRef t]) := by
  refine ⟨?_, ?_, ?_⟩
  · rintro rfl rfl
    simp [ hb_mm_mc_initialize, Facade.run_bind, Facade.run_pure, Facade.run_call,
      Facade.run_ite, Facade.run_read, MCAppInitLocked, MCAPPGetTaskLocked, MCTaskCreate,
      MCTaskInitLocked, MCAppAddTaskLocked, hi, hl, hc, ht, ha, decRefIfHeld, MCTaskDecRef]
  · intro h1
    simp [ hb_mm_mc_initialize, Facade.run_bind, Facade.run_pure, Facade.run_call,
      Facade.run_ite, Facade.run_read, MCAppInitLocked, MCAPPGetTaskLocked, MCTaskCreate,
      MCTaskInitLocked, MCAppAddTaskLocked, hi, hl, hc, ht, ha, decRefIfHeld, MCTaskDecRef, h1]
  · rintro rfl h2
    simp [ hb_mm_mc_initialize, Facade.run_bind, Facade.run_pure, Facade.run_call,
      Facade.run_ite, Facade.run_read, MCAppInitLocked, MCAPPGetTaskLocked, MCTaskCreate,
      MCTaskInitLocked, MCAppAddTaskLocked, hi, hl, hc, ht, ha, decRefIfHeld, MCTaskDecRef, h2]

/-- C13 at the empty sample registry: initialize of an H.265 encoder context
creates task 7, initialises it as codec 1 with encoder flag 1, inserts it and
stores 7 in `instance_index`. -/
theorem C13_initialize_creates_task_witness :
    (( hb_mm_mc_initialize sampleHeader sampleEnv (some h265Encoder)).run emptyWorld).val =
        (0, some { h265Encoder with instance_index := 7 }) ∧
      (( hb_mm_mc_initialize sampleHeader sampleEnv (some h265Encoder)).run emptyWorld).calls =
        [Call.MCAppInitLocked 1, Call.MCAPPGetTaskLocked h265Encoder MC_TASK_NOT_EXIST none,
          Call.MCTaskCreate (some 7), Call.MCTaskInitLocked (some 7) 1 1 h265Encoder,
          Call.MCAppAddTaskLocked (some 7), Call.MCTaskDecRef 7] :=
  (C13_initialize_creates_task sampleHeader sampleEnv h265Encoder emptyWorld _ _ _ _ _ none 7
    0 0 rfl rfl rfl rfl rfl).1 rfl rfl

/-- With a task level init that fails with `-5` the new task is given back
without being inserted, the error is returned and the context is unchanged. -/
theorem initialize_task_init_failure_sample :
    (( hb_mm_mc_initialize sampleHeader sampleEnvInitFails (some h265Encoder)).run
        emptyWorld).val = (-5, some h265Encoder) ∧
      (( hb_mm_mc_initialize sampleHeader sampleEnvInitFails (some h265Encoder)).run
        emptyWorld).calls =
        [Call.MCAppInitLocked 1, Call.MCAPPGetTaskLocked h265Encoder MC_TASK_NOT_EXIST none,
          Call.MCTaskCreate (some 7), Call.MCTaskInitLocked (some 7) 1 1 h265Encoder,
          Call.MCTaskDecRef 7] ∧
      (( hb_mm_mc_initialize sampleHeader sampleEnvInitFails (some h265Encoder)).run
        emptyWorld).world.task = none := by
  decide

/-- C14: `hb_mm_mc_release` on a live task (the lookup reports `MC_TASK_EXIST`)
first calls `MCTaskRelease`.  When that returns 0 it calls
`MCAppDeleteTaskLocked` and returns the registry's result; when it fails,
release returns that error and `MCAppDeleteTaskLocked` is not called, so the
registry is only touched by the return of the looked-up reference. -/
theorem C14_release_removes_only_after_task_release (H : Header) (env : Env σ)
    (ctx : media_codec_context_t) (w w1 w2 w3 : σ) (task : Option MCTaskContext)
    (r1 r2 : hb_s32)
    (hl : env.MCAPPGetTaskLocked ctx w = ((MC_TASK_EXIST, task), w1))
    (hr : env.MCTaskRelease task w1 = (r1, w2))
    (hd : env.MCAppDeleteTaskLocked task w2 = (r2, w3)) :
    (r1 = 0 →
        (hb_mm_mc_release H env (some ctx)).run w =
          ⟨r2, releaseWorld env task w3,
            Call.MCAPPGetTaskLocked ctx MC_TASK_EXIST task :: Call.MCTaskRelease task ::
              Call.MCAppDeleteTaskLocked task :: releaseCalls task⟩) ∧
      (r1 ≠ 0 →
        (hb_mm_mc_release H env (some ctx)).run w =
          ⟨r1, releaseWorld env task w2,
            Call.MCAPPGetTaskLocked ctx MC_TASK_EXIST task :: Call.MCTaskRelease task ::
              releaseCalls task⟩) := by
  constructor
  · rintro rfl
    simp [hb_mm_mc_release, Facade.run_bind, Facade.run_pure, Facade.run_call, Facade.run_ite,
      MCAPPGetTaskLocked, MCTaskRelease, MCAppDeleteTaskLocked, hl, hr, hd, run_decRefIfHeld]
  · intro h1
    simp [hb_mm_mc_release, Facade.run_bind, Facade.run_pure, Facade.run_call, Facade.run_ite,
      MCAPPGetTaskLocked, MCTaskRelease, MCAppDeleteTaskLocked, hl, hr, hd, run_decRefIfHeld, h1]

/-- C14 at the sample registry holding task 7 with a task level release that
fails with `-6`: release returns `-6`, makes no `MCAppDeleteTaskLocked` call,
and task 7 is still registered afterwards. -/
theorem C14_release_removes_only_after_task_release_witness :
    (hb_mm_mc_release sampleHeader sampleEnvReleaseFails (some h265EncoderAt7)).run liveWorld =
      ⟨-6, liveWorld,
        [Call.MCAPPGetTaskLocked h265EncoderAt7 MC_TASK_EXIST (some 7),
          Call.MCTaskRelease (some 7), Call.MCTaskDecRef 7]⟩ :=
  (C14_release_removes_only_after_task_release sampleHeader sampleEnvReleaseFails
    h265EncoderAt7 liveWorld _ _ _ (some 7) (-6) 0 rfl rfl rfl).2 (by decide)

/-- With a task level release that succeeds, release at the sample registry
removes task 7 and returns the registry's 0. -/
theorem release_success_sample :
    ((hb_mm_mc_release sampleHeader sampleEnv (some h265EncoderAt7)).run liveWorld).val = 0 ∧
      ((hb_mm_mc_release sampleHeader sampleEnv (some h265EncoderAt7)).run liveWorld).calls =
        [Call.MCAPPGetTaskLocked h265EncoderAt7 MC_TASK_EXIST (some 7),
          Call.MCTaskRelease (some 7), Call.MCAppDeleteTaskLocked (some 7),
          Call.MCTaskDecRef 7] ∧
      ((hb_mm_mc_release sampleHeader sampleEnv (some h265EncoderAt7)).run
        liveWorld).world.task = none := by
  decide

/-- C15: `hb_mm_mc_set_callback` with a callback structure in which any of
`on_input_buffer_available`, `on_output_buffer_available`,
`on_media_codec_message` is `NULL` returns `HB_MEDIA_ERR_INVALID_PARAMS` and
makes no call at all (whatever the context and userdata are).  With a context,
a userdata pointer, all three callbacks present and a lookup that reports
`MC_TASK_EXIST`, it returns exactly the result of
`MCTaskRegisterListernerLocked` on the structure, the userdata and the context
it was given. -/
theorem C15_set_callback_requires_all_three (H : Header) (env : Env σ) (w : σ)
    (cb : media_codec_callback_t) :
    ((cb.on_input_buffer_available = none ∨ cb.on_output_buffer_available = none ∨
          cb.on_media_codec_message = none) →
        ∀ (context : Option media_codec_context_t) (userdata : hb_ptr),
          (hb_mm_mc_set_callback H env context (some cb) userdata).run w =
            ⟨H.HB_MEDIA_ERR_INVALID_PARAMS, w, []⟩) ∧
      (cb.on_input_buffer_available ≠ none → cb.on_output_buffer_available ≠ none →
        cb.on_media_codec_message ≠ none →
        ∀ (ctx : media_codec_context_t) (ud : Nat) (task : Option MCTaskContext) (w1 w2 : σ)
          (r : hb_s32),
          env.MCAPPGetTaskLocked ctx w = ((MC_TASK_EXIST, task), w1) →
          env.MCTaskRegisterListernerLocked task cb (some ud) ctx w1 = (r, w2) →
          (hb_mm_mc_set_callback H env (some ctx) (some cb) (some ud)).run w =
            ⟨r, releaseWorld env task w2,
              Call.MCAPPGetTaskLocked ctx MC_TASK_EXIST task ::
                Call.MCTaskRegisterListernerLocked task cb (some ud) ctx ::
                releaseCalls task⟩) := by
  constructor
  · intro h context userdata
    cases context with
    | none => rfl
    | some ctx =>
      cases userdata with
      | none => rfl
      | some ud => simp [hb_mm_mc_set_callback, h, Facade.run_pure]
  · intro h1 h2 h3 ctx ud task w1 w2 r hl hreg
    simp [hb_mm_mc_set_callback, h1, h2, h3, Facade.run_bind, Facade.run_pure, Facade.run_call,
      Facade.run_ite, MCAPPGetTaskLocked, MCTaskRegisterListernerLocked, hl, hreg,
      run_decRefIfHeld]

/-- C15 at the sample registry holding task 7: a structure without the three
primary callbacks is refused without a lookup, and a structure with all of them
reaches the registration of the task level, whose 0 is returned. -/
theorem C15_set_callback_requires_all_three_witness :
    (hb_mm_mc_set_callback sampleHeader sampleEnv (some h265EncoderAt7) (some vlcCallbackOnly)
        (some 9)).run liveWorld = ⟨sampleHeader.HB_MEDIA_ERR_INVALID_PARAMS, liveWorld, []⟩ ∧
      (hb_mm_mc_set_callback sampleHeader sampleEnv (some h265EncoderAt7) (some allCallbacks)
        (some 9)).run liveWorld =
        ⟨0, liveWorld,
          [Call.MCAPPGetTaskLocked h265EncoderAt7 MC_TASK_EXIST (some 7),
            Call.MCTaskRegisterListernerLocked (some 7) allCallbacks (some 9) h265EncoderAt7,
            Call.MCTaskDecRef 7]⟩ :=
  ⟨(C15_set_callback_requires_all_three sampleHeader sampleEnv liveWorld vlcCallbackOnly).1
      (Or.inl rfl) (some h265EncoderAt7) (some 9),
    (C15_set_callback_requires_all_three sampleHeader sampleEnv liveWorld allCallbacks).2
      (by decide) (by decide) (by decide) h265EncoderAt7 9 (some 7) _ _ 0 rfl rfl⟩

/-- C17: when the lookup reports `MC_TASK_EXIST`, each of the four buffer
operations makes exactly one task level call, with the task the lookup found
and the caller's buffer (for dequeue_output also the info pointer) and timeout
as given, and returns exactly that call's result code together with the buffer
the task level left; the reference is then given back. -/
theorem C17_buffer_operations_forward (H : Header) (env : Env σ) (ctx : media_codec_context_t)
    (w w1 : σ) (task : Option MCTaskContext) (buf : Blob) (info : Option Blob)
    (timeout : hb_s32)
    (hl : env.MCAPPGetTaskLocked ctx w = ((MC_TASK_EXIST, task), w1)) :
    (hb_mm_mc_queue_input_buffer H env (some ctx) (some buf) timeout).run w =
        ⟨((env.MCTaskQueueInputBufferLocked task buf timeout w1).1.1,
            some (env.MCTaskQueueInputBufferLocked task buf timeout w1).1.2),
          releaseWorld env task (env.MCTaskQueueInputBufferLocked task buf timeout w1).2,
          Call.MCAPPGetTaskLocked ctx MC_TASK_EXIST task ::
            Call.MCTaskQueueInputBufferLocked task buf timeout :: releaseCalls task⟩ ∧
      (hb_mm_mc_dequeue_input_buffer H env (some ctx) (some buf) timeout).run w =
        ⟨((env.MCTaskDequeueInputBufferLocked task buf timeout w1).1.1,
            some (env.MCTaskDequeueInputBufferLocked task buf timeout w1).1.2),
          releaseWorld env task (env.MCTaskDequeueInputBufferLocked task buf timeout w1).2,
          Call.MCAPPGetTaskLocked ctx MC_TASK_EXIST task ::
            Call.MCTaskDequeueInputBufferLocked task buf timeout :: releaseCalls task⟩ ∧
      (hb_mm_mc_queue_output_buffer H env (some ctx) (some buf) timeout).run w =
        ⟨((env.MCTaskQueueOutputBufferLocked task buf timeout w1).1.1,
            some (env.MCTaskQueueOutputBufferLocked task buf timeout w1).1.2),
          releaseWorld env task (env.MCTaskQueueOutputBufferLocked task buf timeout w1).2,
          Call.MCAPPGetTaskLocked ctx MC_TASK_EXIST task ::
            Call.MCTaskQueueOutputBufferLocked task buf timeout :: releaseCalls task⟩ ∧
      (hb_mm_mc_dequeue_output_buffer H env (some ctx) (some buf) info timeout).run w =
        ⟨((env.MCTaskDequeueOutputBufferLocked task buf info timeout w1).1.1,
            some (env.MCTaskDequeueOutputBufferLocked task buf info timeout w1).1.2.1,
            (env.MCTaskDequeueOutputBufferLocked task buf info timeout w1).1.2.2),
          releaseWorld env task (env.MCTaskDequeueOutputBufferLocked task buf info timeout w1).2,
          Call.MCAPPGetTaskLocked ctx MC_TASK_EXIST task ::
            Call.MCTaskDequeueOutputBufferLocked task buf info timeout :: releaseCalls task⟩ := by
  refine ⟨?_, ?_, ?_, ?_⟩
  · simp [hb_mm_mc_queue_input_buffer, Facade.run_bind, Facade.run_pure, Facade.run_call,
      Facade.run_ite, MCAPPGetTaskLocked, MCTaskQueueInputBufferLocked, hl, run_decRefIfHeld]
  · simp [hb_mm_mc_dequeue_input_buffer, Facade.run_bind, Facade.run_pure, Facade.run_call,
      Facade.run_ite, MCAPPGetTaskLocked, MCTaskDequeueInputBufferLocked, hl, run_decRefIfHeld]
  · simp [hb_mm_mc_queue_output_buffer, Facade.run_bind, Facade.run_pure, Facade.run_call,
      Facade.run_ite, MCAPPGetTaskLocked, MCTaskQueueOutputBufferLocked, hl, run_decRefIfHeld]
  · simp [hb_mm_mc_dequeue_output_buffer, Facade.run_bind, Facade.run_pure, Facade.run_call,
      Facade.run_ite, MCAPPGetTaskLocked, MCTaskDequeueOutputBufferLocked, hl, run_decRefIfHeld]

/-- C17 at the sample registry holding task 7 with a task level whose dequeue
operations time out: `hb_mm_mc_dequeue_output_buffer` hands the buffer, the
info pointer and the timeout 3000 to the task level and returns its
`HB_MEDIA_ERR_WAIT_TIMEOUT` unchanged. -/
theorem C17_buffer_operations_forward_witness :
    (hb_mm_mc_dequeue_output_buffer sampleHeader sampleEnvTimeout (some h265EncoderAt7)
        (some [0, 0]) (some [0]) 3000).run liveWorld =
      ⟨(sampleHeader.HB_MEDIA_ERR_WAIT_TIMEOUT, some [0, 0], some [0]), liveWorld,
        [Call.MCAPPGetTaskLocked h265EncoderAt7 MC_TASK_EXIST (some 7),
          Call.MCTaskDequeueOutputBufferLocked (some 7) [0, 0] (some [0]) 3000,
          Call.MCTaskDecRef 7]⟩ :=
  (C17_buffer_operations_forward sampleHeader sampleEnvTimeout h265EncoderAt7 liveWorld _
    (some 7) [0, 0] (some [0]) 3000 rfl).2.2.2

/-- C18: with audio support compiled out (no audio subsystem), each of the four
audio registration functions returns `HB_MEDIA_ERR_CODEC_NOT_FOUND` for every
input, makes no call, leaves the world as it was, and the two register
functions leave `*handle` as it was. -/
theorem C18_audio_compiled_out (H : Header) (w : σ) (handle : Option hb_s32) (h : hb_s32)
    (params : Option Blob) :
    (hb_mm_mc_register_audio_encoder H (none : Option (AudioEnv σ)) handle params).run w =
        ⟨(H.HB_MEDIA_ERR_CODEC_NOT_FOUND, handle), w, []⟩ ∧
      (hb_mm_mc_unregister_audio_encoder H (none : Option (AudioEnv σ)) h).run w =
        ⟨H.HB_MEDIA_ERR_CODEC_NOT_FOUND, w, []⟩ ∧
      (hb_mm_mc_register_audio_decoder H (none : Option (AudioEnv σ)) handle params).run w =
        ⟨(H.HB_MEDIA_ERR_CODEC_NOT_FOUND, handle), w, []⟩ ∧
      (hb_mm_mc_unregister_audio_decoder H (none : Option (AudioEnv σ)) h).run w =
        ⟨H.HB_MEDIA_ERR_CODEC_NOT_FOUND, w, []⟩ := by
  refine ⟨?_, ?_, ?_, ?_⟩
  · simp [hb_mm_mc_register_audio_encoder, Facade.run_bind, Facade.run_pure, Facade.run_ite]
  · simp [hb_mm_mc_unregister_audio_encoder, Facade.run_bind, Facade.run_pure, Facade.run_ite]
  · simp [hb_mm_mc_register_audio_decoder, Facade.run_bind, Facade.run_pure, Facade.run_ite]
  · simp [hb_mm_mc_unregister_audio_decoder, Facade.run_bind, Facade.run_pure, Facade.run_ite]

/-- C19: `hb_mm_mc_get_default_context` returns `HB_MEDIA_ERR_INVALID_PARAMS`
and leaves the context as it was when the context is `NULL`, when `codec_id` is
not strictly between `MEDIA_CODEC_ID_NONE` and `MEDIA_CODEC_ID_TOTAL`, or when
the encoder flag is neither `TRUE` nor `FALSE`.  For each of the ten codec
kinds of the table it returns 0, stores `codec_id` and `encoder`, and fills
one block from the kind's default table: the encoder block when the flag is
`TRUE`, the decoder block when it is `FALSE`; the video blocks for H264, H265,
MJPEG and JPEG, the audio blocks for the audio kinds.  The other blocks and
`instance_index` are unchanged. -/
theorem C19_get_default_context (H : Header) (dflt : ContextDefault → Blob → Blob)
    (hH : H.CodecIdsValid) (ctx : media_codec_context_t) :
    (∀ codec_id encoder,
        hb_mm_mc_get_default_context H dflt codec_id encoder none =
          (H.HB_MEDIA_ERR_INVALID_PARAMS, none)) ∧
      (∀ codec_id encoder,
        ¬(H.MEDIA_CODEC_ID_NONE < codec_id ∧ codec_id < H.MEDIA_CODEC_ID_TOTAL) →
        hb_mm_mc_get_default_context H dflt codec_id encoder (some ctx) =
          (H.HB_MEDIA_ERR_INVALID_PARAMS, some ctx)) ∧
      (∀ codec_id encoder, encoder ≠ TRUE → encoder ≠ FALSE →
        hb_mm_mc_get_default_context H dflt codec_id encoder (some ctx) =
          (H.HB_MEDIA_ERR_INVALID_PARAMS, some ctx)) ∧
      (∀ row ∈ H.defaultTables,
        hb_mm_mc_get_default_context H dflt row.1 TRUE (some ctx) =
          (0, some
            (if row.2.1 = true then
              { ctx with
                codec_id := row.1, encoder := TRUE,
                video_enc_params := dflt row.2.2.1 ctx.video_enc_params }
            else
              { ctx with
                codec_id := row.1, encoder := TRUE,
                audio_enc_params := dflt row.2.2.1 ctx.audio_enc_params })) ∧
        hb_mm_mc_get_default_context H dflt row.1 FALSE (some ctx) =
          (0, some
            (if row.2.1 = true then
              { ctx with
                codec_id := row.1, encoder := FALSE,
                video_dec_params := dflt row.2.2.2 ctx.video_dec_params }
            else
              { ctx with
                codec_id := row.1, encoder := FALSE,
                audio_dec_params := dflt row.2.2.2 ctx.audio_dec_params }))) := by
  refine ⟨fun _ _ => rfl, ?_, ?_, ?_⟩
  · intro codec_id encoder h
    have h2 : codec_id ≤ H.MEDIA_CODEC_ID_NONE ∨ codec_id ≥ H.MEDIA_CODEC_ID_TOTAL := by
      by_contra hc
      exact h ⟨not_le.mp (not_or.mp hc).1, not_le.mp (not_or.mp hc).2⟩
    unfold hb_mm_mc_get_default_context
    simp only [if_pos h2]
  · intro codec_id encoder h1 h2
    unfold hb_mm_mc_get_default_context
    simp only [if_pos (And.intro h1 h2), ite_self]
  · obtain ⟨hd, hr⟩ := hH
    have hd := List.nodup_reverse.mpr hd
    simp only [Header.defaultTables, List.map_cons, List.map_nil, List.reverse_cons,
      List.reverse_nil, List.nil_append, List.cons_append, List.nodup_cons, List.mem_cons,
      List.not_mem_nil, not_or, not_false_eq_true, List.nodup_nil, and_true, forall_eq_or_imp,
      forall_eq, or_false, ← not_le, IsEmpty.forall_iff, implies_true] at hd hr ⊢
    unfold hb_mm_mc_get_default_context
    refine ⟨?_, ?_, ?_, ?_, ?_, ?_, ?_, ?_, ?_, ?_⟩ <;>
      simp [fillVideoDefaults, fillAudioDefaults, TRUE, FALSE, hd, hr]

/-- C19 at the sample header, with default tables that write the word 42 in
front of a block: the defaults of an H.265 encoder asked into a JPEG encoder
context give 0, codec id 1, encoder flag 1 and a filled video encoder block;
the other blocks and the instance index are as before. -/
theorem C19_get_default_context_witness :
    hb_mm_mc_get_default_context sampleHeader (fun _ b => 42 :: b)
        sampleHeader.MEDIA_CODEC_ID_H265 TRUE (some jpegEncoder) =
      (0, some { jpegEncoder with
        codec_id := 1, encoder := 1, video_enc_params := 42 :: jpegEncoder.video_enc_params }) :=
  ((C19_get_default_context sampleHeader (fun _ b => 42 :: b) (by decide) jpegEncoder).2.2.2
    (sampleHeader.MEDIA_CODEC_ID_H265, true,
      ContextDefault.mc_video_get_default_h265enc_params,
      ContextDefault.mc_video_get_default_h265dec_params) (by decide)).1

/-- A codec id inside the range that has no default table (10 at the sample
header) is refused with `HB_MEDIA_ERR_INVALID_PARAMS`, after `codec_id` and
`encoder` have been stored. -/
theorem get_default_context_unlisted_codec_sample :
    hb_mm_mc_get_default_context sampleHeader (fun _ b => 42 :: b) 10 TRUE (some jpegEncoder) =
      (sampleHeader.HB_MEDIA_ERR_INVALID_PARAMS,
        some { jpegEncoder with codec_id := 10, encoder := 1 }) := by
  decide

/-- C20 (the code against the claim): from a state of the loop of
`do_sync_encoding` with `noMoreInput = 1` and `lastStream = 0`, no further call
is made, of `hb_mm_mc_dequeue_output_buffer` or of anything else: every
iteration skips the whole body, the world stays as it is, and the loop does
not end for any number of iterations, so `hb_mm_mc_stop` and
`hb_mm_mc_release` are not reached. -/
theorem C20_encode_loop_stalls_after_frame_end (H : Header) (env : Env σ) (denv : DemoEnv σ)
    (context : Option media_codec_context_t) (duration : Int) (lastTime : Nat) (outFile : Bool)
    (s : LoopState) (w : σ) (h1 : s.noMoreInput = 1) (h2 : s.lastStream = 0) :
    (loopBody H env denv context duration lastTime outFile s).run w = ⟨(s, false), w, []⟩ ∧
      ∀ fuel,
        (encodeLoop H env denv context duration lastTime outFile fuel s).run w =
          ⟨none, w, []⟩ := by
  have h : s.noMoreInput ≠ 0 := by rw [h1]; decide
  exact ⟨loopBody_skipped H env denv context duration lastTime outFile s w h,
    encodeLoop_stalled H env denv context duration lastTime outFile s w h h2⟩

/-- C20 at the sample registry holding task 7, in the state the first
iteration leaves when its output buffer is not the last one: the loop makes no
call in 1000 iterations. -/
theorem C20_encode_loop_stalls_after_frame_end_witness :
    (encodeLoop sampleHeader sampleEnv sampleDemo (some h265EncoderAt7) 0 0 true 1000
        { noMoreInput := 1, lastStream := 0, needFlush := 0 }).run liveWorld =
      ⟨none, liveWorld, []⟩ :=
  (C20_encode_loop_stalls_after_frame_end sampleHeader sampleEnv sampleDemo
    (some h265EncoderAt7) 0 0 true { noMoreInput := 1, lastStream := 0, needFlush := 0 }
    liveWorld rfl rfl).2 1000

set_option maxRecDepth 4000 in
/-- The demo at the sample registry, where the task level hands out an output
buffer that is not the last one: whatever the fuel, `do_sync_encoding` does not
return.  After the input buffer with `frame_end` is queued there is exactly one
call of `hb_mm_mc_dequeue_output_buffer`, and `hb_mm_mc_stop` and
`hb_mm_mc_release` are never called. -/
theorem do_sync_encoding_hangs_sample (fuel : Nat) :
    ((do_sync_encoding sampleHeader sampleEnv sampleDemo (some h265Encoder) 0
        (fuel + 1)).run emptyWorld).val = none ∧
      apiCalls ((do_sync_encoding sampleHeader sampleEnv sampleDemo (some h265Encoder) 0
        (fuel + 1)).run emptyWorld).calls =
        [.init, .configure, .start, .dequeue_input_buffer, .queue_input_buffer,
          .dequeue_output_buffer, .queue_output_buffer, .flush] := by
  obtain ⟨cI, hI, hI2⟩ : ∃ c,
      (( hb_mm_mc_initialize sampleHeader sampleEnv (some h265Encoder)).run emptyWorld) =
        ⟨(0, some h265EncoderAt7), { task := some 7, codec := 1, refs := 0, initRuns := 1 }, c⟩ ∧
      apiCalls c = [] := ⟨_, rfl, rfl⟩
  obtain ⟨cC, hC, hC2⟩ : ∃ c,
      (hb_mm_mc_configure sampleHeader sampleEnv (some h265EncoderAt7)).run
        { task := some 7, codec := 1, refs := 0, initRuns := 1 } =
        ⟨0, { task := some 7, codec := 1, refs := 0, initRuns := 1 }, c⟩ ∧
      apiCalls c = [] := ⟨_, rfl, rfl⟩
  obtain ⟨cS, hS, hS2⟩ : ∃ c,
      (hb_mm_mc_start sampleHeader sampleEnv (some h265EncoderAt7) (some [0])).run
        { task := some 7, codec := 1, refs := 0, initRuns := 1 } =
        ⟨0, { task := some 7, codec := 1, refs := 0, initRuns := 1 }, c⟩ ∧
      apiCalls c = [] := ⟨_, rfl, rfl⟩
  obtain ⟨cB, hB, hB2⟩ : ∃ c,
      (loopBody sampleHeader sampleEnv sampleDemo (some h265EncoderAt7) 0 0 true
        LoopState.start).run { task := some 7, codec := 1, refs := 0, initRuns := 1 } =
        ⟨({ noMoreInput := 1, lastStream := 0, needFlush := 0 }, false),
          { task := some 7, codec := 1, refs := 0, initRuns := 1 }, c⟩ ∧
      apiCalls c = [.dequeue_input_buffer, .queue_input_buffer, .dequeue_output_buffer,
        .queue_output_buffer, .flush] := ⟨_, rfl, rfl⟩
  have hR := encodeLoop_stalled sampleHeader sampleEnv sampleDemo (some h265EncoderAt7) 0 0 true
    { noMoreInput := 1, lastStream := 0, needFlush := 0 }
    { task := some 7, codec := 1, refs := 0, initRuns := 1 } (by decide) rfl fuel
  have hL : (encodeLoop sampleHeader sampleEnv sampleDemo (some h265EncoderAt7) 0 0 true
      (fuel + 1) LoopState.start).run { task := some 7, codec := 1, refs := 0, initRuns := 1 } =
      ⟨none, { task := some 7, codec := 1, refs := 0, initRuns := 1 }, cB⟩ := by
    rw [encodeLoop, Facade.run_bind, hB]
    simp only [Facade.run_ite, Bool.false_eq_true, if_false, if_true, hR, List.append_nil]
  have e1 : sampleDemo.fopen_in = fun w => (true, w) := rfl
  have e2 : sampleDemo.fopen_out = fun w => (true, w) := rfl
  have e3 : sampleDemo.osal_gettime = fun w => (0, w) := rfl
  have e4 : sampleDemo.startup_params = [0] := rfl
  simp only [do_sync_encoding, Facade.run_bind, Facade.run_effect, Facade.run_enter,
    Facade.run_ite, Facade.run_pure, e1, e2, e3, e4, hI, hC, hS, hL]
  simp [apiCalls_append, apiCalls_api, hI2, hC2, hS2, hB2]

/-- The demo at the sample registry with a task level that marks its first
output buffer as the last one: the loop is left in its first iteration and the
function returns after `hb_mm_mc_stop` and `hb_mm_mc_release`. -/
theorem do_sync_encoding_returns_sample :
    ((do_sync_encoding sampleHeader sampleEnvStreamEnd sampleDemo (some h265Encoder) 0
        1).run emptyWorld).val = some () ∧
      apiCalls ((do_sync_encoding sampleHeader sampleEnvStreamEnd sampleDemo (some h265Encoder) 0
        1).run emptyWorld).calls =
        [.init, .configure, .start, .dequeue_input_buffer, .queue_input_buffer,
          .dequeue_output_buffer, .queue_output_buffer, .stop, .release] :=
  ⟨rfl, rfl⟩


/-! ### Claims C21 to C30 -/

/-- Every getter with a live task: one `MCTaskGetConfig` on the task the lookup
found, with the getter's tag and the caller's block; its result and the block
it leaves are returned. -/
theorem get_config_live_run (H : Header) (env : Env σ) (ctx : media_codec_context_t)
    (op : GetConfigOp) (blk : Blob) (w w1 : σ) (task : Option MCTaskContext)
    (hl : env.MCAPPGetTaskLocked ctx w = ((MC_TASK_EXIST, task), w1)) :
    (op.run H env (some ctx) (some blk)).run w =
      ⟨((env.MCTaskGetConfig task ctx op.tag (op.request env blk) w1).1.1,
          some (env.MCTaskGetConfig task ctx op.tag (op.request env blk) w1).1.2),
        releaseWorld env task (env.MCTaskGetConfig task ctx op.tag (op.request env blk) w1).2,
        Call.MCAPPGetTaskLocked ctx MC_TASK_EXIST task ::
          Call.MCTaskGetConfig task ctx op.tag (op.request env blk) :: releaseCalls task⟩ := by
  cases op <;>
    simp [GetConfigOp.run, GetConfigOp.tag, GetConfigOp.request,
      hb_mm_mc_get_longterm_ref_mode, hb_mm_mc_get_intra_refresh_config,
      hb_mm_mc_get_rate_control_config, hb_mm_mc_get_max_bit_rate_config,
      hb_mm_mc_get_deblk_filter_config, hb_mm_mc_get_sao_config, hb_mm_mc_get_entropy_config,
      hb_mm_mc_get_vui_timing_config, hb_mm_mc_get_vui_config, hb_mm_mc_get_slice_config,
      hb_mm_mc_get_3dnr_enc_config, hb_mm_mc_get_smart_bg_enc_config,
      hb_mm_mc_get_monochroma_config, hb_mm_mc_get_pred_unit_config,
      hb_mm_mc_get_transform_config, hb_mm_mc_get_roi_config, hb_mm_mc_get_roi_avg_qp,
      hb_mm_mc_get_roi_config_ex, hb_mm_mc_get_mode_decision_config,
      hb_mm_mc_get_encode_mode_config, hb_mm_mc_get_explicit_header_config,
      hb_mm_mc_get_mjpeg_config, hb_mm_mc_get_jpeg_config,
      Facade.run_bind, Facade.run_pure, Facade.run_call, Facade.run_ite, MCAPPGetTaskLocked,
      MCTaskGetConfig, hl, run_decRefIfHeld]

/-- The setter paired with a getter has a block to pass and uses the getter's
tag. -/
theorem setter_tag (op : GetConfigOp) (v : Blob) :
    (op.setter v).hasNullArgument = false ∧ (op.setter v).tag = op.tag := by
  cases op <;> exact ⟨rfl, rfl⟩

/-- The value the paired setter hands to the task level is `v`. -/
theorem setter_arg (op : GetConfigOp) (v : Blob) (hv : op.isValue v = true) :
    (op.setter v).arg.toBlob = v := by
  cases op <;> first
    | rfl
    | (rcases v with _ | ⟨n, _ | ⟨m, v⟩⟩ <;>
        simp [GetConfigOp.isValue, isWord] at hv
       simp [GetConfigOp.setter, SetConfigOp.arg, ConfigArg.toBlob, hv])

/-- C21: for every parameter kind with a getter and a setter, and a lookup that
reports `MC_TASK_EXIST` with task `task` for the context, the getter calls
`MCTaskGetConfig` and the setter calls `MCTaskSetConfig` on that same task
with the same `ENC_CONFIG_*` tag.  In the model where the task stores one value
per tag: the getter called after the setter was called with a value `v`
returns 0 and `v`; and the setter called with what the getter returned
succeeds and leaves the store as it was. -/
theorem C21_getter_setter_same_tag (H : Header) (env : Env σ) (ctx : media_codec_context_t)
    (op : GetConfigOp) (v blk : Blob) (w w1 u u1 : σ) (task : Option MCTaskContext)
    (hg : env.MCAPPGetTaskLocked ctx w = ((MC_TASK_EXIST, task), w1))
    (hs : env.MCAPPGetTaskLocked ctx u = ((MC_TASK_EXIST, task), u1)) :
    (((op.run H env (some ctx) (some blk)).run w).calls =
          Call.MCAPPGetTaskLocked ctx MC_TASK_EXIST task ::
            Call.MCTaskGetConfig task ctx op.tag (op.request env blk) :: releaseCalls task ∧
        (((op.setter v).run H env (some ctx)).run u).calls =
          Call.MCAPPGetTaskLocked ctx MC_TASK_EXIST task ::
            Call.MCTaskSetConfig task ctx op.tag (op.setter v).arg :: releaseCalls task) ∧
      (op.isValue v = true → ∀ s : EncConfig → Blob,
        (((op.setter v).run H storeEnv (some ctx)).run s).val = 0 ∧
          ((op.run H storeEnv (some ctx) (some blk)).run
            (((op.setter v).run H storeEnv (some ctx)).run s).world).val = (0, some v)) ∧
      (∀ s : EncConfig → Blob, op.isValue (s op.tag) = true →
        ((op.run H storeEnv (some ctx) (some blk)).run s).val = (0, some (s op.tag)) ∧
          (((op.setter (s op.tag)).run H storeEnv (some ctx)).run
            ((op.run H storeEnv (some ctx) (some blk)).run s).world).val = 0 ∧
          (((op.setter (s op.tag)).run H storeEnv (some ctx)).run
            ((op.run H storeEnv (some ctx) (some blk)).run s).world).world = s) := by
  have hset : ∀ (x : Blob) (s : EncConfig → Blob), op.isValue x = true →
      ((op.setter x).run H storeEnv (some ctx)).run s =
        ⟨0, Function.update s op.tag x,
          [Call.MCAPPGetTaskLocked ctx MC_TASK_EXIST (some 7),
            Call.MCTaskSetConfig (some 7) ctx op.tag (op.setter x).arg,
            Call.MCTaskDecRef 7]⟩ := by
    intro x s hx
    rw [set_config_run H storeEnv ctx (op.setter x) s s MC_TASK_EXIST (some 7)
      (setter_tag op x).1 rfl, if_pos rfl, (setter_tag op x).2]
    simp [storeEnv, taskEnv, releaseWorld, releaseCalls, setter_arg op x hx]
  have hget : ∀ s : EncConfig → Blob,
      (op.run H storeEnv (some ctx) (some blk)).run s =
        ⟨(0, some (s op.tag)), s,
          [Call.MCAPPGetTaskLocked ctx MC_TASK_EXIST (some 7),
            Call.MCTaskGetConfig (some 7) ctx op.tag (op.request storeEnv blk),
            Call.MCTaskDecRef 7]⟩ := by
    intro s
    rw [get_config_live_run H storeEnv ctx op blk s s (some 7) rfl]
    simp [storeEnv, taskEnv, releaseWorld, releaseCalls]
  refine ⟨⟨?_, ?_⟩, ?_, ?_⟩
  · rw [get_config_live_run H env ctx op blk w w1 task hg]
  · rw [set_config_run H env ctx (op.setter v) u u1 MC_TASK_EXIST task (setter_tag op v).1 hs,
      if_pos rfl, (setter_tag op v).2]
  · intro hv s
    rw [hset v s hv, hget]
    simp
  · intro s hv
    rw [hget, hset (s op.tag) s hv]
    simp

/-- C21 in the store model for the max-bit-rate kind, which is set by value and
read through a pointer: after `hb_mm_mc_set_max_bit_rate_config` with 8000 on a
store of empty blocks, `hb_mm_mc_get_max_bit_rate_config` returns 0 and the
word 8000. -/
theorem C21_getter_setter_same_tag_witness :
    ((hb_mm_mc_get_max_bit_rate_config sampleHeader storeEnv (some h265Encoder) (some [0])).run
        ((hb_mm_mc_set_max_bit_rate_config sampleHeader storeEnv (some h265Encoder) 8000).run
          (fun _ => [])).world).val = (0, some [8000]) :=
  ((C21_getter_setter_same_tag sampleHeader storeEnv h265Encoder
    GetConfigOp.get_max_bit_rate_config [8000] [0] (fun _ => []) (fun _ => []) (fun _ => [])
    (fun _ => []) (some 7) rfl rfl).2.1 rfl (fun _ => [])).2

/-- C23: `get_err_of_query_result` is the total mapping
`MC_TASK_INVALID_PARAMS` to `HB_MEDIA_ERR_INVALID_PARAMS`, `MC_TASK_NOT_EXIST`
and `MC_TASK_WRONG_APP_TYPE` to `HB_MEDIA_ERR_OPERATION_NOT_ALLOWED`,
`MC_TASK_WRONG_INST_IDX` to `HB_MEDIA_ERR_INVALID_INSTANCE`, `MC_TASK_EXIST` to
0 and every other value to `HB_MEDIA_ERR_UNKNOWN`.  With the error enumerators
of the header different from 0, it returns 0 if and only if the outcome is
`MC_TASK_EXIST`. -/
theorem C23_query_result_mapping (H : Header) :
    get_err_of_query_result H MC_TASK_INVALID_PARAMS = H.HB_MEDIA_ERR_INVALID_PARAMS ∧
      get_err_of_query_result H MC_TASK_NOT_EXIST = H.HB_MEDIA_ERR_OPERATION_NOT_ALLOWED ∧
      get_err_of_query_result H MC_TASK_WRONG_APP_TYPE = H.HB_MEDIA_ERR_OPERATION_NOT_ALLOWED ∧
      get_err_of_query_result H MC_TASK_WRONG_INST_IDX = H.HB_MEDIA_ERR_INVALID_INSTANCE ∧
      get_err_of_query_result H MC_TASK_EXIST = 0 ∧
      (∀ raw, get_err_of_query_result H (unrecognised raw) = H.HB_MEDIA_ERR_UNKNOWN) ∧
      (H.ErrorsNonZero → ∀ q, get_err_of_query_result H q = 0 ↔ q = MC_TASK_EXIST) := by
  refine ⟨by simp [get_err_of_query_result], by simp [get_err_of_query_result],
    by simp [get_err_of_query_result], by simp [get_err_of_query_result],
    by simp [get_err_of_query_result], fun raw => by simp [get_err_of_query_result], ?_⟩
  intro hH q
  constructor
  · intro h
    by_contra hq
    exact get_err_of_query_result_ne_zero H hH q hq h
  · rintro rfl
    simp [get_err_of_query_result]

/-- C23 at the sample header, whose error enumerators are negative: an
unrecognised outcome value 99 is mapped to `HB_MEDIA_ERR_UNKNOWN` and not
to 0. -/
theorem C23_query_result_mapping_witness :
    get_err_of_query_result sampleHeader (unrecognised 99) = -1 ∧
      ¬get_err_of_query_result sampleHeader (unrecognised 99) = 0 :=
  ⟨(C23_query_result_mapping sampleHeader).2.2.2.2.2.1 99,
    fun h => absurd (((C23_query_result_mapping sampleHeader).2.2.2.2.2.2 (by decide) _).mp h)
      (by decide)⟩

/-- C24: in `hb_mm_mc_initialize`, when the environment init succeeds and the
lookup reports `MC_TASK_EXIST`, `MCTaskInitLocked` is run again on the task
the lookup found with `context.instance_index` as its third argument (the
creation path passes `context.encoder` there); initialize returns what that
run returns and the context, `instance_index` included, is as before.  No task
is created or inserted. -/
theorem C24_initialize_existing_passes_instance_index (H : Header) (env : Env σ)
    (ctx : media_codec_context_t) (w w0 w1 w2 : σ) (task : Option MCTaskContext) (r : hb_s32)
    (hi : env.MCAppInitLocked ctx.codec_id w = (0, w0))
    (hl : env.MCAPPGetTaskLocked ctx w0 = ((MC_TASK_EXIST, task), w1))
    (ht : env.MCTaskInitLocked task ctx.codec_id ctx.instance_index ctx w1 = (r, w2)) :
    ( hb_mm_mc_initialize H env (some ctx)).run w =
      ⟨(r, some ctx), releaseWorld env task w2,
        Call.MCAppInitLocked ctx.codec_id :: Call.MCAPPGetTaskLocked ctx MC_TASK_EXIST task ::
          Call.MCTaskInitLocked task ctx.codec_id ctx.instance_index ctx ::
          releaseCalls task⟩ := by
  simp [ hb_mm_mc_initialize, Facade.run_bind, Facade.run_pure, Facade.run_call,
    Facade.run_ite, MCAppInitLocked, MCAPPGetTaskLocked, MCTaskInitLocked, hi, hl, ht,
    run_decRefIfHeld]

/-- C24 at the sample registry holding task 7, for a decoder context of
instance 7: the task level init is run with 7 as third argument although the
context's encoder flag is 0. -/
theorem C24_initialize_existing_passes_instance_index_witness :
    ( hb_mm_mc_initialize sampleHeader sampleEnv
        (some { h265EncoderAt7 with encoder := 0 })).run liveWorld =
      ⟨(0, some { h265EncoderAt7 with encoder := 0 }),
        { liveWorld with initRuns := 2 },
        [Call.MCAppInitLocked 1,
          Call.MCAPPGetTaskLocked { h265EncoderAt7 with encoder := 0 } MC_TASK_EXIST (some 7),
          Call.MCTaskInitLocked (some 7) 1 7 { h265EncoderAt7 with encoder := 0 },
          Call.MCTaskDecRef 7]⟩ :=
  C24_initialize_existing_passes_instance_index sampleHeader sampleEnv
    { h265EncoderAt7 with encoder := 0 } liveWorld _ _ _ (some 7) 0 rfl rfl rfl

/-- C25: with no live task (the lookup reports `MC_TASK_NOT_EXIST`), each
getter other than the two VUI getters calls its default table on the caller's
block exactly when `context.encoder != FALSE` and the getter's codec condition
holds, and otherwise returns `HB_MEDIA_ERR_OPERATION_NOT_ALLOWED` without
calling the table and with the block as it was.  The conditions are: rate
control and slice, app-type VIDEO or JPEG; SAO and mode decision, codec H265;
3DNR, app-type VIDEO and codec H265; entropy, codec H264; MJPEG and JPEG
blocks, codec MJPEG and JPEG; encode mode, none; every other getter, app-type
VIDEO. -/
theorem C25_getter_defaults_by_codec (H : Header) (env : Env σ) (ctx : media_codec_context_t)
    (op : GetConfigOp) (blk : Blob) (w w1 : σ) (task : Option MCTaskContext)
    (hnf : op.needsFrameRate = false)
    (hl : env.MCAPPGetTaskLocked ctx w = ((MC_TASK_NOT_EXIST, task), w1)) :
    (ctx.encoder ≠ FALSE ∧ op.codecApplies H env ctx.codec_id →
        (op.run H env (some ctx) (some blk)).run w =
          ⟨(if op.returnsProviderCode = true then
                (env.default_params (op.provider env ctx) blk).1 else 0,
              some (env.default_params (op.provider env ctx) blk).2),
            releaseWorld env task w1,
            Call.MCAPPGetTaskLocked ctx MC_TASK_NOT_EXIST task ::
              Call.default_params (op.provider env ctx) blk :: releaseCalls task⟩) ∧
      (¬(ctx.encoder ≠ FALSE ∧ op.codecApplies H env ctx.codec_id) →
        (op.run H env (some ctx) (some blk)).run w =
          ⟨(H.HB_MEDIA_ERR_OPERATION_NOT_ALLOWED, some blk), releaseWorld env task w1,
            Call.MCAPPGetTaskLocked ctx MC_TASK_NOT_EXIST task :: releaseCalls task⟩) := by
  rw [get_config_fallback_run H env ctx op blk w w1 MC_TASK_NOT_EXIST task hl (by decide)
    (by decide) (by decide)]
  constructor
  · intro h
    rw [if_pos ⟨h.1, h.2, fun hn => absurd hn (by simp [hnf])⟩]
  · intro h
    rw [if_neg (fun hc => h ⟨hc.1, hc.2.1⟩)]

/-- C25 at the empty sample registry: the encode-mode getter serves its
default to an AAC encoder context (codec id 9, app-type neither VIDEO nor
JPEG), and the SAO getter refuses the same context. -/
theorem C25_getter_defaults_by_codec_witness :
    ((GetConfigOp.get_encode_mode_config.run sampleHeader sampleEnv
        (some { h265Encoder with codec_id := 9 }) (some [9])).run emptyWorld).val =
        (0, some [42]) ∧
      ((GetConfigOp.get_sao_config.run sampleHeader sampleEnv
        (some { h265Encoder with codec_id := 9 }) (some [9])).run emptyWorld).val =
        (sampleHeader.HB_MEDIA_ERR_OPERATION_NOT_ALLOWED, some [9]) :=
  ⟨congrArg Outcome.val ((C25_getter_defaults_by_codec sampleHeader sampleEnv
      { h265Encoder with codec_id := 9 } GetConfigOp.get_encode_mode_config [9] emptyWorld _
      none rfl rfl).1 (by decide)),
    congrArg Outcome.val ((C25_getter_defaults_by_codec sampleHeader sampleEnv
      { h265Encoder with codec_id := 9 } GetConfigOp.get_sao_config [9] emptyWorld _
      none rfl rfl).2 (by decide))⟩

/-- Every getter, when the lookup outcome is `MC_TASK_INVALID_PARAMS` or
`MC_TASK_WRONG_INST_IDX`: the mapped lookup error, the block as it was, no
default table. -/
theorem get_config_error_run (H : Header) (env : Env σ) (ctx : media_codec_context_t)
    (op : GetConfigOp) (blk : Blob) (w w1 : σ) (q : MCTaskQueryError)
    (p : Option MCTaskContext) (hl : env.MCAPPGetTaskLocked ctx w = ((q, p), w1))
    (hq : q = MC_TASK_INVALID_PARAMS ∨ q = MC_TASK_WRONG_INST_IDX) :
    (op.run H env (some ctx) (some blk)).run w =
      ⟨(get_err_of_query_result H q, some blk), releaseWorld env p w1,
        Call.MCAPPGetTaskLocked ctx q p :: releaseCalls p⟩ := by
  rcases hq with rfl | rfl <;> cases op <;>
    simp [GetConfigOp.run,
      hb_mm_mc_get_longterm_ref_mode, hb_mm_mc_get_intra_refresh_config,
      hb_mm_mc_get_rate_control_config, hb_mm_mc_get_max_bit_rate_config,
      hb_mm_mc_get_deblk_filter_config, hb_mm_mc_get_sao_config, hb_mm_mc_get_entropy_config,
      hb_mm_mc_get_vui_timing_config, hb_mm_mc_get_vui_config, hb_mm_mc_get_slice_config,
      hb_mm_mc_get_3dnr_enc_config, hb_mm_mc_get_smart_bg_enc_config,
      hb_mm_mc_get_monochroma_config, hb_mm_mc_get_pred_unit_config,
      hb_mm_mc_get_transform_config, hb_mm_mc_get_roi_config, hb_mm_mc_get_roi_avg_qp,
      hb_mm_mc_get_roi_config_ex, hb_mm_mc_get_mode_decision_config,
      hb_mm_mc_get_encode_mode_config, hb_mm_mc_get_explicit_header_config,
      hb_mm_mc_get_mjpeg_config, hb_mm_mc_get_jpeg_config,
      Facade.run_bind, Facade.run_pure, Facade.run_call, Facade.run_ite, MCAPPGetTaskLocked,
      hl, run_decRefIfHeld]

/-- C26: `hb_mm_mc_get_state` and every get-config operation fail with the
mapped lookup error exactly for the outcomes `MC_TASK_INVALID_PARAMS`
(`HB_MEDIA_ERR_INVALID_PARAMS`) and `MC_TASK_WRONG_INST_IDX`
(`HB_MEDIA_ERR_INVALID_INSTANCE`), leaving `*state` or the block as it was.
For every other outcome than these two and `MC_TASK_EXIST`, so also for
`MC_TASK_WRONG_APP_TYPE` and for unrecognised values, they take the no-task
branch: get_state answers 0 with `MEDIA_CODEC_STATE_UNINITIALIZED`, a getter
answers with its default or `HB_MEDIA_ERR_OPERATION_NOT_ALLOWED`, by the same
condition as for `MC_TASK_NOT_EXIST`. -/
theorem C26_fallback_for_every_other_outcome (H : Header) (env : Env σ)
    (ctx : media_codec_context_t) (op : GetConfigOp) (blk : Blob) (st : media_codec_state_t)
    (w w1 : σ) (q : MCTaskQueryError) (p : Option MCTaskContext)
    (hl : env.MCAPPGetTaskLocked ctx w = ((q, p), w1)) (hq : q ≠ MC_TASK_EXIST) :
    (q ≠ MC_TASK_INVALID_PARAMS → q ≠ MC_TASK_WRONG_INST_IDX →
        (hb_mm_mc_get_state H env (some ctx) (some st)).run w =
          ⟨(0, some MEDIA_CODEC_STATE_UNINITIALIZED), releaseWorld env p w1,
            Call.MCAPPGetTaskLocked ctx q p :: releaseCalls p⟩ ∧
        (op.run H env (some ctx) (some blk)).run w =
          if ctx.encoder ≠ FALSE ∧ op.codecApplies H env ctx.codec_id ∧
              (op.needsFrameRate = true → env.mc_video_get_enc_frame_rate ctx ≠ 0) then
            ⟨(if op.returnsProviderCode = true then
                  (env.default_params (op.provider env ctx) blk).1 else 0,
                some (env.default_params (op.provider env ctx) blk).2),
              releaseWorld env p w1,
              Call.MCAPPGetTaskLocked ctx q p :: Call.default_params (op.provider env ctx) blk ::
                releaseCalls p⟩
          else
            ⟨(H.HB_MEDIA_ERR_OPERATION_NOT_ALLOWED, some blk), releaseWorld env p w1,
              Call.MCAPPGetTaskLocked ctx q p :: releaseCalls p⟩) ∧
      (q = MC_TASK_INVALID_PARAMS →
        (hb_mm_mc_get_state H env (some ctx) (some st)).run w =
          ⟨(H.HB_MEDIA_ERR_INVALID_PARAMS, some st), releaseWorld env p w1,
            Call.MCAPPGetTaskLocked ctx q p :: releaseCalls p⟩ ∧
        (op.run H env (some ctx) (some blk)).run w =
          ⟨(H.HB_MEDIA_ERR_INVALID_PARAMS, some blk), releaseWorld env p w1,
            Call.MCAPPGetTaskLocked ctx q p :: releaseCalls p⟩) ∧
      (q = MC_TASK_WRONG_INST_IDX →
        (hb_mm_mc_get_state H env (some ctx) (some st)).run w =
          ⟨(H.HB_MEDIA_ERR_INVALID_INSTANCE, some st), releaseWorld env p w1,
            Call.MCAPPGetTaskLocked ctx q p :: releaseCalls p⟩ ∧
        (op.run H env (some ctx) (some blk)).run w =
          ⟨(H.HB_MEDIA_ERR_INVALID_INSTANCE, some blk), releaseWorld env p w1,
            Call.MCAPPGetTaskLocked ctx q p :: releaseCalls p⟩) := by
  refine ⟨fun h2 h3 => ⟨?_, get_config_fallback_run H env ctx op blk w w1 q p hl hq h2 h3⟩,
    fun h2 => ⟨?_, ?_⟩, fun h3 => ⟨?_, ?_⟩⟩
  · simp [hb_mm_mc_get_state, Facade.run_bind, Facade.run_pure, Facade.run_call,
      Facade.run_ite, MCAPPGetTaskLocked, hl, hq, h2, h3, run_decRefIfHeld]
  · subst h2
    simp [hb_mm_mc_get_state, Facade.run_bind, Facade.run_pure, Facade.run_call,
      Facade.run_ite, MCAPPGetTaskLocked, hl, run_decRefIfHeld, get_err_of_query_result]
  · rw [get_config_error_run H env ctx op blk w w1 q p hl (Or.inl h2), h2]
    simp [get_err_of_query_result]
  · subst h3
    simp [hb_mm_mc_get_state, Facade.run_bind, Facade.run_pure, Facade.run_call,
      Facade.run_ite, MCAPPGetTaskLocked, hl, run_decRefIfHeld, get_err_of_query_result]
  · rw [get_config_error_run H env ctx op blk w w1 q p hl (Or.inr h3), h3]
    simp [get_err_of_query_result]

/-- C26 at the sample registry holding an H.265 task.  For a JPEG encoder
context the lookup reports `MC_TASK_WRONG_APP_TYPE`, and get_state answers 0
with `MEDIA_CODEC_STATE_UNINITIALIZED`; for a context with instance index 40
the lookup reports `MC_TASK_WRONG_INST_IDX`, and get_state fails with
`HB_MEDIA_ERR_INVALID_INSTANCE`, `*state` as it was. -/
theorem C26_fallback_for_every_other_outcome_witness :
    ((hb_mm_mc_get_state sampleHeader sampleEnv (some jpegEncoder)
        (some MEDIA_CODEC_STATE_NONE)).run liveWorld).val =
        (0, some MEDIA_CODEC_STATE_UNINITIALIZED) ∧
      ((hb_mm_mc_get_state sampleHeader sampleEnv (some { h265Encoder with instance_index := 40 })
        (some MEDIA_CODEC_STATE_NONE)).run liveWorld).val =
        (sampleHeader.HB_MEDIA_ERR_INVALID_INSTANCE, some MEDIA_CODEC_STATE_NONE) :=
  ⟨congrArg Outcome.val (((C26_fallback_for_every_other_outcome sampleHeader sampleEnv
      jpegEncoder GetConfigOp.get_sao_config [9] MEDIA_CODEC_STATE_NONE liveWorld _
      MC_TASK_WRONG_APP_TYPE none rfl (by decide)).1 (by decide) (by decide)).1),
    congrArg Outcome.val (((C26_fallback_for_every_other_outcome sampleHeader sampleEnv
      { h265Encoder with instance_index := 40 } GetConfigOp.get_sao_config [9]
      MEDIA_CODEC_STATE_NONE liveWorld _ MC_TASK_WRONG_INST_IDX none rfl
      (by decide)).2.2 rfl).1)⟩

/-- The calls of `hb_mm_mc_release`, path by path. -/
theorem release_calls (H : Header) (env : Env σ) (ctx : media_codec_context_t) (w : σ) :
    ((hb_mm_mc_release H env (some ctx)).run w).calls =
      Call.MCAPPGetTaskLocked ctx (env.MCAPPGetTaskLocked ctx w).1.1
          (env.MCAPPGetTaskLocked ctx w).1.2 ::
        ((if (env.MCAPPGetTaskLocked ctx w).1.1 = MC_TASK_EXIST then
            Call.MCTaskRelease (env.MCAPPGetTaskLocked ctx w).1.2 ::
              (if (env.MCTaskRelease (env.MCAPPGetTaskLocked ctx w).1.2
                  (env.MCAPPGetTaskLocked ctx w).2).1 = 0 then
                [Call.MCAppDeleteTaskLocked (env.MCAPPGetTaskLocked ctx w).1.2]
              else [])
          else []) ++ releaseCalls (env.MCAPPGetTaskLocked ctx w).1.2) := by
  rcases hl : env.MCAPPGetTaskLocked ctx w with ⟨⟨q, p⟩, w1⟩
  rcases hr : env.MCTaskRelease p w1 with ⟨r, w2⟩
  by_cases hq : q = MC_TASK_EXIST <;> by_cases h0 : r = 0 <;>
    simp [hb_mm_mc_release, Facade.calls_bind, Facade.calls_pure, Facade.calls_call,
      Facade.calls_ite, Facade.val_bind, Facade.val_call, Facade.world_bind, Facade.world_call,
      Facade.val_pure, Facade.world_pure, Facade.run_bind, Facade.run_call, Facade.run_ite,
      Facade.run_pure, MCAPPGetTaskLocked, MCTaskRelease, MCAppDeleteTaskLocked, hl, hr, hq, h0,
      calls_decRefIfHeld]

/-- C27: wherever `MCAppDeleteTaskLocked` occurs among the calls of
`hb_mm_mc_release`, the calls before it are exactly the lookup that reported
`MC_TASK_EXIST` and `MCTaskRelease` on the pointer the lookup handed out, the
removal is requested for that same pointer, and the calls after it are the
release of that pointer.  So no `MCTaskDecRef` precedes the removal: in the
model where the lookup takes one reference, the count of the task is one
higher than at entry when the removal is requested, and the single
`MCTaskDecRef` on that task follows it. -/
theorem C27_release_removes_before_decref (H : Header) (env : Env σ)
    (ctx : media_codec_context_t) (w : σ) (front back : List Call)
    (removed : Option MCTaskContext)
    (h : ((hb_mm_mc_release H env (some ctx)).run w).calls =
      front ++ Call.MCAppDeleteTaskLocked removed :: back) :
    front = [Call.MCAPPGetTaskLocked ctx MC_TASK_EXIST removed, Call.MCTaskRelease removed] ∧
      back = releaseCalls removed ∧
      decRefs front = [] ∧
      ∀ t, removed = some t → refDelta t front = 1 ∧ decRefs back = [t] := by
  rw [release_calls] at h
  rcases hl : env.MCAPPGetTaskLocked ctx w with ⟨⟨q, p⟩, w1⟩
  rw [hl] at h
  simp only at h
  have key : front = [Call.MCAPPGetTaskLocked ctx MC_TASK_EXIST removed,
      Call.MCTaskRelease removed] ∧ back = releaseCalls removed := by
    by_cases hq : q = MC_TASK_EXIST
    · subst hq
      by_cases h0 : (env.MCTaskRelease p w1).1 = 0
      · rw [if_pos rfl, if_pos h0] at h
        rcases front with _ | ⟨a, _ | ⟨b, _ | ⟨c, front⟩⟩⟩
        · simp at h
        · simp at h
        · simp only [List.cons_append, List.nil_append, List.singleton_append, List.cons.injEq,
            Call.MCAppDeleteTaskLocked.injEq] at h
          obtain ⟨rfl, rfl, rfl, rfl⟩ := h
          exact ⟨rfl, rfl⟩
        · cases p <;> simp [releaseCalls] at h
          rcases front with _ | ⟨d, front⟩ <;> simp at h
      · rw [if_pos rfl, if_neg h0] at h
        rcases front with _ | ⟨a, _ | ⟨b, front⟩⟩ <;> cases p <;> simp [releaseCalls] at h
        rcases front with _ | ⟨d, front⟩ <;> simp at h
    · rw [if_neg hq] at h
      rcases front with _ | ⟨a, front⟩ <;> cases p <;> simp [releaseCalls] at h
      rcases front with _ | ⟨d, front⟩ <;> simp at h
  obtain ⟨rfl, rfl⟩ := key
  refine ⟨rfl, rfl, rfl, ?_⟩
  rintro t rfl
  exact ⟨by simp [refDelta, Call.refChange], rfl⟩

/-- C27 at the sample registry holding task 7: the calls of release split
around the removal into the lookup and the task level release before it and
the one `MCTaskDecRef 7` after it. -/
theorem C27_release_removes_before_decref_witness :
    refDelta 7 [Call.MCAPPGetTaskLocked h265EncoderAt7 MC_TASK_EXIST (some 7),
        Call.MCTaskRelease (some 7)] = 1 ∧
      decRefs [Call.MCTaskDecRef 7] = [7] :=
  (C27_release_removes_before_decref sampleHeader sampleEnv h265EncoderAt7 liveWorld
    [Call.MCAPPGetTaskLocked h265EncoderAt7 MC_TASK_EXIST (some 7), Call.MCTaskRelease (some 7)]
    [Call.MCTaskDecRef 7] (some 7) rfl).2.2.2 7 rfl

/-- C28: for an encoder context of app-type VIDEO and a lookup that reports
`MC_TASK_NOT_EXIST`, `hb_mm_mc_get_vui_timing_config` and
`hb_mm_mc_get_vui_config` return `HB_MEDIA_ERR_OPERATION_NOT_ALLOWED` without
calling a default table, the block as it was, when the encoder frame rate of
the context is 0; when it is not 0 they call their default table with
`codec_id` and that frame rate and return 0 with the table's output in the
block. -/
theorem C28_vui_defaults_need_frame_rate (H : Header) (env : Env σ)
    (ctx : media_codec_context_t) (blk : Blob) (w w1 : σ) (task : Option MCTaskContext)
    (happ : env.MCTaskGetAppType ctx.codec_id = MC_APP_VIDEO) (henc : ctx.encoder ≠ FALSE)
    (hl : env.MCAPPGetTaskLocked ctx w = ((MC_TASK_NOT_EXIST, task), w1)) :
    (env.mc_video_get_enc_frame_rate ctx = 0 →
        (hb_mm_mc_get_vui_timing_config H env (some ctx) (some blk)).run w =
          ⟨(H.HB_MEDIA_ERR_OPERATION_NOT_ALLOWED, some blk), releaseWorld env task w1,
            Call.MCAPPGetTaskLocked ctx MC_TASK_NOT_EXIST task :: releaseCalls task⟩ ∧
        (hb_mm_mc_get_vui_config H env (some ctx) (some blk)).run w =
          ⟨(H.HB_MEDIA_ERR_OPERATION_NOT_ALLOWED, some blk), releaseWorld env task w1,
            Call.MCAPPGetTaskLocked ctx MC_TASK_NOT_EXIST task :: releaseCalls task⟩) ∧
      (env.mc_video_get_enc_frame_rate ctx ≠ 0 →
        (hb_mm_mc_get_vui_timing_config H env (some ctx) (some blk)).run w =
          ⟨(0, some (env.default_params (mc_video_get_default_VUITiming_params ctx.codec_id
              (env.mc_video_get_enc_frame_rate ctx)) blk).2),
            releaseWorld env task w1,
            Call.MCAPPGetTaskLocked ctx MC_TASK_NOT_EXIST task ::
              Call.default_params (mc_video_get_default_VUITiming_params ctx.codec_id
                (env.mc_video_get_enc_frame_rate ctx)) blk :: releaseCalls task⟩ ∧
        (hb_mm_mc_get_vui_config H env (some ctx) (some blk)).run w =
          ⟨(0, some (env.default_params (mc_video_get_default_VUI_params ctx.codec_id
              (env.mc_video_get_enc_frame_rate ctx)) blk).2),
            releaseWorld env task w1,
            Call.MCAPPGetTaskLocked ctx MC_TASK_NOT_EXIST task ::
              Call.default_params (mc_video_get_default_VUI_params ctx.codec_id
                (env.mc_video_get_enc_frame_rate ctx)) blk :: releaseCalls task⟩) := by
  have ht := get_config_fallback_run H env ctx GetConfigOp.get_vui_timing_config blk w w1
    MC_TASK_NOT_EXIST task hl (by decide) (by decide) (by decide)
  have hv := get_config_fallback_run H env ctx GetConfigOp.get_vui_config blk w w1
    MC_TASK_NOT_EXIST task hl (by decide) (by decide) (by decide)
  simp only [GetConfigOp.run] at ht hv
  rw [ht, hv]
  constructor
  · intro h0
    simp [GetConfigOp.needsFrameRate, h0]
  · intro h1
    simp [GetConfigOp.codecApplies, GetConfigOp.needsFrameRate, GetConfigOp.returnsProviderCode,
      GetConfigOp.provider, henc, happ, h1]

/-- C28 at the empty sample registry: for the H.265 encoder context whose
frame rate word is 30 the VUI getter returns 0 with the default in the block;
for the zeroed context (frame rate 0) it was refused. -/
theorem C28_vui_defaults_need_frame_rate_witness :
    ((hb_mm_mc_get_vui_config sampleHeader sampleEnv
        (some { h265Encoder with video_enc_params := [30] }) (some [9])).run emptyWorld).val =
        (0, some [42]) ∧
      ((hb_mm_mc_get_vui_config sampleHeader sampleEnv (some h265Encoder)
        (some [9])).run emptyWorld).val =
        (sampleHeader.HB_MEDIA_ERR_OPERATION_NOT_ALLOWED, some [9]) :=
  ⟨congrArg Outcome.val ((C28_vui_defaults_need_frame_rate sampleHeader sampleEnv
      { h265Encoder with video_enc_params := [30] } [9] emptyWorld _ none rfl (by decide)
      rfl).2 (by decide)).2,
    congrArg Outcome.val ((C28_vui_defaults_need_frame_rate sampleHeader sampleEnv h265Encoder
      [9] emptyWorld _ none rfl (by decide) rfl).1 rfl).2⟩

/-- C29: for a `codec_id` strictly between `MEDIA_CODEC_ID_NONE` and
`MEDIA_CODEC_ID_TOTAL` that is none of the ten ids the switch names, and an
encoder flag that is `TRUE` or `FALSE`, `hb_mm_mc_get_default_context` returns
`HB_MEDIA_ERR_INVALID_PARAMS` and leaves a context in which `codec_id` and
`encoder` hold the requested values while `instance_index` and the four
parameter blocks are as before. -/
theorem C29_get_default_context_not_atomic (H : Header) (dflt : ContextDefault → Blob → Blob)
    (codec_id : media_codec_id_t) (encoder : hb_bool) (ctx : media_codec_context_t)
    (hlo : H.MEDIA_CODEC_ID_NONE < codec_id) (hhi : codec_id < H.MEDIA_CODEC_ID_TOTAL)
    (hid : codec_id ∉ H.defaultTables.map (·.1))
    (henc : encoder = TRUE ∨ encoder = FALSE) :
    hb_mm_mc_get_default_context H dflt codec_id encoder (some ctx) =
      (H.HB_MEDIA_ERR_INVALID_PARAMS,
        some { ctx with codec_id := codec_id, encoder := encoder }) := by
  have h1 : ¬(codec_id ≤ H.MEDIA_CODEC_ID_NONE ∨ codec_id ≥ H.MEDIA_CODEC_ID_TOTAL) :=
    not_or.mpr ⟨not_le.mpr hlo, not_le.mpr hhi⟩
  have h2 : ¬(encoder ≠ TRUE ∧ encoder ≠ FALSE) := fun h => henc.elim h.1 h.2
  simp only [Header.defaultTables, List.map_cons, List.map_nil, List.mem_cons,
    List.not_mem_nil, or_false, not_or] at hid
  unfold hb_mm_mc_get_default_context
  simp [h1, h2, hid]

/-- C29 at the sample header, where 10 is a codec id inside the range without
a default table: the JPEG encoder context comes back with codec id 10 and
encoder flag 0, and the call has failed. -/
theorem C29_get_default_context_not_atomic_witness :
    hb_mm_mc_get_default_context sampleHeader (fun _ b => 42 :: b) 10 FALSE (some jpegEncoder) =
      (sampleHeader.HB_MEDIA_ERR_INVALID_PARAMS,
        some { jpegEncoder with codec_id := 10, encoder := 0 }) :=
  C29_get_default_context_not_atomic sampleHeader (fun _ b => 42 :: b) 10 FALSE jpegEncoder
    (by decide) (by decide) (by decide) (Or.inr rfl)

/-- C30: with a context and a lookup that reports `MC_TASK_EXIST`, a `NULL`
info pointer given to `hb_mm_mc_dequeue_output_buffer`, `NULL` startup
parameters given to `hb_mm_mc_start` and a `NULL` data pointer (with any
length) given to `hb_mm_mc_insert_user_data` are not rejected: each operation
hands the `NULL` on to its task operation as it is and returns that
operation's result. -/
theorem C30_unchecked_pointers_forwarded (H : Header) (env : Env σ)
    (ctx : media_codec_context_t) (w w1 : σ) (task : Option MCTaskContext) (buf : Blob)
    (timeout : hb_s32) (length : hb_u32)
    (hl : env.MCAPPGetTaskLocked ctx w = ((MC_TASK_EXIST, task), w1)) :
    (hb_mm_mc_dequeue_output_buffer H env (some ctx) (some buf) none timeout).run w =
        ⟨((env.MCTaskDequeueOutputBufferLocked task buf none timeout w1).1.1,
            some (env.MCTaskDequeueOutputBufferLocked task buf none timeout w1).1.2.1,
            (env.MCTaskDequeueOutputBufferLocked task buf none timeout w1).1.2.2),
          releaseWorld env task (env.MCTaskDequeueOutputBufferLocked task buf none timeout w1).2,
          Call.MCAPPGetTaskLocked ctx MC_TASK_EXIST task ::
            Call.MCTaskDequeueOutputBufferLocked task buf none timeout :: releaseCalls task⟩ ∧
      (hb_mm_mc_start H env (some ctx) none).run w =
        ⟨(env.MCTaskStartLocked task none w1).1,
          releaseWorld env task (env.MCTaskStartLocked task none w1).2,
          Call.MCAPPGetTaskLocked ctx MC_TASK_EXIST task ::
            Call.MCTaskStartLocked task none :: releaseCalls task⟩ ∧
      (hb_mm_mc_insert_user_data H env (some ctx) none length).run w =
        ⟨(env.MCTaskSetConfig task ctx ENC_CONFIG_INSERT_USERDATA
            (ConfigArg.user_data length none) w1).1,
          releaseWorld env task (env.MCTaskSetConfig task ctx ENC_CONFIG_INSERT_USERDATA
            (ConfigArg.user_data length none) w1).2,
          Call.MCAPPGetTaskLocked ctx MC_TASK_EXIST task ::
            Call.MCTaskSetConfig task ctx ENC_CONFIG_INSERT_USERDATA
              (ConfigArg.user_data length none) :: releaseCalls task⟩ := by
  refine ⟨?_, ?_, ?_⟩
  · simp [hb_mm_mc_dequeue_output_buffer, Facade.run_bind, Facade.run_pure, Facade.run_call,
      Facade.run_ite, MCAPPGetTaskLocked, MCTaskDequeueOutputBufferLocked, hl, run_decRefIfHeld]
  · simp [hb_mm_mc_start, Facade.run_bind, Facade.run_pure, Facade.run_call,
      Facade.run_ite, MCAPPGetTaskLocked, MCTaskStartLocked, hl, run_decRefIfHeld]
  · simp [hb_mm_mc_insert_user_data, Facade.run_bind, Facade.run_pure, Facade.run_call,
      Facade.run_ite, MCAPPGetTaskLocked, MCTaskSetConfig, hl, run_decRefIfHeld]

/-- C30 at the sample registry holding task 7: start with `NULL` startup
parameters reaches `MCTaskStartLocked` with `NULL` and returns its 0. -/
theorem C30_unchecked_pointers_forwarded_witness :
    (hb_mm_mc_start sampleHeader sampleEnv (some h265EncoderAt7) none).run liveWorld =
      ⟨0, liveWorld,
        [Call.MCAPPGetTaskLocked h265EncoderAt7 MC_TASK_EXIST (some 7),
          Call.MCTaskStartLocked (some 7) none, Call.MCTaskDecRef 7]⟩ :=
  (C30_unchecked_pointers_forwarded sampleHeader sampleEnv h265EncoderAt7 liveWorld _ (some 7)
    [0] 0 0 rfl).2.1


end Claims

end MediaCodec
